import Mathlib

/-!
The node vtkMRMLTransformProcessorNode.

A shallow embedding of `TransformProcessor/MRML/vtkMRMLTransformProcessorNode.cxx`:
the mode configuration of the node, its setters, the duplicate-axis correction,
the enum/string conversions and the role-keyed node references.

Conventions of the embedding.

* A C++ `int` is an `Int`; no arithmetic is done on the enum fields, only
  comparisons, so the machine width plays no part.
* A member function that mutates `this` is a function `Node → Node × List Event`:
  the new state and the events it raised, in the order they were raised.
  `Event.Modified` stands for `this->Modified()`, `Event.InputDataModified` for
  `this->InvokeCustomModifiedEvent( InputDataModifiedEvent )`, and
  `Event.Warning` for a `vtkWarningMacro` report. Events are taken to be
  delivered at once (the node is not inside a `StartModify` batch).
* A `vtkMRMLLinearTransformNode*` is an `Option Handle`: `none` is `NULL`, and
  `some h` is the object with identity `h`. The role table stores handles; what
  a getter returns for a stored handle is decided by the directory (`Scene`):
  a handle that it does not resolve, or resolves to a node that is not a linear
  transform, is read as `NULL` while it stays stored.
-/

namespace vtkMRMLTransformProcessorNode

/-! ## Enumerations -/

/-- Modelled from the spec: the enum declarations are in the header
`vtkMRMLTransformProcessorNode.h`, which is not among the sources. The values
follow the order in which the spec lists the processing modes
(QuaternionAverage, ComputeShaftPivot, ComputeRotation, ComputeTranslation,
ComputeFullTransform, ComputeInverse), counted from zero. -/
def PROCESSING_MODE_QUATERNION_AVERAGE : Int := 0
/-- Modelled from the spec: second processing mode of the header enum. -/
def PROCESSING_MODE_COMPUTE_SHAFT_PIVOT : Int := 1
/-- Modelled from the spec: third processing mode of the header enum. -/
def PROCESSING_MODE_COMPUTE_ROTATION : Int := 2
/-- Modelled from the spec: fourth processing mode of the header enum. -/
def PROCESSING_MODE_COMPUTE_TRANSLATION : Int := 3
/-- Modelled from the spec: fifth processing mode of the header enum. -/
def PROCESSING_MODE_COMPUTE_FULL_TRANSFORM : Int := 4
/-- Modelled from the spec: sixth processing mode of the header enum. -/
def PROCESSING_MODE_COMPUTE_INVERSE : Int := 5
/-- Modelled from the spec: the bound that closes the processing-mode enum. -/
def PROCESSING_MODE_LAST : Int := 6

/-- Modelled from the spec: update modes of the header enum (Manual, Auto). -/
def UPDATE_MODE_MANUAL : Int := 0
/-- Modelled from the spec: second update mode of the header enum. -/
def UPDATE_MODE_AUTO : Int := 1
/-- Modelled from the spec: the bound that closes the update-mode enum. -/
def UPDATE_MODE_LAST : Int := 2

/-- Modelled from the spec: rotation modes of the header enum
(CopyAllAxes, CopySingleAxis). -/
def ROTATION_MODE_COPY_ALL_AXES : Int := 0
/-- Modelled from the spec: second rotation mode of the header enum. -/
def ROTATION_MODE_COPY_SINGLE_AXIS : Int := 1
/-- Modelled from the spec: the bound that closes the rotation-mode enum. -/
def ROTATION_MODE_LAST : Int := 2

/-- Modelled from the spec: dependent-axes modes of the header enum
(FromPivot, FromSecondaryAxis). -/
def DEPENDENT_AXES_MODE_FROM_PIVOT : Int := 0
/-- Modelled from the spec: second dependent-axes mode of the header enum. -/
def DEPENDENT_AXES_MODE_FROM_SECONDARY_AXIS : Int := 1
/-- Modelled from the spec: the bound that closes the dependent-axes enum. -/
def DEPENDENT_AXES_MODE_LAST : Int := 2

/-- Modelled from the spec: axis labels of the header enum (X, Y, Z). -/
def AXIS_LABEL_X : Int := 0
/-- Modelled from the spec: second axis label of the header enum. -/
def AXIS_LABEL_Y : Int := 1
/-- Modelled from the spec: third axis label of the header enum. -/
def AXIS_LABEL_Z : Int := 2
/-- Modelled from the spec: the bound that closes the axis-label enum. -/
def AXIS_LABEL_LAST : Int := 3

/-! ## Role names -/

def ROLE_INPUT_COMBINE_TRANSFORM : String := "InputCombineTransform"
def ROLE_INPUT_FROM_TRANSFORM : String := "InputFromTransform"
def ROLE_INPUT_TO_TRANSFORM : String := "InputToTransform"
def ROLE_INPUT_INITIAL_TRANSFORM : String := "InputInitialTransform"
def ROLE_INPUT_CHANGED_TRANSFORM : String := "InputChangedTransform"
def ROLE_INPUT_ANCHOR_TRANSFORM : String := "InputAnchorTransform"
def ROLE_INPUT_FORWARD_TRANSFORM : String := "InputForwardTransform"
def ROLE_OUTPUT_TRANSFORM : String := "OutputTransform"

/-! ## State -/

/-- Identity of a referenced transform node. -/
abbrev Handle := Nat

/-- Modelled from the spec: the node-reference storage of the superclass
`vtkMRMLNode` is not among the sources. Following the spec's
RoleReferenceTable, it is a mapping from role names to ordered lists of
handles. -/
abbrev RoleTable := String → List Handle

/-- Modelled from the spec: the directory of section 6 that resolves a stored
handle to the live object or to null (`resolves`), together with the run-time
type of the object, which decides `vtkMRMLLinearTransformNode::SafeDownCast`
(`isLinearTransform`). It belongs to the host, not to the node, and is an
argument of every function that reads a reference. -/
structure Scene where
  resolves : Handle → Bool
  isLinearTransform : Handle → Bool

/-- The directory resolves the handle, and to a linear transform node: the
getters of the node return such a handle when it is stored. -/
def Scene.resolvesToLinearTransform (scene : Scene) (h : Handle) : Bool :=
  scene.resolves h && scene.isLinearTransform h

/-- What a member function can raise. -/
inductive Event where
  | Modified
  | InputDataModified
  | Warning
  deriving DecidableEq, Repr

/-- The data members of the node. `UpdatesPerSecond` is declared in the header
(a numeric rate); the source only assigns the constant 60 to it, copies it and
reads it from a stream, so it is kept as an integer here. -/
structure Node where
  UpdatesPerSecond : Int
  ProcessingMode : Int
  UpdateMode : Int
  CopyTranslationComponents0 : Bool
  CopyTranslationComponents1 : Bool
  CopyTranslationComponents2 : Bool
  RotationMode : Int
  PrimaryAxisLabel : Int
  DependentAxesMode : Int
  SecondaryAxisLabel : Int
  NodeReferences : RoleTable

/-- Number of `InputDataModifiedEvent` notifications in an event trace. -/
def notifications (log : List Event) : Nat :=
  log.count Event.InputDataModified

/-- The constructor: every role is registered without a reference, and the
parameters get their initial values. -/
def constructor : Node :=
  { UpdatesPerSecond := 60
    ProcessingMode := PROCESSING_MODE_QUATERNION_AVERAGE
    UpdateMode := UPDATE_MODE_MANUAL
    CopyTranslationComponents0 := true
    CopyTranslationComponents1 := true
    CopyTranslationComponents2 := true
    RotationMode := ROTATION_MODE_COPY_ALL_AXES
    PrimaryAxisLabel := AXIS_LABEL_Z
    DependentAxesMode := DEPENDENT_AXES_MODE_FROM_PIVOT
    SecondaryAxisLabel := AXIS_LABEL_Y
    NodeReferences := fun _ => [] }

/-! ## Mode setters -/

def SetProcessingMode (newProcessingMode : Int) (self : Node) : Node × List Event :=
  let validMode : Bool := decide (newProcessingMode ≥ 0 ∧ newProcessingMode < PROCESSING_MODE_LAST)
  if validMode = false then
    (self, [Event.Warning])
  else if self.ProcessingMode = newProcessingMode then
    (self, [])
  else
    ({ self with ProcessingMode := newProcessingMode },
      [Event.Modified, Event.InputDataModified])

def SetUpdateMode (newUpdateMode : Int) (self : Node) : Node × List Event :=
  let validMode : Bool := decide (newUpdateMode ≥ 0 ∧ newUpdateMode < UPDATE_MODE_LAST)
  if validMode = false then
    (self, [Event.Warning])
  else if self.UpdateMode = newUpdateMode then
    (self, [])
  else
    ({ self with UpdateMode := newUpdateMode },
      [Event.Modified, Event.InputDataModified])

def SetCopyTranslationX (enabled : Bool) (self : Node) : Node × List Event :=
  if self.CopyTranslationComponents0 = enabled then
    (self, [])
  else
    ({ self with CopyTranslationComponents0 := enabled },
      [Event.Modified, Event.InputDataModified])

def SetCopyTranslationY (enabled : Bool) (self : Node) : Node × List Event :=
  if self.CopyTranslationComponents1 = enabled then
    (self, [])
  else
    ({ self with CopyTranslationComponents1 := enabled },
      [Event.Modified, Event.InputDataModified])

def SetCopyTranslationZ (enabled : Bool) (self : Node) : Node × List Event :=
  if self.CopyTranslationComponents2 = enabled then
    (self, [])
  else
    ({ self with CopyTranslationComponents2 := enabled },
      [Event.Modified, Event.InputDataModified])

def SetRotationMode (newRotationMode : Int) (self : Node) : Node × List Event :=
  let validMode : Bool := decide (newRotationMode ≥ 0 ∧ newRotationMode < ROTATION_MODE_LAST)
  if validMode = false then
    (self, [Event.Warning])
  else if self.RotationMode = newRotationMode then
    (self, [])
  else
    ({ self with RotationMode := newRotationMode },
      [Event.Modified, Event.InputDataModified])

/-- The duplicate-axis correction. A primary label outside X, Y, Z that equals
the secondary label falls through both branches and changes nothing. -/
def CheckAndCorrectForDuplicateAxes (self : Node) : Node × List Event :=
  if self.PrimaryAxisLabel = self.SecondaryAxisLabel then
    if self.PrimaryAxisLabel = AXIS_LABEL_Z then
      ({ self with SecondaryAxisLabel := AXIS_LABEL_Y }, [Event.Warning])
    else if self.PrimaryAxisLabel = AXIS_LABEL_Y ∨ self.PrimaryAxisLabel = AXIS_LABEL_X then
      ({ self with SecondaryAxisLabel := AXIS_LABEL_Z }, [Event.Warning])
    else
      (self, [])
  else
    (self, [])

def SetDependentAxesMode (newDependentAxesMode : Int) (self : Node) : Node × List Event :=
  let validMode : Bool :=
    decide (newDependentAxesMode ≥ 0 ∧ newDependentAxesMode < DEPENDENT_AXES_MODE_LAST)
  if validMode = false then
    (self, [Event.Warning])
  else if self.DependentAxesMode = newDependentAxesMode then
    (self, [])
  else
    let s1 : Node := { self with DependentAxesMode := newDependentAxesMode }
    let r : Node × List Event :=
      if s1.DependentAxesMode = DEPENDENT_AXES_MODE_FROM_SECONDARY_AXIS then
        CheckAndCorrectForDuplicateAxes s1
      else
        (s1, [])
    (r.1, r.2 ++ [Event.Modified, Event.InputDataModified])

def SetPrimaryAxisLabel (newAxisLabel : Int) (self : Node) : Node × List Event :=
  let validMode : Bool := decide (newAxisLabel ≥ 0 ∧ newAxisLabel < AXIS_LABEL_LAST)
  if validMode = false then
    (self, [Event.Warning])
  else if self.PrimaryAxisLabel = newAxisLabel then
    (self, [])
  else
    let s1 : Node := { self with PrimaryAxisLabel := newAxisLabel }
    let r : Node × List Event :=
      if s1.DependentAxesMode = DEPENDENT_AXES_MODE_FROM_SECONDARY_AXIS then
        CheckAndCorrectForDuplicateAxes s1
      else
        (s1, [])
    (r.1, r.2 ++ [Event.Modified, Event.InputDataModified])

def SetSecondaryAxisLabel (newAxisLabel : Int) (self : Node) : Node × List Event :=
  let validMode : Bool := decide (newAxisLabel ≥ 0 ∧ newAxisLabel < AXIS_LABEL_LAST)
  if validMode = false then
    (self, [Event.Warning])
  else if self.SecondaryAxisLabel = newAxisLabel then
    (self, [])
  else
    let s1 : Node := { self with SecondaryAxisLabel := newAxisLabel }
    let r : Node × List Event :=
      if s1.DependentAxesMode = DEPENDENT_AXES_MODE_FROM_SECONDARY_AXIS then
        CheckAndCorrectForDuplicateAxes s1
      else
        (s1, [])
    (r.1, r.2 ++ [Event.Modified, Event.InputDataModified])

/-! ## Sequences of setter calls -/

/-- One call of a mode setter, with its argument. -/
inductive Call where
  | SetProcessingMode (v : Int)
  | SetUpdateMode (v : Int)
  | SetRotationMode (v : Int)
  | SetDependentAxesMode (v : Int)
  | SetPrimaryAxisLabel (v : Int)
  | SetSecondaryAxisLabel (v : Int)
  | SetCopyTranslationX (b : Bool)
  | SetCopyTranslationY (b : Bool)
  | SetCopyTranslationZ (b : Bool)
  deriving DecidableEq, Repr

/-- Performs the call on a node. -/
def Call.apply : Call → Node → Node × List Event
  | .SetProcessingMode v => vtkMRMLTransformProcessorNode.SetProcessingMode v
  | .SetUpdateMode v => vtkMRMLTransformProcessorNode.SetUpdateMode v
  | .SetRotationMode v => vtkMRMLTransformProcessorNode.SetRotationMode v
  | .SetDependentAxesMode v => vtkMRMLTransformProcessorNode.SetDependentAxesMode v
  | .SetPrimaryAxisLabel v => vtkMRMLTransformProcessorNode.SetPrimaryAxisLabel v
  | .SetSecondaryAxisLabel v => vtkMRMLTransformProcessorNode.SetSecondaryAxisLabel v
  | .SetCopyTranslationX b => vtkMRMLTransformProcessorNode.SetCopyTranslationX b
  | .SetCopyTranslationY b => vtkMRMLTransformProcessorNode.SetCopyTranslationY b
  | .SetCopyTranslationZ b => vtkMRMLTransformProcessorNode.SetCopyTranslationZ b

/-- The argument of the call lies in the domain of the field it sets: at least
zero and below the bound of the enum for the six enum setters, and any boolean
for the three translation flags. -/
def Call.argInDomain : Call → Bool
  | .SetProcessingMode v => decide (0 ≤ v ∧ v < PROCESSING_MODE_LAST)
  | .SetUpdateMode v => decide (0 ≤ v ∧ v < UPDATE_MODE_LAST)
  | .SetRotationMode v => decide (0 ≤ v ∧ v < ROTATION_MODE_LAST)
  | .SetDependentAxesMode v => decide (0 ≤ v ∧ v < DEPENDENT_AXES_MODE_LAST)
  | .SetPrimaryAxisLabel v => decide (0 ≤ v ∧ v < AXIS_LABEL_LAST)
  | .SetSecondaryAxisLabel v => decide (0 ≤ v ∧ v < AXIS_LABEL_LAST)
  | .SetCopyTranslationX _ => true
  | .SetCopyTranslationY _ => true
  | .SetCopyTranslationZ _ => true

/-- The argument of the call equals the value the field it sets holds in the
node. -/
def Call.argIsCurrent : Call → Node → Bool
  | .SetProcessingMode v, s => decide (s.ProcessingMode = v)
  | .SetUpdateMode v, s => decide (s.UpdateMode = v)
  | .SetRotationMode v, s => decide (s.RotationMode = v)
  | .SetDependentAxesMode v, s => decide (s.DependentAxesMode = v)
  | .SetPrimaryAxisLabel v, s => decide (s.PrimaryAxisLabel = v)
  | .SetSecondaryAxisLabel v, s => decide (s.SecondaryAxisLabel = v)
  | .SetCopyTranslationX b, s => decide (s.CopyTranslationComponents0 = b)
  | .SetCopyTranslationY b, s => decide (s.CopyTranslationComponents1 = b)
  | .SetCopyTranslationZ b, s => decide (s.CopyTranslationComponents2 = b)

/-- The node after a sequence of calls, made from left to right. -/
def runCalls (s : Node) : List Call → Node
  | [] => s
  | c :: cs => runCalls (c.apply s).1 cs

/-! ## Enum and string conversions

The `default` branch of each `AsString` switch also prints a generic warning;
that is console output and not part of the returned string. -/

def GetProcessingModeAsString (mode : Int) : String :=
  if mode = PROCESSING_MODE_QUATERNION_AVERAGE then "Quaternion Average"
  else if mode = PROCESSING_MODE_COMPUTE_SHAFT_PIVOT then "Compute Shaft Pivot"
  else if mode = PROCESSING_MODE_COMPUTE_ROTATION then "Compute Rotation Only"
  else if mode = PROCESSING_MODE_COMPUTE_TRANSLATION then "Compute Translation Only"
  else if mode = PROCESSING_MODE_COMPUTE_FULL_TRANSFORM then "Compute Full Transform"
  else if mode = PROCESSING_MODE_COMPUTE_INVERSE then "Compute Inverse"
  else "Unknown Processing Mode"

/-- The loop `for i in 0 .. PROCESSING_MODE_LAST - 1` returning the first `i`
whose display string is `name`, and `-1` when the loop runs out. -/
def GetProcessingModeFromString (name : String) : Int :=
  match (List.range PROCESSING_MODE_LAST.toNat).find?
      (fun (i : Nat) => name == GetProcessingModeAsString (i : Int)) with
  | some i => (i : Int)
  | none => -1

def GetUpdateModeAsString (mode : Int) : String :=
  if mode = UPDATE_MODE_MANUAL then "Manual Update"
  else if mode = UPDATE_MODE_AUTO then "Auto-Update"
  else "Unknown Update Mode"

def GetUpdateModeFromString (name : String) : Int :=
  match (List.range UPDATE_MODE_LAST.toNat).find?
      (fun (i : Nat) => name == GetUpdateModeAsString (i : Int)) with
  | some i => (i : Int)
  | none => -1

def GetRotationModeAsString (mode : Int) : String :=
  if mode = ROTATION_MODE_COPY_ALL_AXES then "Copy All Axes"
  else if mode = ROTATION_MODE_COPY_SINGLE_AXIS then "Copy Single Axis"
  else "Unknown Rotation Mode"

def GetRotationModeFromString (name : String) : Int :=
  match (List.range ROTATION_MODE_LAST.toNat).find?
      (fun (i : Nat) => name == GetRotationModeAsString (i : Int)) with
  | some i => (i : Int)
  | none => -1

def GetDependentAxesModeAsString (mode : Int) : String :=
  if mode = DEPENDENT_AXES_MODE_FROM_PIVOT then "From Pivot"
  else if mode = DEPENDENT_AXES_MODE_FROM_SECONDARY_AXIS then "From Secondary Axis"
  else "Unknown Dependent Axes Mode"

def GetDependentAxesModeFromString (name : String) : Int :=
  match (List.range DEPENDENT_AXES_MODE_LAST.toNat).find?
      (fun (i : Nat) => name == GetDependentAxesModeAsString (i : Int)) with
  | some i => (i : Int)
  | none => -1

def GetAxisLabelAsString (label : Int) : String :=
  if label = AXIS_LABEL_X then "X Axis"
  else if label = AXIS_LABEL_Y then "Y Axis"
  else if label = AXIS_LABEL_Z then "Z Axis"
  else "Unknown Axis"

def GetAxisLabelFromString (name : String) : Int :=
  match (List.range AXIS_LABEL_LAST.toNat).find?
      (fun (i : Nat) => name == GetAxisLabelAsString (i : Int)) with
  | some i => (i : Int)
  | none => -1

/-! ## Node references by role -/

/-- Modelled from the spec: `vtkMRMLNode::GetNumberOfNodeReferences` is not
among the sources; it is the spec's `count(role)`, the number of entries held
for the role. A stored reference that does not resolve keeps its index and is
counted; it is `GetNthNodeReference` that reads it as null. -/
def GetNumberOfNodeReferences (self : Node) (role : String) : Int :=
  ((self.NodeReferences role).length : Int)

/-- Modelled from the spec: `vtkMRMLNode::GetNthNodeReference` is not among the
sources; it is the spec's `get(role, index)`: the handle at the index, null
when the index is out of range, and null when the directory does not resolve
the stored handle (section 6: a handle whose resolution fails is read as an
absent reference and stays stored). -/
def GetNthNodeReference (scene : Scene) (self : Node) (role : String) (n : Int) :
    Option Handle :=
  if n < 0 then none
  else
    match (self.NodeReferences role)[n.toNat]? with
    | none => none
    | some h => if scene.resolves h then some h else none

/-- Modelled from the spec: `vtkMRMLNode::AddAndObserveNodeReferenceID` is not
among the sources; following the spec's `addMulti` it appends the reference at
the end of the role's list and leaves every other role alone. -/
def AddAndObserveNodeReferenceID (self : Node) (role : String) (nodeID : Handle) : Node :=
  { self with
    NodeReferences := fun r =>
      if r = role then self.NodeReferences role ++ [nodeID] else self.NodeReferences r }

/-- A null reference gives null; otherwise the result is the downcast of the
node, which is null when the node is not a linear transform. The
`vtkWarningMacro` of the failed downcast is console output of a getter and is
not part of the returned pointer. -/
def GetNthTransformNodeInRole (scene : Scene) (self : Node) (role : String) (n : Int) :
    Option Handle :=
  match GetNthNodeReference scene self role n with
  | none => none
  | some node =>
    let linearTransformNode : Option Handle :=
      if scene.isLinearTransform node then some node else none
    linearTransformNode

def GetNumberOfTransformNodesInRole (self : Node) (role : String) : Int :=
  GetNumberOfNodeReferences self role

def GetTransformNodeInRole (scene : Scene) (self : Node) (role : String) : Option Handle :=
  GetNthTransformNodeInRole scene self role 0

/-- The `for` loop over the existing inputs with its early `return` is the
`any` over the indices below the count: it compares the argument with what the
getter returns at each index. `node->GetID()` is the handle: the spec's handle
is both the object and the reference stored for it. -/
def AddAndObserveTransformNodeInRole (scene : Scene) (role : String) (node : Option Handle)
    (self : Node) : Node × List Event :=
  match node with
  | none => (self, [])
  | some h =>
    if (List.range (GetNumberOfTransformNodesInRole self role).toNat).any
        (fun (n : Nat) =>
          decide (node = GetNthTransformNodeInRole scene self role (n : Int))) then
      (self, [])
    else
      (AddAndObserveNodeReferenceID self role h, [Event.InputDataModified])

def AddAndObserveInputCombineTransformNode (scene : Scene) (node : Option Handle)
    (self : Node) : Node × List Event :=
  AddAndObserveTransformNodeInRole scene ROLE_INPUT_COMBINE_TRANSFORM node self

/-- Failures of the role table named by the spec. -/
inductive RoleError where
  | InvalidRole
  | IndexOutOfRange
  deriving DecidableEq, Repr

/-- Modelled from the spec: `vtkMRMLNode::RemoveNthNodeReferenceID` is not
among the sources; following the spec's `removeAt` it removes the entry at the
index, and fails with `IndexOutOfRange` when the index is invalid for the
current size of the role. -/
def RemoveNthNodeReferenceID (self : Node) (role : String) (n : Int) : Except RoleError Node :=
  if 0 ≤ n ∧ n < ((self.NodeReferences role).length : Int) then
    Except.ok { self with
      NodeReferences := fun r =>
        if r = role then (self.NodeReferences role).eraseIdx n.toNat
        else self.NodeReferences r }
  else
    Except.error RoleError.IndexOutOfRange

/-- The call of `RemoveNthNodeReferenceID` is a statement whose outcome the
function does not look at: a failure of the superclass leaves the node as it
was, and the notification follows in either case. -/
def RemoveNthTransformNodeInRole (role : String) (n : Int) (self : Node) : Node × List Event :=
  let s1 : Node :=
    match RemoveNthNodeReferenceID self role n with
    | Except.ok s => s
    | Except.error _ => self
  (s1, [Event.InputDataModified])

def RemoveNthInputCombineTransformNode (n : Int) (self : Node) : Node × List Event :=
  RemoveNthTransformNodeInRole ROLE_INPUT_COMBINE_TRANSFORM n self

/-- One call on the CombineTransform role, with its argument. -/
inductive CombineCall where
  | AddAndObserveInputCombineTransformNode (node : Option Handle)
  | RemoveNthInputCombineTransformNode (n : Int)
  deriving DecidableEq, Repr

/-- Performs the call on a node, with the directory as it is at the call. -/
def CombineCall.apply (scene : Scene) : CombineCall → Node → Node × List Event
  | .AddAndObserveInputCombineTransformNode node =>
    vtkMRMLTransformProcessorNode.AddAndObserveInputCombineTransformNode scene node
  | .RemoveNthInputCombineTransformNode n =>
    vtkMRMLTransformProcessorNode.RemoveNthInputCombineTransformNode n

/-- The two parts of loading that the sources do not hold: what
`Superclass::ReadXMLAttributes` does to the node references for an attribute
list, and what the stream extraction `ss >> this->UpdatesPerSecond` leaves in
the field for an attribute text and the value held before. Neither touches the
mode fields of this class. -/
structure XMLHost where
  superclassReadXMLAttributes : List (String × String) → RoleTable → RoleTable
  extractUpdatesPerSecond : String → Int → Int

/-- One turn of the `while` loop of `ReadXMLAttributes`, for the attribute
`attName` with the text `attValue`. The enum fields are assigned directly; the
three translation flags go through their setters. -/
def ReadXMLAttributes_loopBody (host : XMLHost) (attName attValue : String) (self : Node) :
    Node × List Event :=
  if attName = "UpdatesPerSecond" then
    ({ self with
       UpdatesPerSecond := host.extractUpdatesPerSecond attValue self.UpdatesPerSecond }, [])
  else if attName = "UpdateMode" then
    let modeAsInt : Int := GetUpdateModeFromString attValue
    if modeAsInt ≥ 0 ∧ modeAsInt < UPDATE_MODE_LAST then
      ({ self with UpdateMode := modeAsInt }, [])
    else
      ({ self with UpdateMode := UPDATE_MODE_MANUAL }, [Event.Warning])
  else if attName = "ProcessingMode" then
    let modeAsInt : Int := GetProcessingModeFromString attValue
    if modeAsInt ≥ 0 ∧ modeAsInt < PROCESSING_MODE_LAST then
      ({ self with ProcessingMode := modeAsInt }, [])
    else
      ({ self with ProcessingMode := PROCESSING_MODE_QUATERNION_AVERAGE }, [Event.Warning])
  else if attName = "RotationMode" then
    let modeAsInt : Int := GetRotationModeFromString attValue
    if modeAsInt ≥ 0 ∧ modeAsInt < ROTATION_MODE_LAST then
      ({ self with RotationMode := modeAsInt }, [])
    else
      ({ self with RotationMode := ROTATION_MODE_COPY_ALL_AXES }, [Event.Warning])
  else if attName = "PrimaryAxisLabel" then
    let labelAsInt : Int := GetAxisLabelFromString attValue
    if labelAsInt ≥ 0 ∧ labelAsInt < AXIS_LABEL_LAST then
      ({ self with PrimaryAxisLabel := labelAsInt }, [])
    else
      ({ self with PrimaryAxisLabel := AXIS_LABEL_Z }, [Event.Warning])
  else if attName = "DependentAxesMode" then
    let modeAsInt : Int := GetDependentAxesModeFromString attValue
    if modeAsInt ≥ 0 ∧ modeAsInt < DEPENDENT_AXES_MODE_LAST then
      ({ self with DependentAxesMode := modeAsInt }, [])
    else
      ({ self with DependentAxesMode := DEPENDENT_AXES_MODE_FROM_PIVOT }, [Event.Warning])
  else if attName = "SecondaryAxisLabel" then
    let labelAsInt : Int := GetAxisLabelFromString attValue
    if labelAsInt ≥ 0 ∧ labelAsInt < AXIS_LABEL_LAST then
      ({ self with SecondaryAxisLabel := labelAsInt }, [])
    else
      ({ self with SecondaryAxisLabel := AXIS_LABEL_Y }, [Event.Warning])
  else if attName = "CopyTranslationX" then
    let isTrue : Bool := decide (attValue = "true")
    SetCopyTranslationX isTrue self
  else if attName = "CopyTranslationY" then
    let isTrue : Bool := decide (attValue = "true")
    SetCopyTranslationY isTrue self
  else if attName = "CopyTranslationZ" then
    let isTrue : Bool := decide (attValue = "true")
    SetCopyTranslationZ isTrue self
  else
    (self, [])

/-- The `while` loop over the attribute pairs, from the first to the last,
collecting the events of every turn. -/
def ReadXMLAttributes_loop (host : XMLHost) : List (String × String) → Node × List Event →
    Node × List Event
  | [], r => r
  | att :: atts, r =>
    ReadXMLAttributes_loop host atts
      ((ReadXMLAttributes_loopBody host att.1 att.2 r.1).1,
        r.2 ++ (ReadXMLAttributes_loopBody host att.1 att.2 r.1).2)

/-- The null-terminated array of alternating names and values is the list of
(name, value) pairs. The superclass reads first, then the loop, then
`this->Modified()`. -/
def ReadXMLAttributes (host : XMLHost) (atts : List (String × String)) (self : Node) :
    Node × List Event :=
  let s0 : Node :=
    { self with NodeReferences := host.superclassReadXMLAttributes atts self.NodeReferences }
  let r : Node × List Event := ReadXMLAttributes_loop host atts (s0, [])
  (r.1, r.2 ++ [Event.Modified])

/-! ## Saving to XML attributes -/

/-- The two parts of saving that the sources do not hold: the attributes
`Superclass::WriteXML` writes for the node references, and the text the stream
insertion `of << this->UpdatesPerSecond` prints for the rate. -/
structure XMLWriteHost where
  superclassWriteXML : RoleTable → List (String × String)
  printUpdatesPerSecond : Int → String

/-- The attributes ` name="value"` that `WriteXML` puts on the stream, as
(name, value) pairs in the order they are written, after those of the
superclass. -/
def WriteXML (host : XMLWriteHost) (self : Node) : List (String × String) :=
  host.superclassWriteXML self.NodeReferences ++
    [ ("UpdatesPerSecond", host.printUpdatesPerSecond self.UpdatesPerSecond),
      ("UpdateMode", GetUpdateModeAsString self.UpdateMode),
      ("ProcessingMode", GetProcessingModeAsString self.ProcessingMode),
      ("RotationMode", GetRotationModeAsString self.RotationMode),
      ("PrimaryAxisLabel", GetAxisLabelAsString self.PrimaryAxisLabel),
      ("DependentAxesMode", GetDependentAxesModeAsString self.DependentAxesMode),
      ("SecondaryAxisLabel", GetAxisLabelAsString self.SecondaryAxisLabel),
      ("CopyTranslationX", if self.CopyTranslationComponents0 then "true" else "false"),
      ("CopyTranslationY", if self.CopyTranslationComponents1 then "true" else "false"),
      ("CopyTranslationZ", if self.CopyTranslationComponents2 then "true" else "false") ]

/-! ## Copying a node -/

/-- The result is the pair of `this` and the source node after the call.
`Superclass::Copy` is not among the sources: what it leaves in the node
references of `this`, given those of `this` and of the source, is the parameter
`superclassCopy`. The downcast of `anode` succeeds, the argument being a node
of this class; `StartModify` and `EndModify` on the source node batch its
events and assign none of its data members. -/
def Copy (superclassCopy : RoleTable → RoleTable → RoleTable) (self anode : Node) :
    Node × Node :=
  let node : Node := anode
  ({ self with
     NodeReferences := superclassCopy self.NodeReferences node.NodeReferences
     UpdatesPerSecond := node.UpdatesPerSecond
     UpdateMode := node.UpdateMode
     ProcessingMode := node.ProcessingMode
     RotationMode := node.RotationMode
     PrimaryAxisLabel := node.PrimaryAxisLabel
     DependentAxesMode := node.DependentAxesMode
     SecondaryAxisLabel := node.SecondaryAxisLabel
     CopyTranslationComponents0 := node.CopyTranslationComponents0
     CopyTranslationComponents1 := node.CopyTranslationComponents1
     CopyTranslationComponents2 := node.CopyTranslationComponents2 },
   node)

/-! ## Events of the referenced nodes -/

def GetInputFromTransformNode (scene : Scene) (self : Node) : Option Handle :=
  GetTransformNodeInRole scene self ROLE_INPUT_FROM_TRANSFORM

def GetInputToTransformNode (scene : Scene) (self : Node) : Option Handle :=
  GetTransformNodeInRole scene self ROLE_INPUT_TO_TRANSFORM

def GetInputInitialTransformNode (scene : Scene) (self : Node) : Option Handle :=
  GetTransformNodeInRole scene self ROLE_INPUT_INITIAL_TRANSFORM

def GetInputChangedTransformNode (scene : Scene) (self : Node) : Option Handle :=
  GetTransformNodeInRole scene self ROLE_INPUT_CHANGED_TRANSFORM

def GetInputAnchorTransformNode (scene : Scene) (self : Node) : Option Handle :=
  GetTransformNodeInRole scene self ROLE_INPUT_ANCHOR_TRANSFORM

def GetInputForwardTransformNode (scene : Scene) (self : Node) : Option Handle :=
  GetTransformNodeInRole scene self ROLE_INPUT_FORWARD_TRANSFORM

def GetOutputTransformNode (scene : Scene) (self : Node) : Option Handle :=
  GetTransformNodeInRole scene self ROLE_OUTPUT_TRANSFORM

/-- The caller after `vtkMRMLNode::SafeDownCast` is an `Option Handle`, `none`
for a null caller or one that is no node. The event id
`vtkMRMLTransformNode::TransformModifiedEvent` is declared outside the sources
and is the parameter `TransformModifiedEvent`. `Superclass::ProcessMRMLEvents`
raises no event of this class. -/
def ProcessMRMLEvents (scene : Scene) (TransformModifiedEvent : Nat) (caller : Option Handle)
    (event : Nat) (self : Node) : Node × List Event :=
  let callerNode : Option Handle := caller
  if callerNode = none then
    (self, [])
  else if callerNode = GetInputAnchorTransformNode scene self ∨
      callerNode = GetInputChangedTransformNode scene self ∨
      callerNode = GetInputInitialTransformNode scene self ∨
      callerNode = GetInputFromTransformNode scene self ∨
      callerNode = GetInputToTransformNode scene self ∨
      callerNode = GetInputForwardTransformNode scene self then
    if event = TransformModifiedEvent then
      (self, [Event.InputDataModified])
    else
      (self, [])
  else
    (self, [])

/-! ## Sequences of setter calls and loads -/

/-- One call of a mode setter or of `ReadXMLAttributes`, with its argument. -/
inductive NodeCall where
  | setter (c : Call)
  | ReadXMLAttributes (atts : List (String × String))

/-- Performs the call on a node. -/
def NodeCall.apply (host : XMLHost) : NodeCall → Node → Node × List Event
  | .setter c => c.apply
  | .ReadXMLAttributes atts => vtkMRMLTransformProcessorNode.ReadXMLAttributes host atts

/-- The node after a sequence of setter calls and loads, made from left to
right. -/
def runNodeCalls (host : XMLHost) (s : Node) : List NodeCall → Node
  | [] => s
  | c :: cs => runNodeCalls host (c.apply host s).1 cs

/-! ## Reference rules taken from the specification -/

/-- The secondary label the spec asks for after the duplicate-axis correction
on the labels `primary` and `secondary`: kept when the two differ, and
otherwise Y when the primary is Z, and Z when the primary is X or Y. -/
def correctedSecondaryAxis (primary secondary : Int) : Int :=
  if primary = secondary then
    (if primary = AXIS_LABEL_Z then AXIS_LABEL_Y else AXIS_LABEL_Z)
  else secondary

/-- Axis distinctness: in the secondary-axis mode the two labels differ. -/
def AxisDistinct (s : Node) : Prop :=
  s.DependentAxesMode = DEPENDENT_AXES_MODE_FROM_SECONDARY_AXIS →
    s.PrimaryAxisLabel ≠ s.SecondaryAxisLabel

/-- The label is one of X, Y, Z. -/
def ValidAxisLabel (label : Int) : Prop :=
  label = AXIS_LABEL_X ∨ label = AXIS_LABEL_Y ∨ label = AXIS_LABEL_Z

/-- A call result that is a silent no-op on the state `s`: the state is `s`
again and no `InputDataModifiedEvent` was raised. -/
def SilentNoOp (r : Node × List Event) (s : Node) : Prop :=
  r.1 = s ∧ notifications r.2 = 0

/-- The call is `SetSecondaryAxisLabel(v)` with a valid `v`, made in the
secondary-axis mode, with `v` the primary label, on a state whose secondary
label is already the one the correction will choose (Y for a primary Z, Z
otherwise): the correction writes the previous secondary label back. -/
def CorrectionWritesBack (c : Call) (s : Node) : Prop :=
  ∃ v : Int, c = Call.SetSecondaryAxisLabel v ∧ ValidAxisLabel v ∧
    s.DependentAxesMode = DEPENDENT_AXES_MODE_FROM_SECONDARY_AXIS ∧
    s.PrimaryAxisLabel = v ∧
    s.SecondaryAxisLabel = (if v = AXIS_LABEL_Z then AXIS_LABEL_Y else AXIS_LABEL_Z)

/-- The six enum fields are within their domains. -/
def EnumFieldsInDomain (s : Node) : Prop :=
  (0 ≤ s.ProcessingMode ∧ s.ProcessingMode < PROCESSING_MODE_LAST) ∧
  (0 ≤ s.UpdateMode ∧ s.UpdateMode < UPDATE_MODE_LAST) ∧
  (0 ≤ s.RotationMode ∧ s.RotationMode < ROTATION_MODE_LAST) ∧
  (0 ≤ s.DependentAxesMode ∧ s.DependentAxesMode < DEPENDENT_AXES_MODE_LAST) ∧
  ValidAxisLabel s.PrimaryAxisLabel ∧ ValidAxisLabel s.SecondaryAxisLabel

/-- The names of the six single-valued input roles whose events are
forwarded. -/
def singleInputRoles : List String :=
  [ROLE_INPUT_ANCHOR_TRANSFORM, ROLE_INPUT_CHANGED_TRANSFORM, ROLE_INPUT_INITIAL_TRANSFORM,
    ROLE_INPUT_FROM_TRANSFORM, ROLE_INPUT_TO_TRANSFORM, ROLE_INPUT_FORWARD_TRANSFORM]

/-- The handle is the current handle of one of the six single-valued input
roles, read off the role table: it is the first entry stored for the role, and
the directory resolves it to a linear transform node. -/
def IsCurrentSingleInput (scene : Scene) (s : Node) (c : Handle) : Prop :=
  scene.resolvesToLinearTransform c = true ∧
  ∃ role ∈ singleInputRoles, (s.NodeReferences role).head? = some c

instance instDecidableIsCurrentSingleInput (scene : Scene) (s : Node) (c : Handle) :
    Decidable (IsCurrentSingleInput scene s c) := by
  unfold IsCurrentSingleInput
  infer_instance

/-! ## The duplicate-axis correction -/

theorem validAxisLabel_iff (label : Int) :
    ValidAxisLabel label ↔ 0 ≤ label ∧ label < AXIS_LABEL_LAST := by
  unfold ValidAxisLabel AXIS_LABEL_X AXIS_LABEL_Y AXIS_LABEL_Z AXIS_LABEL_LAST
  omega

theorem checkAndCorrect_state (s : Node) (hp : ValidAxisLabel s.PrimaryAxisLabel) :
    (CheckAndCorrectForDuplicateAxes s).1 =
      { s with SecondaryAxisLabel :=
          correctedSecondaryAxis s.PrimaryAxisLabel s.SecondaryAxisLabel } := by
  unfold ValidAxisLabel at hp
  unfold CheckAndCorrectForDuplicateAxes correctedSecondaryAxis
  by_cases h : s.PrimaryAxisLabel = s.SecondaryAxisLabel
  · by_cases hz : s.PrimaryAxisLabel = AXIS_LABEL_Z
    · simp only [if_pos h, if_pos hz]
    · have hxy : s.PrimaryAxisLabel = AXIS_LABEL_Y ∨ s.PrimaryAxisLabel = AXIS_LABEL_X := by
        rcases hp with hx | hy | hz2
        · exact Or.inr hx
        · exact Or.inl hy
        · exact absurd hz2 hz
      simp only [if_pos h, if_neg hz, if_pos hxy]
  · simp only [if_neg h]

theorem checkAndCorrect_events (s : Node) :
    notifications (CheckAndCorrectForDuplicateAxes s).2 = 0 := by
  unfold CheckAndCorrectForDuplicateAxes notifications
  split_ifs <;> rfl

theorem correctedSecondaryAxis_ne (p q : Int) :
    p ≠ correctedSecondaryAxis p q := by
  unfold correctedSecondaryAxis AXIS_LABEL_Y AXIS_LABEL_Z
  split_ifs <;> omega

/-- C2: on a state whose primary label is X, Y or Z,
`CheckAndCorrectForDuplicateAxes` is the reference rule: the state is unchanged
when the labels differ; when they are equal the secondary label becomes Y for a
primary Z and Z for a primary X or Y; the primary label and every other field
are kept; and afterwards the two labels differ. -/
theorem C2_checkAndCorrect_is_reference_rule (s : Node)
    (hp : ValidAxisLabel s.PrimaryAxisLabel) :
    (CheckAndCorrectForDuplicateAxes s).1 =
        { s with SecondaryAxisLabel :=
            correctedSecondaryAxis s.PrimaryAxisLabel s.SecondaryAxisLabel } ∧
      (s.PrimaryAxisLabel ≠ s.SecondaryAxisLabel → (CheckAndCorrectForDuplicateAxes s).1 = s) ∧
      (s.PrimaryAxisLabel = s.SecondaryAxisLabel → s.PrimaryAxisLabel = AXIS_LABEL_Z →
        (CheckAndCorrectForDuplicateAxes s).1.SecondaryAxisLabel = AXIS_LABEL_Y) ∧
      (s.PrimaryAxisLabel = s.SecondaryAxisLabel →
        s.PrimaryAxisLabel = AXIS_LABEL_X ∨ s.PrimaryAxisLabel = AXIS_LABEL_Y →
        (CheckAndCorrectForDuplicateAxes s).1.SecondaryAxisLabel = AXIS_LABEL_Z) ∧
      (CheckAndCorrectForDuplicateAxes s).1.PrimaryAxisLabel = s.PrimaryAxisLabel ∧
      (CheckAndCorrectForDuplicateAxes s).1.PrimaryAxisLabel ≠
        (CheckAndCorrectForDuplicateAxes s).1.SecondaryAxisLabel := by
  have hst := checkAndCorrect_state s hp
  refine ⟨hst, ?_, ?_, ?_, ?_, ?_⟩
  · intro hne
    rw [hst]
    simp [correctedSecondaryAxis, hne]
  · intro heq hz
    rw [hst]
    simp [correctedSecondaryAxis, heq.symm, hz]
  · intro heq hxy
    rw [hst]
    have hnz : ¬ s.PrimaryAxisLabel = AXIS_LABEL_Z := by
      unfold AXIS_LABEL_X AXIS_LABEL_Y at hxy
      unfold AXIS_LABEL_Z
      omega
    simp only [correctedSecondaryAxis, if_pos heq, if_neg hnz]
  · rw [hst]
  · rw [hst]
    exact correctedSecondaryAxis_ne _ _

/-- Witness of C2: the state with both labels Y is corrected to (Y, Z). -/
theorem C2_checkAndCorrect_is_reference_rule_witness :
    ValidAxisLabel ({ constructor with PrimaryAxisLabel := 1, SecondaryAxisLabel := 1 } : Node).PrimaryAxisLabel ∧
    (CheckAndCorrectForDuplicateAxes
      { constructor with PrimaryAxisLabel := 1, SecondaryAxisLabel := 1 }).1.SecondaryAxisLabel
      = AXIS_LABEL_Z :=
  ⟨Or.inr (Or.inl rfl),
    (C2_checkAndCorrect_is_reference_rule
      { constructor with PrimaryAxisLabel := 1, SecondaryAxisLabel := 1 }
      (Or.inr (Or.inl rfl))).2.2.2.1 rfl (Or.inr rfl)⟩

/-! ## Rejected, unchanged and committed arguments of the setters -/

theorem notifications_commit (log : List Event) (h : notifications log = 0) :
    notifications (log ++ [Event.Modified, Event.InputDataModified]) = 1 := by
  unfold notifications at *
  rw [List.count_append, h]
  rfl

theorem invalid_of_out_of_range (v last : Int) (h : v < 0 ∨ v ≥ last) :
    decide (v ≥ 0 ∧ v < last) = false := by
  rw [decide_eq_false_iff_not]
  omega

theorem valid_of_in_range (v last : Int) (h : 0 ≤ v ∧ v < last) :
    ¬ (decide (v ≥ 0 ∧ v < last) = false) := by
  simp only [decide_eq_false_iff_not, not_not]
  omega

theorem SetProcessingMode_rejects (s : Node) (v : Int)
    (h : v < 0 ∨ v ≥ PROCESSING_MODE_LAST) :
    SetProcessingMode v s = (s, [Event.Warning]) := by
  simp only [SetProcessingMode, if_pos (invalid_of_out_of_range v _ h)]

theorem SetUpdateMode_rejects (s : Node) (v : Int)
    (h : v < 0 ∨ v ≥ UPDATE_MODE_LAST) :
    SetUpdateMode v s = (s, [Event.Warning]) := by
  simp only [SetUpdateMode, if_pos (invalid_of_out_of_range v _ h)]

theorem SetRotationMode_rejects (s : Node) (v : Int)
    (h : v < 0 ∨ v ≥ ROTATION_MODE_LAST) :
    SetRotationMode v s = (s, [Event.Warning]) := by
  simp only [SetRotationMode, if_pos (invalid_of_out_of_range v _ h)]

theorem SetDependentAxesMode_rejects (s : Node) (v : Int)
    (h : v < 0 ∨ v ≥ DEPENDENT_AXES_MODE_LAST) :
    SetDependentAxesMode v s = (s, [Event.Warning]) := by
  simp only [SetDependentAxesMode, if_pos (invalid_of_out_of_range v _ h)]

theorem SetPrimaryAxisLabel_rejects (s : Node) (v : Int)
    (h : v < 0 ∨ v ≥ AXIS_LABEL_LAST) :
    SetPrimaryAxisLabel v s = (s, [Event.Warning]) := by
  simp only [SetPrimaryAxisLabel, if_pos (invalid_of_out_of_range v _ h)]

theorem SetSecondaryAxisLabel_rejects (s : Node) (v : Int)
    (h : v < 0 ∨ v ≥ AXIS_LABEL_LAST) :
    SetSecondaryAxisLabel v s = (s, [Event.Warning]) := by
  simp only [SetSecondaryAxisLabel, if_pos (invalid_of_out_of_range v _ h)]

/-- The state and trace of `SetDependentAxesMode` when the argument is valid
and new. -/
theorem SetDependentAxesMode_commits (s : Node) (v : Int)
    (hv : 0 ≤ v ∧ v < DEPENDENT_AXES_MODE_LAST) (hne : s.DependentAxesMode ≠ v) :
    SetDependentAxesMode v s =
      ((if v = DEPENDENT_AXES_MODE_FROM_SECONDARY_AXIS then
          CheckAndCorrectForDuplicateAxes { s with DependentAxesMode := v }
        else ({ s with DependentAxesMode := v }, [])).1,
       (if v = DEPENDENT_AXES_MODE_FROM_SECONDARY_AXIS then
          CheckAndCorrectForDuplicateAxes { s with DependentAxesMode := v }
        else ({ s with DependentAxesMode := v }, [])).2
         ++ [Event.Modified, Event.InputDataModified]) := by
  simp only [SetDependentAxesMode, if_neg (valid_of_in_range v _ hv), if_neg hne]

/-- The state and trace of `SetPrimaryAxisLabel` when the argument is valid
and new. -/
theorem SetPrimaryAxisLabel_commits (s : Node) (v : Int)
    (hv : 0 ≤ v ∧ v < AXIS_LABEL_LAST) (hne : s.PrimaryAxisLabel ≠ v) :
    SetPrimaryAxisLabel v s =
      ((if s.DependentAxesMode = DEPENDENT_AXES_MODE_FROM_SECONDARY_AXIS then
          CheckAndCorrectForDuplicateAxes { s with PrimaryAxisLabel := v }
        else ({ s with PrimaryAxisLabel := v }, [])).1,
       (if s.DependentAxesMode = DEPENDENT_AXES_MODE_FROM_SECONDARY_AXIS then
          CheckAndCorrectForDuplicateAxes { s with PrimaryAxisLabel := v }
        else ({ s with PrimaryAxisLabel := v }, [])).2
         ++ [Event.Modified, Event.InputDataModified]) := by
  simp only [SetPrimaryAxisLabel, if_neg (valid_of_in_range v _ hv), if_neg hne]

/-- The state and trace of `SetSecondaryAxisLabel` when the argument is valid
and new. -/
theorem SetSecondaryAxisLabel_commits (s : Node) (v : Int)
    (hv : 0 ≤ v ∧ v < AXIS_LABEL_LAST) (hne : s.SecondaryAxisLabel ≠ v) :
    SetSecondaryAxisLabel v s =
      ((if s.DependentAxesMode = DEPENDENT_AXES_MODE_FROM_SECONDARY_AXIS then
          CheckAndCorrectForDuplicateAxes { s with SecondaryAxisLabel := v }
        else ({ s with SecondaryAxisLabel := v }, [])).1,
       (if s.DependentAxesMode = DEPENDENT_AXES_MODE_FROM_SECONDARY_AXIS then
          CheckAndCorrectForDuplicateAxes { s with SecondaryAxisLabel := v }
        else ({ s with SecondaryAxisLabel := v }, [])).2
         ++ [Event.Modified, Event.InputDataModified]) := by
  simp only [SetSecondaryAxisLabel, if_neg (valid_of_in_range v _ hv), if_neg hne]

theorem correction_branch_events (c : Prop) [Decidable c] (s : Node) :
    notifications (if c then CheckAndCorrectForDuplicateAxes s else (s, [])).2 = 0 := by
  split_ifs
  · exact checkAndCorrect_events s
  · rfl

/-- C3: for each of the six enum setters and every argument that is negative or
not below the bound of the enum, the call leaves the state as it was and raises
no `InputDataModifiedEvent`; it returns (with the warning as its only
report). -/
theorem C3_invalid_enum_input_is_silent_noop (s : Node) (v : Int) :
    ((v < 0 ∨ v ≥ PROCESSING_MODE_LAST) →
        SilentNoOp (SetProcessingMode v s) s ∧ (SetProcessingMode v s).2 = [Event.Warning]) ∧
    ((v < 0 ∨ v ≥ UPDATE_MODE_LAST) →
        SilentNoOp (SetUpdateMode v s) s ∧ (SetUpdateMode v s).2 = [Event.Warning]) ∧
    ((v < 0 ∨ v ≥ ROTATION_MODE_LAST) →
        SilentNoOp (SetRotationMode v s) s ∧ (SetRotationMode v s).2 = [Event.Warning]) ∧
    ((v < 0 ∨ v ≥ DEPENDENT_AXES_MODE_LAST) →
        SilentNoOp (SetDependentAxesMode v s) s ∧
          (SetDependentAxesMode v s).2 = [Event.Warning]) ∧
    ((v < 0 ∨ v ≥ AXIS_LABEL_LAST) →
        SilentNoOp (SetPrimaryAxisLabel v s) s ∧
          (SetPrimaryAxisLabel v s).2 = [Event.Warning]) ∧
    ((v < 0 ∨ v ≥ AXIS_LABEL_LAST) →
        SilentNoOp (SetSecondaryAxisLabel v s) s ∧
          (SetSecondaryAxisLabel v s).2 = [Event.Warning]) := by
  refine ⟨?_, ?_, ?_, ?_, ?_, ?_⟩ <;> intro h
  · rw [SetProcessingMode_rejects s v h]; exact ⟨⟨rfl, rfl⟩, rfl⟩
  · rw [SetUpdateMode_rejects s v h]; exact ⟨⟨rfl, rfl⟩, rfl⟩
  · rw [SetRotationMode_rejects s v h]; exact ⟨⟨rfl, rfl⟩, rfl⟩
  · rw [SetDependentAxesMode_rejects s v h]; exact ⟨⟨rfl, rfl⟩, rfl⟩
  · rw [SetPrimaryAxisLabel_rejects s v h]; exact ⟨⟨rfl, rfl⟩, rfl⟩
  · rw [SetSecondaryAxisLabel_rejects s v h]; exact ⟨⟨rfl, rfl⟩, rfl⟩

/-- Witness of C3: `SetProcessingMode(999)` on the default state. -/
theorem C3_invalid_enum_input_is_silent_noop_witness :
    ((999 : Int) < 0 ∨ (999 : Int) ≥ PROCESSING_MODE_LAST) ∧
    SilentNoOp (SetProcessingMode 999 constructor) constructor ∧
    (SetProcessingMode 999 constructor).2 = [Event.Warning] :=
  ⟨by decide, (C3_invalid_enum_input_is_silent_noop constructor 999).1 (by decide)⟩

/-- C4: a call of one of the nine mode setters raises `InputDataModifiedEvent`
exactly once when its argument is in the domain of the field and differs from
the value the field holds (the duplicate-axis correction included), and raises
it zero times and leaves the state as it was when the argument equals the value
the field holds. -/
theorem C4_notification_count (s : Node) (c : Call) :
    (c.argInDomain = true → c.argIsCurrent s = false →
        notifications (c.apply s).2 = 1) ∧
    (c.argIsCurrent s = true →
        notifications (c.apply s).2 = 0 ∧ (c.apply s).1 = s) := by
  cases c with
  | SetProcessingMode v =>
    simp only [Call.argInDomain, Call.argIsCurrent, Call.apply, decide_eq_true_eq,
      decide_eq_false_iff_not]
    constructor
    · intro hv hne
      simp only [SetProcessingMode, if_neg (valid_of_in_range v _ hv), if_neg hne]
      rfl
    · intro heq
      by_cases hv : 0 ≤ v ∧ v < PROCESSING_MODE_LAST
      · simp only [SetProcessingMode, if_neg (valid_of_in_range v _ hv), if_pos heq]
        exact ⟨rfl, trivial⟩
      · rw [SetProcessingMode_rejects s v (by omega)]
        exact ⟨rfl, rfl⟩
  | SetUpdateMode v =>
    simp only [Call.argInDomain, Call.argIsCurrent, Call.apply, decide_eq_true_eq,
      decide_eq_false_iff_not]
    constructor
    · intro hv hne
      simp only [SetUpdateMode, if_neg (valid_of_in_range v _ hv), if_neg hne]
      rfl
    · intro heq
      by_cases hv : 0 ≤ v ∧ v < UPDATE_MODE_LAST
      · simp only [SetUpdateMode, if_neg (valid_of_in_range v _ hv), if_pos heq]
        exact ⟨rfl, trivial⟩
      · rw [SetUpdateMode_rejects s v (by omega)]
        exact ⟨rfl, rfl⟩
  | SetRotationMode v =>
    simp only [Call.argInDomain, Call.argIsCurrent, Call.apply, decide_eq_true_eq,
      decide_eq_false_iff_not]
    constructor
    · intro hv hne
      simp only [SetRotationMode, if_neg (valid_of_in_range v _ hv), if_neg hne]
      rfl
    · intro heq
      by_cases hv : 0 ≤ v ∧ v < ROTATION_MODE_LAST
      · simp only [SetRotationMode, if_neg (valid_of_in_range v _ hv), if_pos heq]
        exact ⟨rfl, trivial⟩
      · rw [SetRotationMode_rejects s v (by omega)]
        exact ⟨rfl, rfl⟩
  | SetDependentAxesMode v =>
    simp only [Call.argInDomain, Call.argIsCurrent, Call.apply, decide_eq_true_eq,
      decide_eq_false_iff_not]
    constructor
    · intro hv hne
      rw [SetDependentAxesMode_commits s v hv hne]
      exact notifications_commit _ (correction_branch_events _ _)
    · intro heq
      by_cases hv : 0 ≤ v ∧ v < DEPENDENT_AXES_MODE_LAST
      · simp only [SetDependentAxesMode, if_neg (valid_of_in_range v _ hv), if_pos heq]
        exact ⟨rfl, trivial⟩
      · rw [SetDependentAxesMode_rejects s v (by omega)]
        exact ⟨rfl, rfl⟩
  | SetPrimaryAxisLabel v =>
    simp only [Call.argInDomain, Call.argIsCurrent, Call.apply, decide_eq_true_eq,
      decide_eq_false_iff_not]
    constructor
    · intro hv hne
      rw [SetPrimaryAxisLabel_commits s v hv hne]
      exact notifications_commit _ (correction_branch_events _ _)
    · intro heq
      by_cases hv : 0 ≤ v ∧ v < AXIS_LABEL_LAST
      · simp only [SetPrimaryAxisLabel, if_neg (valid_of_in_range v _ hv), if_pos heq]
        exact ⟨rfl, trivial⟩
      · rw [SetPrimaryAxisLabel_rejects s v (by omega)]
        exact ⟨rfl, rfl⟩
  | SetSecondaryAxisLabel v =>
    simp only [Call.argInDomain, Call.argIsCurrent, Call.apply, decide_eq_true_eq,
      decide_eq_false_iff_not]
    constructor
    · intro hv hne
      rw [SetSecondaryAxisLabel_commits s v hv hne]
      exact notifications_commit _ (correction_branch_events _ _)
    · intro heq
      by_cases hv : 0 ≤ v ∧ v < AXIS_LABEL_LAST
      · simp only [SetSecondaryAxisLabel, if_neg (valid_of_in_range v _ hv), if_pos heq]
        exact ⟨rfl, trivial⟩
      · rw [SetSecondaryAxisLabel_rejects s v (by omega)]
        exact ⟨rfl, rfl⟩
  | SetCopyTranslationX b =>
    simp only [Call.argInDomain, Call.argIsCurrent, Call.apply, decide_eq_true_eq,
      decide_eq_false_iff_not]
    constructor
    · intro _ hne
      simp only [SetCopyTranslationX, if_neg hne]
      rfl
    · intro heq
      simp only [SetCopyTranslationX, if_pos heq]
      exact ⟨rfl, trivial⟩
  | SetCopyTranslationY b =>
    simp only [Call.argInDomain, Call.argIsCurrent, Call.apply, decide_eq_true_eq,
      decide_eq_false_iff_not]
    constructor
    · intro _ hne
      simp only [SetCopyTranslationY, if_neg hne]
      rfl
    · intro heq
      simp only [SetCopyTranslationY, if_pos heq]
      exact ⟨rfl, trivial⟩
  | SetCopyTranslationZ b =>
    simp only [Call.argInDomain, Call.argIsCurrent, Call.apply, decide_eq_true_eq,
      decide_eq_false_iff_not]
    constructor
    · intro _ hne
      simp only [SetCopyTranslationZ, if_neg hne]
      rfl
    · intro heq
      simp only [SetCopyTranslationZ, if_pos heq]
      exact ⟨rfl, trivial⟩

/-- Witness of C4: on the default state `SetSecondaryAxisLabel(Z)` notifies
once, and `SetSecondaryAxisLabel(Y)`, the value already held, not at all. -/
theorem C4_notification_count_witness :
    notifications ((Call.SetSecondaryAxisLabel 2).apply constructor).2 = 1 ∧
    (notifications ((Call.SetSecondaryAxisLabel 1).apply constructor).2 = 0 ∧
      ((Call.SetSecondaryAxisLabel 1).apply constructor).1 = constructor) :=
  ⟨(C4_notification_count constructor (Call.SetSecondaryAxisLabel 2)).1 (by decide) (by decide),
   (C4_notification_count constructor (Call.SetSecondaryAxisLabel 1)).2 (by decide)⟩

/-! ## Scenarios A and B in general form -/

/-- C5: in the secondary-axis mode, `SetPrimaryAxisLabel(p)` with a valid `p`
that differs from the primary label and equals the secondary label ends with
the primary label `p`, the secondary label Y when `p` is Z and Z otherwise, the
dependent-axes mode (and every other field) as before, and exactly one
`InputDataModifiedEvent`. -/
theorem C5_primary_conflict_repaired_on_secondary (s : Node) (p : Int)
    (hmode : s.DependentAxesMode = DEPENDENT_AXES_MODE_FROM_SECONDARY_AXIS)
    (hp : ValidAxisLabel p) (hne : p ≠ s.PrimaryAxisLabel) (heq : p = s.SecondaryAxisLabel) :
    (SetPrimaryAxisLabel p s).1.PrimaryAxisLabel = p ∧
    (SetPrimaryAxisLabel p s).1.SecondaryAxisLabel =
      (if p = AXIS_LABEL_Z then AXIS_LABEL_Y else AXIS_LABEL_Z) ∧
    (SetPrimaryAxisLabel p s).1.DependentAxesMode = s.DependentAxesMode ∧
    (SetPrimaryAxisLabel p s).1 =
      { s with PrimaryAxisLabel := p
               SecondaryAxisLabel := if p = AXIS_LABEL_Z then AXIS_LABEL_Y else AXIS_LABEL_Z } ∧
    notifications (SetPrimaryAxisLabel p s).2 = 1 := by
  have hv := (validAxisLabel_iff p).mp hp
  have hst : (SetPrimaryAxisLabel p s).1 =
      { s with PrimaryAxisLabel := p
               SecondaryAxisLabel := if p = AXIS_LABEL_Z then AXIS_LABEL_Y else AXIS_LABEL_Z } := by
    rw [SetPrimaryAxisLabel_commits s p hv (Ne.symm hne)]
    simp only [if_pos hmode]
    rw [checkAndCorrect_state _ hp]
    simp only [correctedSecondaryAxis, if_pos heq]
  refine ⟨?_, ?_, ?_, hst, ?_⟩
  · rw [hst]
  · rw [hst]
  · rw [hst]
  · rw [SetPrimaryAxisLabel_commits s p hv (Ne.symm hne)]
    exact notifications_commit _ (correction_branch_events _ _)

/-- Witness of C5 (Scenario B): from (Primary=Z, Secondary=Y) in the
secondary-axis mode, `SetPrimaryAxisLabel(Y)` gives (Primary=Y, Secondary=Z)
with one notification. -/
theorem C5_primary_conflict_repaired_on_secondary_witness :
    (SetPrimaryAxisLabel AXIS_LABEL_Y
        { constructor with
          DependentAxesMode := DEPENDENT_AXES_MODE_FROM_SECONDARY_AXIS }).1.PrimaryAxisLabel
      = AXIS_LABEL_Y ∧
    (SetPrimaryAxisLabel AXIS_LABEL_Y
        { constructor with
          DependentAxesMode := DEPENDENT_AXES_MODE_FROM_SECONDARY_AXIS }).1.SecondaryAxisLabel
      = AXIS_LABEL_Z ∧
    notifications (SetPrimaryAxisLabel AXIS_LABEL_Y
        { constructor with
          DependentAxesMode := DEPENDENT_AXES_MODE_FROM_SECONDARY_AXIS }).2 = 1 :=
  have h := C5_primary_conflict_repaired_on_secondary
    { constructor with DependentAxesMode := DEPENDENT_AXES_MODE_FROM_SECONDARY_AXIS }
    AXIS_LABEL_Y rfl (Or.inr (Or.inl rfl)) (by decide) rfl
  ⟨h.1, h.2.1, h.2.2.2.2⟩

/-- C6: from the pivot mode with valid axis labels,
`SetDependentAxesMode(FROM_SECONDARY_AXIS)` ends in the secondary-axis mode with
the primary label as before, the secondary label as before when it differed
from the primary and corrected (Y for a primary Z, else Z) when it equalled it,
every other field as before, and exactly one `InputDataModifiedEvent`. Only
the validity of the primary label is used; the secondary label may hold any
value. -/
theorem C6_switch_to_secondary_axis_mode (s : Node)
    (hmode : s.DependentAxesMode = DEPENDENT_AXES_MODE_FROM_PIVOT)
    (hp : ValidAxisLabel s.PrimaryAxisLabel) :
    (SetDependentAxesMode DEPENDENT_AXES_MODE_FROM_SECONDARY_AXIS s).1.DependentAxesMode
      = DEPENDENT_AXES_MODE_FROM_SECONDARY_AXIS ∧
    (SetDependentAxesMode DEPENDENT_AXES_MODE_FROM_SECONDARY_AXIS s).1.PrimaryAxisLabel
      = s.PrimaryAxisLabel ∧
    (s.PrimaryAxisLabel ≠ s.SecondaryAxisLabel →
      (SetDependentAxesMode DEPENDENT_AXES_MODE_FROM_SECONDARY_AXIS s).1.SecondaryAxisLabel
        = s.SecondaryAxisLabel) ∧
    (s.PrimaryAxisLabel = s.SecondaryAxisLabel →
      (SetDependentAxesMode DEPENDENT_AXES_MODE_FROM_SECONDARY_AXIS s).1.SecondaryAxisLabel
        = (if s.PrimaryAxisLabel = AXIS_LABEL_Z then AXIS_LABEL_Y else AXIS_LABEL_Z)) ∧
    (SetDependentAxesMode DEPENDENT_AXES_MODE_FROM_SECONDARY_AXIS s).1 =
      { s with DependentAxesMode := DEPENDENT_AXES_MODE_FROM_SECONDARY_AXIS
               SecondaryAxisLabel :=
                 correctedSecondaryAxis s.PrimaryAxisLabel s.SecondaryAxisLabel } ∧
    notifications (SetDependentAxesMode DEPENDENT_AXES_MODE_FROM_SECONDARY_AXIS s).2 = 1 := by
  have hv : 0 ≤ DEPENDENT_AXES_MODE_FROM_SECONDARY_AXIS ∧
      DEPENDENT_AXES_MODE_FROM_SECONDARY_AXIS < DEPENDENT_AXES_MODE_LAST := by decide
  have hne : s.DependentAxesMode ≠ DEPENDENT_AXES_MODE_FROM_SECONDARY_AXIS := by
    rw [hmode]; decide
  have hst : (SetDependentAxesMode DEPENDENT_AXES_MODE_FROM_SECONDARY_AXIS s).1 =
      { s with DependentAxesMode := DEPENDENT_AXES_MODE_FROM_SECONDARY_AXIS
               SecondaryAxisLabel :=
                 correctedSecondaryAxis s.PrimaryAxisLabel s.SecondaryAxisLabel } := by
    rw [SetDependentAxesMode_commits s _ hv hne]
    simp only [if_true]
    exact checkAndCorrect_state { s with
      DependentAxesMode := DEPENDENT_AXES_MODE_FROM_SECONDARY_AXIS } hp
  refine ⟨?_, ?_, ?_, ?_, hst, ?_⟩
  · rw [hst]
  · rw [hst]
  · intro hd
    rw [hst]
    simp only [correctedSecondaryAxis, if_neg hd]
  · intro he
    rw [hst]
    simp only [correctedSecondaryAxis, if_pos he]
  · rw [SetDependentAxesMode_commits s _ hv hne]
    exact notifications_commit _ (correction_branch_events _ _)

/-- Witness of C6 (Scenario A): the default state (Z, Y, FromPivot) ends as
(Z, Y, FromSecondaryAxis) with one notification. -/
theorem C6_switch_to_secondary_axis_mode_witness :
    (SetDependentAxesMode DEPENDENT_AXES_MODE_FROM_SECONDARY_AXIS constructor).1.DependentAxesMode
      = DEPENDENT_AXES_MODE_FROM_SECONDARY_AXIS ∧
    (SetDependentAxesMode DEPENDENT_AXES_MODE_FROM_SECONDARY_AXIS constructor).1.PrimaryAxisLabel
      = AXIS_LABEL_Z ∧
    (SetDependentAxesMode DEPENDENT_AXES_MODE_FROM_SECONDARY_AXIS constructor).1.SecondaryAxisLabel
      = AXIS_LABEL_Y ∧
    notifications (SetDependentAxesMode DEPENDENT_AXES_MODE_FROM_SECONDARY_AXIS constructor).2
      = 1 :=
  have h := C6_switch_to_secondary_axis_mode constructor rfl (Or.inr (Or.inr rfl))
  ⟨h.1, h.2.1, h.2.2.1 (by decide), h.2.2.2.2.2⟩

/-! ## The constructor -/

/-- C9: the constructor gives ProcessingMode QuaternionAverage, UpdateMode
Manual, RotationMode CopyAllAxes, DependentAxesMode FromPivot, PrimaryAxisLabel
Z, SecondaryAxisLabel Y, the three CopyTranslation flags true, UpdatesPerSecond
60, and no reference in any role: the list stored for every role is empty, its
count is 0, and the getter returns null at every index, whatever the directory
resolves. -/
theorem C9_constructor_defaults :
    constructor.ProcessingMode = PROCESSING_MODE_QUATERNION_AVERAGE ∧
    constructor.UpdateMode = UPDATE_MODE_MANUAL ∧
    constructor.RotationMode = ROTATION_MODE_COPY_ALL_AXES ∧
    constructor.DependentAxesMode = DEPENDENT_AXES_MODE_FROM_PIVOT ∧
    constructor.PrimaryAxisLabel = AXIS_LABEL_Z ∧
    constructor.SecondaryAxisLabel = AXIS_LABEL_Y ∧
    constructor.CopyTranslationComponents0 = true ∧
    constructor.CopyTranslationComponents1 = true ∧
    constructor.CopyTranslationComponents2 = true ∧
    constructor.UpdatesPerSecond = 60 ∧
    (∀ role : String, constructor.NodeReferences role = []) ∧
    (∀ role : String, GetNumberOfTransformNodesInRole constructor role = 0) ∧
    (∀ (scene : Scene) (role : String) (n : Int),
      GetNthTransformNodeInRole scene constructor role n = none) := by
  refine ⟨rfl, rfl, rfl, rfl, rfl, rfl, rfl, rfl, rfl, rfl, fun _ => rfl, fun _ => rfl, ?_⟩
  intro scene role n
  simp [GetNthTransformNodeInRole, GetNthNodeReference, constructor]

/-! ## Axis distinctness along sequences of setter calls -/

/-- The invariant carried along a run: the primary label is valid and the axes
are distinct in the secondary-axis mode. -/
theorem axis_invariant_step (s : Node) (c : Call)
    (h : ValidAxisLabel s.PrimaryAxisLabel ∧ AxisDistinct s) :
    ValidAxisLabel (c.apply s).1.PrimaryAxisLabel ∧ AxisDistinct (c.apply s).1 := by
  obtain ⟨hp, hd⟩ := h
  cases c with
  | SetProcessingMode v =>
    simp only [Call.apply, SetProcessingMode]
    split_ifs <;> exact ⟨hp, hd⟩
  | SetUpdateMode v =>
    simp only [Call.apply, SetUpdateMode]
    split_ifs <;> exact ⟨hp, hd⟩
  | SetRotationMode v =>
    simp only [Call.apply, SetRotationMode]
    split_ifs <;> exact ⟨hp, hd⟩
  | SetCopyTranslationX b =>
    simp only [Call.apply, SetCopyTranslationX]
    split_ifs <;> exact ⟨hp, hd⟩
  | SetCopyTranslationY b =>
    simp only [Call.apply, SetCopyTranslationY]
    split_ifs <;> exact ⟨hp, hd⟩
  | SetCopyTranslationZ b =>
    simp only [Call.apply, SetCopyTranslationZ]
    split_ifs <;> exact ⟨hp, hd⟩
  | SetDependentAxesMode v =>
    simp only [Call.apply]
    by_cases hv : 0 ≤ v ∧ v < DEPENDENT_AXES_MODE_LAST
    · by_cases hcur : s.DependentAxesMode = v
      · simp only [SetDependentAxesMode, if_neg (valid_of_in_range v _ hv), if_pos hcur]
        exact ⟨hp, hd⟩
      · rw [SetDependentAxesMode_commits s v hv hcur]
        by_cases hsec : v = DEPENDENT_AXES_MODE_FROM_SECONDARY_AXIS
        · simp only [if_pos hsec]
          rw [checkAndCorrect_state { s with DependentAxesMode := v } hp]
          exact ⟨hp, fun _ => correctedSecondaryAxis_ne _ _⟩
        · simp only [if_neg hsec]
          exact ⟨hp, fun hm => absurd hm hsec⟩
    · rw [SetDependentAxesMode_rejects s v (by omega)]
      exact ⟨hp, hd⟩
  | SetPrimaryAxisLabel v =>
    simp only [Call.apply]
    by_cases hv : 0 ≤ v ∧ v < AXIS_LABEL_LAST
    · have hvl : ValidAxisLabel v := (validAxisLabel_iff v).mpr hv
      by_cases hcur : s.PrimaryAxisLabel = v
      · simp only [SetPrimaryAxisLabel, if_neg (valid_of_in_range v _ hv), if_pos hcur]
        exact ⟨hp, hd⟩
      · rw [SetPrimaryAxisLabel_commits s v hv hcur]
        by_cases hsec : s.DependentAxesMode = DEPENDENT_AXES_MODE_FROM_SECONDARY_AXIS
        · simp only [if_pos hsec]
          rw [checkAndCorrect_state { s with PrimaryAxisLabel := v } hvl]
          exact ⟨hvl, fun _ => correctedSecondaryAxis_ne _ _⟩
        · simp only [if_neg hsec]
          exact ⟨hvl, fun hm => absurd hm hsec⟩
    · rw [SetPrimaryAxisLabel_rejects s v (by omega)]
      exact ⟨hp, hd⟩
  | SetSecondaryAxisLabel v =>
    simp only [Call.apply]
    by_cases hv : 0 ≤ v ∧ v < AXIS_LABEL_LAST
    · by_cases hcur : s.SecondaryAxisLabel = v
      · simp only [SetSecondaryAxisLabel, if_neg (valid_of_in_range v _ hv), if_pos hcur]
        exact ⟨hp, hd⟩
      · rw [SetSecondaryAxisLabel_commits s v hv hcur]
        by_cases hsec : s.DependentAxesMode = DEPENDENT_AXES_MODE_FROM_SECONDARY_AXIS
        · simp only [if_pos hsec]
          rw [checkAndCorrect_state { s with SecondaryAxisLabel := v } hp]
          exact ⟨hp, fun _ => correctedSecondaryAxis_ne _ _⟩
        · simp only [if_neg hsec]
          exact ⟨hp, fun hm => absurd hm hsec⟩
    · rw [SetSecondaryAxisLabel_rejects s v (by omega)]
      exact ⟨hp, hd⟩

theorem axis_invariant_run (calls : List Call) (s : Node)
    (h : ValidAxisLabel s.PrimaryAxisLabel ∧ AxisDistinct s) :
    ValidAxisLabel (runCalls s calls).PrimaryAxisLabel ∧ AxisDistinct (runCalls s calls) := by
  induction calls generalizing s with
  | nil => exact h
  | cons c cs ih => exact ih _ (axis_invariant_step s c h)

theorem axis_invariant_constructor :
    ValidAxisLabel constructor.PrimaryAxisLabel ∧ AxisDistinct constructor :=
  ⟨Or.inr (Or.inr rfl), fun hm => absurd hm (by decide)⟩

/-- C1: starting from the constructor state, after every call of every finite
sequence of mode-setter calls (any integer or boolean arguments), if the
dependent-axes mode is FROM_SECONDARY_AXIS then the primary and the secondary
axis label differ. The state after the first `k` calls of `calls` is
`runCalls constructor (calls.take k)`. -/
theorem C1_axis_distinctness_reachable (calls : List Call) (k : Nat) :
    (runCalls constructor (calls.take k)).DependentAxesMode
        = DEPENDENT_AXES_MODE_FROM_SECONDARY_AXIS →
      (runCalls constructor (calls.take k)).PrimaryAxisLabel ≠
        (runCalls constructor (calls.take k)).SecondaryAxisLabel :=
  (axis_invariant_run (calls.take k) constructor axis_invariant_constructor).2

/-- Witness of C1: after making the labels equal in the pivot mode and then
switching to the secondary-axis mode, the node is in that mode and the labels
differ. -/
theorem C1_axis_distinctness_reachable_witness :
    (runCalls constructor
      ([Call.SetSecondaryAxisLabel 2, Call.SetDependentAxesMode 1, Call.SetUpdateMode 1].take 2)
      ).DependentAxesMode = DEPENDENT_AXES_MODE_FROM_SECONDARY_AXIS ∧
    (runCalls constructor
      ([Call.SetSecondaryAxisLabel 2, Call.SetDependentAxesMode 1, Call.SetUpdateMode 1].take 2)
      ).PrimaryAxisLabel ≠
    (runCalls constructor
      ([Call.SetSecondaryAxisLabel 2, Call.SetDependentAxesMode 1, Call.SetUpdateMode 1].take 2)
      ).SecondaryAxisLabel :=
  ⟨by decide,
   C1_axis_distinctness_reachable
    [Call.SetSecondaryAxisLabel 2, Call.SetDependentAxesMode 1, Call.SetUpdateMode 1] 2
    (by decide)⟩

/-! ## Enum and string conversions -/

/-- The search loop of every `FromString` finds nothing when no index below the
bound has the name as its display string. -/
theorem fromStringLoop_none (asString : Int → String) (last : Int) (name : String)
    (h : ∀ v : Int, 0 ≤ v ∧ v < last → asString v ≠ name) :
    (List.range last.toNat).find? (fun (i : Nat) => name == asString (i : Int)) = none := by
  rw [List.find?_eq_none]
  intro i hi
  rw [List.mem_range] at hi
  have hne := h (i : Int) ⟨by omega, by omega⟩
  simp only [beq_iff_eq]
  exact fun e => hne e.symm

theorem processingMode_roundtrip (v : Int) (h : 0 ≤ v ∧ v < PROCESSING_MODE_LAST) :
    GetProcessingModeFromString (GetProcessingModeAsString v) = v ∧
      GetProcessingModeAsString v ≠ "Unknown Processing Mode" := by
  have hc : v = 0 ∨ v = 1 ∨ v = 2 ∨ v = 3 ∨ v = 4 ∨ v = 5 := by
    unfold PROCESSING_MODE_LAST at h; omega
  rcases hc with e | e | e | e | e | e <;> subst e <;> decide

theorem updateMode_roundtrip (v : Int) (h : 0 ≤ v ∧ v < UPDATE_MODE_LAST) :
    GetUpdateModeFromString (GetUpdateModeAsString v) = v ∧
      GetUpdateModeAsString v ≠ "Unknown Update Mode" := by
  have hc : v = 0 ∨ v = 1 := by
    unfold UPDATE_MODE_LAST at h; omega
  rcases hc with e | e <;> subst e <;> decide

theorem rotationMode_roundtrip (v : Int) (h : 0 ≤ v ∧ v < ROTATION_MODE_LAST) :
    GetRotationModeFromString (GetRotationModeAsString v) = v ∧
      GetRotationModeAsString v ≠ "Unknown Rotation Mode" := by
  have hc : v = 0 ∨ v = 1 := by
    unfold ROTATION_MODE_LAST at h; omega
  rcases hc with e | e <;> subst e <;> decide

theorem dependentAxesMode_roundtrip (v : Int) (h : 0 ≤ v ∧ v < DEPENDENT_AXES_MODE_LAST) :
    GetDependentAxesModeFromString (GetDependentAxesModeAsString v) = v ∧
      GetDependentAxesModeAsString v ≠ "Unknown Dependent Axes Mode" := by
  have hc : v = 0 ∨ v = 1 := by
    unfold DEPENDENT_AXES_MODE_LAST at h; omega
  rcases hc with e | e <;> subst e <;> decide

theorem axisLabel_roundtrip (v : Int) (h : 0 ≤ v ∧ v < AXIS_LABEL_LAST) :
    GetAxisLabelFromString (GetAxisLabelAsString v) = v ∧
      GetAxisLabelAsString v ≠ "Unknown Axis" := by
  have hc : v = 0 ∨ v = 1 ∨ v = 2 := by
    unfold AXIS_LABEL_LAST at h; omega
  rcases hc with e | e | e <;> subst e <;> decide

/-- A conversion with a left inverse on a range sends distinct values of the
range to distinct strings. -/
theorem distinct_of_roundtrip (asString : Int → String) (fromString : String → Int)
    (v w : Int) (hv : fromString (asString v) = v) (hw : fromString (asString w) = w)
    (hne : v ≠ w) : asString v ≠ asString w := by
  intro e
  apply hne
  rw [← hv, ← hw, e]

/-- C7: for each of the five enumerated types and all valid values `v`, `w`:
converting `v` to its display string and back gives `v`; the display string of
`v` is not the "Unknown ..." string of the type; and the display strings of
`v` and `w` differ when `v` and `w` differ. -/
theorem C7_enum_string_roundtrip (v w : Int) :
    (0 ≤ v ∧ v < PROCESSING_MODE_LAST →
      GetProcessingModeFromString (GetProcessingModeAsString v) = v ∧
      GetProcessingModeAsString v ≠ "Unknown Processing Mode" ∧
      (0 ≤ w ∧ w < PROCESSING_MODE_LAST → v ≠ w →
        GetProcessingModeAsString v ≠ GetProcessingModeAsString w)) ∧
    (0 ≤ v ∧ v < UPDATE_MODE_LAST →
      GetUpdateModeFromString (GetUpdateModeAsString v) = v ∧
      GetUpdateModeAsString v ≠ "Unknown Update Mode" ∧
      (0 ≤ w ∧ w < UPDATE_MODE_LAST → v ≠ w →
        GetUpdateModeAsString v ≠ GetUpdateModeAsString w)) ∧
    (0 ≤ v ∧ v < ROTATION_MODE_LAST →
      GetRotationModeFromString (GetRotationModeAsString v) = v ∧
      GetRotationModeAsString v ≠ "Unknown Rotation Mode" ∧
      (0 ≤ w ∧ w < ROTATION_MODE_LAST → v ≠ w →
        GetRotationModeAsString v ≠ GetRotationModeAsString w)) ∧
    (0 ≤ v ∧ v < DEPENDENT_AXES_MODE_LAST →
      GetDependentAxesModeFromString (GetDependentAxesModeAsString v) = v ∧
      GetDependentAxesModeAsString v ≠ "Unknown Dependent Axes Mode" ∧
      (0 ≤ w ∧ w < DEPENDENT_AXES_MODE_LAST → v ≠ w →
        GetDependentAxesModeAsString v ≠ GetDependentAxesModeAsString w)) ∧
    (0 ≤ v ∧ v < AXIS_LABEL_LAST →
      GetAxisLabelFromString (GetAxisLabelAsString v) = v ∧
      GetAxisLabelAsString v ≠ "Unknown Axis" ∧
      (0 ≤ w ∧ w < AXIS_LABEL_LAST → v ≠ w →
        GetAxisLabelAsString v ≠ GetAxisLabelAsString w)) := by
  refine ⟨?_, ?_, ?_, ?_, ?_⟩ <;> intro hv
  · exact ⟨(processingMode_roundtrip v hv).1, (processingMode_roundtrip v hv).2,
      fun hw hne => distinct_of_roundtrip _ GetProcessingModeFromString v w
        (processingMode_roundtrip v hv).1 (processingMode_roundtrip w hw).1 hne⟩
  · exact ⟨(updateMode_roundtrip v hv).1, (updateMode_roundtrip v hv).2,
      fun hw hne => distinct_of_roundtrip _ GetUpdateModeFromString v w
        (updateMode_roundtrip v hv).1 (updateMode_roundtrip w hw).1 hne⟩
  · exact ⟨(rotationMode_roundtrip v hv).1, (rotationMode_roundtrip v hv).2,
      fun hw hne => distinct_of_roundtrip _ GetRotationModeFromString v w
        (rotationMode_roundtrip v hv).1 (rotationMode_roundtrip w hw).1 hne⟩
  · exact ⟨(dependentAxesMode_roundtrip v hv).1, (dependentAxesMode_roundtrip v hv).2,
      fun hw hne => distinct_of_roundtrip _ GetDependentAxesModeFromString v w
        (dependentAxesMode_roundtrip v hv).1 (dependentAxesMode_roundtrip w hw).1 hne⟩
  · exact ⟨(axisLabel_roundtrip v hv).1, (axisLabel_roundtrip v hv).2,
      fun hw hne => distinct_of_roundtrip _ GetAxisLabelFromString v w
        (axisLabel_roundtrip v hv).1 (axisLabel_roundtrip w hw).1 hne⟩

/-- Witness of C7: the value 1 is valid in all five types; its display strings
convert back to 1, and the processing modes 1 and 5 have different strings. -/
theorem C7_enum_string_roundtrip_witness :
    GetProcessingModeFromString (GetProcessingModeAsString 1) = 1 ∧
    GetProcessingModeAsString 1 ≠ GetProcessingModeAsString 5 ∧
    GetUpdateModeFromString (GetUpdateModeAsString 1) = 1 ∧
    GetRotationModeFromString (GetRotationModeAsString 1) = 1 ∧
    GetDependentAxesModeFromString (GetDependentAxesModeAsString 1) = 1 ∧
    GetAxisLabelFromString (GetAxisLabelAsString 1) = 1 :=
  have h := C7_enum_string_roundtrip 1 5
  ⟨(h.1 (by decide)).1, (h.1 (by decide)).2.2 (by decide) (by decide),
   (h.2.1 (by decide)).1, (h.2.2.1 (by decide)).1, (h.2.2.2.1 (by decide)).1,
   (h.2.2.2.2 (by decide)).1⟩

/-- Counterexample to C8: "garbage" is not the display string of any valid
value, and each `FromString` function returns -1 for it, which is neither
the documented default of the type nor any other value of the enum. -/
theorem C8_unrecognised_string_counterexample :
    (∀ v : Int, 0 ≤ v ∧ v < PROCESSING_MODE_LAST → GetProcessingModeAsString v ≠ "garbage") ∧
    GetProcessingModeFromString "garbage" = -1 ∧
    GetProcessingModeFromString "garbage" ≠ PROCESSING_MODE_QUATERNION_AVERAGE ∧
    GetUpdateModeFromString "garbage" ≠ UPDATE_MODE_MANUAL ∧
    GetRotationModeFromString "garbage" ≠ ROTATION_MODE_COPY_ALL_AXES ∧
    GetDependentAxesModeFromString "garbage" ≠ DEPENDENT_AXES_MODE_FROM_PIVOT ∧
    GetAxisLabelFromString "garbage" = -1 := by
  refine ⟨?_, by decide, by decide, by decide, by decide, by decide, by decide⟩
  intro v hv
  have hc : v = 0 ∨ v = 1 ∨ v = 2 ∨ v = 3 ∨ v = 4 ∨ v = 5 := by
    unfold PROCESSING_MODE_LAST at hv; omega
  rcases hc with e | e | e | e | e | e <;> subst e <;> decide

/-- C8, amended: for each enumerated type and every string that is not the
display string of a valid value of the type, the `FromString` function of the
type returns -1, a value outside the enum. -/
theorem C8_unrecognised_string_gives_minus_one (name : String) :
    ((∀ v : Int, 0 ≤ v ∧ v < PROCESSING_MODE_LAST → GetProcessingModeAsString v ≠ name) →
      GetProcessingModeFromString name = -1) ∧
    ((∀ v : Int, 0 ≤ v ∧ v < UPDATE_MODE_LAST → GetUpdateModeAsString v ≠ name) →
      GetUpdateModeFromString name = -1) ∧
    ((∀ v : Int, 0 ≤ v ∧ v < ROTATION_MODE_LAST → GetRotationModeAsString v ≠ name) →
      GetRotationModeFromString name = -1) ∧
    ((∀ v : Int, 0 ≤ v ∧ v < DEPENDENT_AXES_MODE_LAST →
        GetDependentAxesModeAsString v ≠ name) →
      GetDependentAxesModeFromString name = -1) ∧
    ((∀ v : Int, 0 ≤ v ∧ v < AXIS_LABEL_LAST → GetAxisLabelAsString v ≠ name) →
      GetAxisLabelFromString name = -1) := by
  refine ⟨?_, ?_, ?_, ?_, ?_⟩ <;> intro h
  · simp only [GetProcessingModeFromString, fromStringLoop_none _ _ name h]
  · simp only [GetUpdateModeFromString, fromStringLoop_none _ _ name h]
  · simp only [GetRotationModeFromString, fromStringLoop_none _ _ name h]
  · simp only [GetDependentAxesModeFromString, fromStringLoop_none _ _ name h]
  · simp only [GetAxisLabelFromString, fromStringLoop_none _ _ name h]

/-- Witness of the amended C8: "garbage" is no axis label string, and
`GetAxisLabelFromString` returns -1 for it. -/
theorem C8_unrecognised_string_gives_minus_one_witness :
    (∀ v : Int, 0 ≤ v ∧ v < AXIS_LABEL_LAST → GetAxisLabelAsString v ≠ "garbage") ∧
    GetAxisLabelFromString "garbage" = -1 :=
  have hg : ∀ v : Int, 0 ≤ v ∧ v < AXIS_LABEL_LAST → GetAxisLabelAsString v ≠ "garbage" := by
    intro v hv
    have hc : v = 0 ∨ v = 1 ∨ v = 2 := by
      unfold AXIS_LABEL_LAST at hv; omega
    rcases hc with e | e | e <;> subst e <;> decide
  ⟨hg, (C8_unrecognised_string_gives_minus_one "garbage").2.2.2.2 hg⟩

/-! ## The role table: reading an entry -/

theorem resolvesToLinearTransform_iff (scene : Scene) (x : Handle) :
    scene.resolvesToLinearTransform x = true ↔
      scene.resolves x = true ∧ scene.isLinearTransform x = true := by
  simp only [Scene.resolvesToLinearTransform, Bool.and_eq_true]

/-- What the getter returns for a stored entry: the entry when the directory
resolves it to a linear transform node, and null otherwise. -/
theorem readEntry_some_iff (scene : Scene) (o : Option Handle) (x : Handle) :
    (match (match o with
        | none => none
        | some h => if scene.resolves h then some h else none : Option Handle) with
      | none => none
      | some node => if scene.isLinearTransform node then some node else none) = some x ↔
      o = some x ∧ scene.resolvesToLinearTransform x = true := by
  rw [resolvesToLinearTransform_iff]
  cases o with
  | none => simp
  | some h =>
    by_cases hr : scene.resolves h = true
    · by_cases hl : scene.isLinearTransform h = true
      · simp only [hr, hl, if_true, Option.some.injEq]
        constructor
        · intro e; subst e; exact ⟨rfl, hr, hl⟩
        · intro e; exact e.1
      · simp only [hr, hl, if_true]
        constructor
        · intro e; cases e
        · rintro ⟨e, _, hl2⟩
          rw [Option.some.injEq] at e
          subst e
          exact absurd hl2 hl
    · simp only [hr]
      constructor
      · intro e; cases e
      · rintro ⟨e, hr2, _⟩
        rw [Option.some.injEq] at e
        subst e
        exact absurd hr2 hr

theorem getNthTransformNodeInRole_some_iff (scene : Scene) (s : Node) (role : String)
    (n : Int) (x : Handle) :
    GetNthTransformNodeInRole scene s role n = some x ↔
      0 ≤ n ∧ (s.NodeReferences role)[n.toNat]? = some x ∧
        scene.resolvesToLinearTransform x = true := by
  by_cases hn : n < 0
  · simp only [GetNthTransformNodeInRole, GetNthNodeReference, if_pos hn]
    constructor
    · intro e; cases e
    · intro e; omega
  · simp only [GetNthTransformNodeInRole, GetNthNodeReference, if_neg hn]
    rw [readEntry_some_iff]
    constructor
    · intro e; exact ⟨by omega, e⟩
    · intro e; exact e.2

theorem getNthTransformNodeInRole_natCast (scene : Scene) (s : Node) (role : String)
    (n : Nat) (x : Handle) :
    GetNthTransformNodeInRole scene s role (n : Int) = some x ↔
      (s.NodeReferences role)[n]? = some x ∧ scene.resolvesToLinearTransform x = true := by
  rw [getNthTransformNodeInRole_some_iff, Int.toNat_ofNat]
  constructor
  · intro e; exact e.2
  · intro e; exact ⟨by omega, e⟩

theorem getTransformNodeInRole_some_iff (scene : Scene) (s : Node) (role : String)
    (x : Handle) :
    GetTransformNodeInRole scene s role = some x ↔
      (s.NodeReferences role).head? = some x ∧ scene.resolvesToLinearTransform x = true := by
  have h := getNthTransformNodeInRole_natCast scene s role 0 x
  rw [List.head?_eq_getElem?]
  exact h

theorem getNumberOfTransformNodesInRole_toNat (s : Node) (role : String) :
    (GetNumberOfTransformNodesInRole s role).toNat = (s.NodeReferences role).length := by
  simp only [GetNumberOfTransformNodesInRole, GetNumberOfNodeReferences, Int.toNat_ofNat]

/-- The scan of `AddAndObserveTransformNodeInRole` finds the node exactly when
it is stored in the list of the role and the directory resolves it to a linear
transform node. -/
theorem duplicate_scan_iff (scene : Scene) (s : Node) (role : String) (x : Handle) :
    (List.range (GetNumberOfTransformNodesInRole s role).toNat).any
        (fun (n : Nat) =>
          decide (some x = GetNthTransformNodeInRole scene s role (n : Int))) = true
      ↔ x ∈ s.NodeReferences role ∧ scene.resolvesToLinearTransform x = true := by
  rw [getNumberOfTransformNodesInRole_toNat, List.any_eq_true]
  constructor
  · rintro ⟨n, hn, hx⟩
    rw [List.mem_range] at hn
    rw [decide_eq_true_eq] at hx
    have h := (getNthTransformNodeInRole_natCast scene s role n x).mp hx.symm
    rw [List.getElem?_eq_getElem hn, Option.some.injEq] at h
    refine ⟨?_, h.2⟩
    rw [← h.1]
    exact List.getElem_mem hn
  · rintro ⟨hx, hread⟩
    obtain ⟨n, hn, hxn⟩ := List.getElem_of_mem hx
    refine ⟨n, List.mem_range.mpr hn, ?_⟩
    rw [decide_eq_true_eq]
    refine ((getNthTransformNodeInRole_natCast scene s role n x).mpr ⟨?_, hread⟩).symm
    rw [List.getElem?_eq_getElem hn, hxn]

theorem addAndObserve_absent (scene : Scene) (s : Node) (role : String) (x : Handle)
    (h : ¬ (x ∈ s.NodeReferences role ∧ scene.resolvesToLinearTransform x = true)) :
    AddAndObserveTransformNodeInRole scene role (some x) s =
      (AddAndObserveNodeReferenceID s role x, [Event.InputDataModified]) := by
  have hscan := mt (duplicate_scan_iff scene s role x).mp h
  simp only [AddAndObserveTransformNodeInRole, if_neg hscan]

/-! ## Adding to a role -/

theorem removeNth_out_of_range (s : Node) (role : String) (n : Int)
    (h : ¬ (0 ≤ n ∧ n < ((s.NodeReferences role).length : Int))) :
    RemoveNthTransformNodeInRole role n s = (s, [Event.InputDataModified]) := by
  simp only [RemoveNthTransformNodeInRole, RemoveNthNodeReferenceID, if_neg h]

/-- C14: for a role with `n` entries and a non-null handle `x` that is not in
its list, after `AddAndObserveTransformNodeInRole(role, x)` the role has `n+1`
entries, the entry stored at index `n` is `x`, the entries stored at the
indices below `n` are as before and in the same order, the list of every other
role is as before, and one notification is raised, whatever the directory
resolves. Read through the getter, the indices below `n` give what they gave
before, and index `n` gives `x` when the directory resolves `x` to a linear
transform node (and null when it does not). -/
theorem C14_addMulti_appends (scene : Scene) (s : Node) (role : String) (x : Handle)
    (habsent : x ∉ s.NodeReferences role) :
    (AddAndObserveTransformNodeInRole scene role (some x) s).1.NodeReferences role
      = s.NodeReferences role ++ [x] ∧
    GetNumberOfTransformNodesInRole
        (AddAndObserveTransformNodeInRole scene role (some x) s).1 role
      = GetNumberOfTransformNodesInRole s role + 1 ∧
    ((AddAndObserveTransformNodeInRole scene role (some x) s).1.NodeReferences role)[
        (s.NodeReferences role).length]? = some x ∧
    (∀ i : Nat, i < (s.NodeReferences role).length →
      ((AddAndObserveTransformNodeInRole scene role (some x) s).1.NodeReferences role)[i]?
        = (s.NodeReferences role)[i]?) ∧
    (scene.resolvesToLinearTransform x = true →
      GetNthTransformNodeInRole scene
        (AddAndObserveTransformNodeInRole scene role (some x) s).1 role
        (GetNumberOfTransformNodesInRole s role) = some x) ∧
    (scene.resolvesToLinearTransform x = false →
      GetNthTransformNodeInRole scene
        (AddAndObserveTransformNodeInRole scene role (some x) s).1 role
        (GetNumberOfTransformNodesInRole s role) = none) ∧
    (∀ i : Int, i < GetNumberOfTransformNodesInRole s role →
      GetNthTransformNodeInRole scene
          (AddAndObserveTransformNodeInRole scene role (some x) s).1 role i
        = GetNthTransformNodeInRole scene s role i) ∧
    (∀ other : String, other ≠ role →
      (AddAndObserveTransformNodeInRole scene role (some x) s).1.NodeReferences other
        = s.NodeReferences other) ∧
    notifications (AddAndObserveTransformNodeInRole scene role (some x) s).2 = 1 := by
  have hst := addAndObserve_absent scene s role x (fun hc => habsent hc.1)
  have hl : (AddAndObserveTransformNodeInRole scene role (some x) s).1.NodeReferences role
      = s.NodeReferences role ++ [x] := by
    rw [hst]
    simp only [AddAndObserveNodeReferenceID, if_true]
  have hlast : ((AddAndObserveTransformNodeInRole scene role (some x) s).1.NodeReferences
      role)[(s.NodeReferences role).length]? = some x := by
    rw [hl, List.getElem?_concat_length]
  refine ⟨hl, ?_, hlast, ?_, ?_, ?_, ?_, ?_, ?_⟩
  · simp only [GetNumberOfTransformNodesInRole, GetNumberOfNodeReferences, hl,
      List.length_append, List.length_singleton]
    omega
  · intro i hi
    rw [hl]
    exact List.getElem?_append_left hi
  · intro hread
    exact (getNthTransformNodeInRole_natCast scene _ role (s.NodeReferences role).length x).mpr
      ⟨hlast, hread⟩
  · intro hunread
    cases hg : GetNthTransformNodeInRole scene
        (AddAndObserveTransformNodeInRole scene role (some x) s).1 role
        (GetNumberOfTransformNodesInRole s role) with
    | none => rfl
    | some y =>
      have h2 := (getNthTransformNodeInRole_natCast scene _ role
        (s.NodeReferences role).length y).mp hg
      rw [hlast, Option.some.injEq] at h2
      rw [← h2.1, hunread] at h2
      cases h2.2
  · intro i hi
    by_cases hneg : i < 0
    · simp only [GetNthTransformNodeInRole, GetNthNodeReference, if_pos hneg]
    · have hlt : i.toNat < (s.NodeReferences role).length := by
        have hi2 : i < ((s.NodeReferences role).length : Int) := hi
        omega
      simp only [GetNthTransformNodeInRole, GetNthNodeReference, if_neg hneg, hl,
        List.getElem?_append_left hlt]
  · intro other ho
    rw [hst]
    simp only [AddAndObserveNodeReferenceID, if_neg ho]
  · rw [hst]
    rfl

/-- Witness of C14: adding 8 to a CombineTransform role that holds 6 and 7
gives 6, 7, 8, under a directory that resolves nothing as under any other. -/
theorem C14_addMulti_appends_witness :
    (AddAndObserveTransformNodeInRole ⟨fun _ => false, fun _ => true⟩
      ROLE_INPUT_COMBINE_TRANSFORM (some 8)
      { constructor with
        NodeReferences := fun r => if r = ROLE_INPUT_COMBINE_TRANSFORM then [6, 7] else [] }
      ).1.NodeReferences ROLE_INPUT_COMBINE_TRANSFORM = [6, 7] ++ [8] :=
  (C14_addMulti_appends ⟨fun _ => false, fun _ => true⟩
      { constructor with
        NodeReferences := fun r => if r = ROLE_INPUT_COMBINE_TRANSFORM then [6, 7] else [] }
      ROLE_INPUT_COMBINE_TRANSFORM 8 (by decide)).1

/-- Counterexample to C15: on the default node the CombineTransform role is
empty, so the index 0 is out of range, and `RemoveNthTransformNodeInRole` still
raises `InputDataModifiedEvent`. -/
theorem C15_out_of_range_removal_counterexample :
    (0 : Int) ≥ GetNumberOfTransformNodesInRole constructor ROLE_INPUT_COMBINE_TRANSFORM ∧
    notifications
      (RemoveNthTransformNodeInRole ROLE_INPUT_COMBINE_TRANSFORM 0 constructor).2 = 1 ∧
    notifications
      (RemoveNthTransformNodeInRole ROLE_INPUT_COMBINE_TRANSFORM 0 constructor).2 ≠ 0 := by
  refine ⟨by decide, by decide, by decide⟩

/-- C15, amended: for an index `i` with `i >= count(role)` or `i < 0`, the
removal in the superclass fails with `IndexOutOfRange`, and
`RemoveNthTransformNodeInRole(role, i)` returns with the node (its table
included) as it was and raises `InputDataModifiedEvent` exactly once. -/
theorem C15_out_of_range_removal_notifies (s : Node) (role : String) (i : Int)
    (hout : i ≥ GetNumberOfTransformNodesInRole s role ∨ i < 0) :
    RemoveNthNodeReferenceID s role i = Except.error RoleError.IndexOutOfRange ∧
    (RemoveNthTransformNodeInRole role i s).1 = s ∧
    (RemoveNthTransformNodeInRole role i s).2 = [Event.InputDataModified] ∧
    notifications (RemoveNthTransformNodeInRole role i s).2 = 1 := by
  have hno : ¬ (0 ≤ i ∧ i < ((s.NodeReferences role).length : Int)) := by
    have h2 : i ≥ ((s.NodeReferences role).length : Int) ∨ i < 0 := hout
    omega
  refine ⟨?_, ?_, ?_, ?_⟩
  · simp only [RemoveNthNodeReferenceID, if_neg hno]
  · rw [removeNth_out_of_range s role i hno]
  · rw [removeNth_out_of_range s role i hno]
  · rw [removeNth_out_of_range s role i hno]
    rfl

/-- Witness of the amended C15: index 2 on a role that holds two entries. -/
theorem C15_out_of_range_removal_notifies_witness :
    (RemoveNthTransformNodeInRole ROLE_INPUT_COMBINE_TRANSFORM 2
      { constructor with
        NodeReferences := fun r => if r = ROLE_INPUT_COMBINE_TRANSFORM then [6, 7] else [] }
      ).2 = [Event.InputDataModified] :=
  (C15_out_of_range_removal_notifies
      { constructor with
        NodeReferences := fun r => if r = ROLE_INPUT_COMBINE_TRANSFORM then [6, 7] else [] }
      ROLE_INPUT_COMBINE_TRANSFORM 2 (Or.inl (by decide))).2.2.1

/-! ## The setters once more: unchanged and committed arguments, field by field -/

theorem SetProcessingMode_same (s : Node) (v : Int) (hv : 0 ≤ v ∧ v < PROCESSING_MODE_LAST)
    (heq : s.ProcessingMode = v) : SetProcessingMode v s = (s, []) := by
  simp only [SetProcessingMode, if_neg (valid_of_in_range v _ hv), if_pos heq]

theorem SetUpdateMode_same (s : Node) (v : Int) (hv : 0 ≤ v ∧ v < UPDATE_MODE_LAST)
    (heq : s.UpdateMode = v) : SetUpdateMode v s = (s, []) := by
  simp only [SetUpdateMode, if_neg (valid_of_in_range v _ hv), if_pos heq]

theorem SetRotationMode_same (s : Node) (v : Int) (hv : 0 ≤ v ∧ v < ROTATION_MODE_LAST)
    (heq : s.RotationMode = v) : SetRotationMode v s = (s, []) := by
  simp only [SetRotationMode, if_neg (valid_of_in_range v _ hv), if_pos heq]

theorem SetDependentAxesMode_same (s : Node) (v : Int) (hv : 0 ≤ v ∧ v < DEPENDENT_AXES_MODE_LAST)
    (heq : s.DependentAxesMode = v) : SetDependentAxesMode v s = (s, []) := by
  simp only [SetDependentAxesMode, if_neg (valid_of_in_range v _ hv), if_pos heq]

theorem SetPrimaryAxisLabel_same (s : Node) (v : Int) (hv : 0 ≤ v ∧ v < AXIS_LABEL_LAST)
    (heq : s.PrimaryAxisLabel = v) : SetPrimaryAxisLabel v s = (s, []) := by
  simp only [SetPrimaryAxisLabel, if_neg (valid_of_in_range v _ hv), if_pos heq]

theorem SetSecondaryAxisLabel_same (s : Node) (v : Int) (hv : 0 ≤ v ∧ v < AXIS_LABEL_LAST)
    (heq : s.SecondaryAxisLabel = v) : SetSecondaryAxisLabel v s = (s, []) := by
  simp only [SetSecondaryAxisLabel, if_neg (valid_of_in_range v _ hv), if_pos heq]

theorem SetProcessingMode_commits (s : Node) (v : Int) (hv : 0 ≤ v ∧ v < PROCESSING_MODE_LAST)
    (hne : s.ProcessingMode ≠ v) :
    SetProcessingMode v s = ({ s with ProcessingMode := v }, [Event.Modified, Event.InputDataModified]) := by
  simp only [SetProcessingMode, if_neg (valid_of_in_range v _ hv), if_neg hne]

theorem SetUpdateMode_commits (s : Node) (v : Int) (hv : 0 ≤ v ∧ v < UPDATE_MODE_LAST)
    (hne : s.UpdateMode ≠ v) :
    SetUpdateMode v s = ({ s with UpdateMode := v }, [Event.Modified, Event.InputDataModified]) := by
  simp only [SetUpdateMode, if_neg (valid_of_in_range v _ hv), if_neg hne]

theorem SetRotationMode_commits (s : Node) (v : Int) (hv : 0 ≤ v ∧ v < ROTATION_MODE_LAST)
    (hne : s.RotationMode ≠ v) :
    SetRotationMode v s = ({ s with RotationMode := v }, [Event.Modified, Event.InputDataModified]) := by
  simp only [SetRotationMode, if_neg (valid_of_in_range v _ hv), if_neg hne]

theorem SetCopyTranslationX_same (s : Node) (b : Bool)
    (heq : s.CopyTranslationComponents0 = b) : SetCopyTranslationX b s = (s, []) := by
  simp only [SetCopyTranslationX, if_pos heq]

theorem SetCopyTranslationX_commits (s : Node) (b : Bool)
    (hne : s.CopyTranslationComponents0 ≠ b) :
    SetCopyTranslationX b s =
      ({ s with CopyTranslationComponents0 := b },
        [Event.Modified, Event.InputDataModified]) := by
  simp only [SetCopyTranslationX, if_neg hne]

theorem SetCopyTranslationY_same (s : Node) (b : Bool)
    (heq : s.CopyTranslationComponents1 = b) : SetCopyTranslationY b s = (s, []) := by
  simp only [SetCopyTranslationY, if_pos heq]

theorem SetCopyTranslationY_commits (s : Node) (b : Bool)
    (hne : s.CopyTranslationComponents1 ≠ b) :
    SetCopyTranslationY b s =
      ({ s with CopyTranslationComponents1 := b },
        [Event.Modified, Event.InputDataModified]) := by
  simp only [SetCopyTranslationY, if_neg hne]

theorem SetCopyTranslationZ_same (s : Node) (b : Bool)
    (heq : s.CopyTranslationComponents2 = b) : SetCopyTranslationZ b s = (s, []) := by
  simp only [SetCopyTranslationZ, if_pos heq]

theorem SetCopyTranslationZ_commits (s : Node) (b : Bool)
    (hne : s.CopyTranslationComponents2 ≠ b) :
    SetCopyTranslationZ b s =
      ({ s with CopyTranslationComponents2 := b },
        [Event.Modified, Event.InputDataModified]) := by
  simp only [SetCopyTranslationZ, if_neg hne]

theorem checkAndCorrect_distinct (s : Node) (h : s.PrimaryAxisLabel ≠ s.SecondaryAxisLabel) :
    CheckAndCorrectForDuplicateAxes s = (s, []) := by
  simp only [CheckAndCorrectForDuplicateAxes, if_neg h]

theorem checkAndCorrect_primary (s : Node) :
    (CheckAndCorrectForDuplicateAxes s).1.PrimaryAxisLabel = s.PrimaryAxisLabel := by
  unfold CheckAndCorrectForDuplicateAxes
  split_ifs <;> rfl

theorem checkAndCorrect_mode (s : Node) :
    (CheckAndCorrectForDuplicateAxes s).1.DependentAxesMode = s.DependentAxesMode := by
  unfold CheckAndCorrectForDuplicateAxes
  split_ifs <;> rfl

/-- The state after `SetDependentAxesMode` with a valid, new argument holds the
argument as its mode. -/
theorem SetDependentAxesMode_commits_mode (s : Node) (v : Int)
    (hv : 0 ≤ v ∧ v < DEPENDENT_AXES_MODE_LAST) (hne : s.DependentAxesMode ≠ v) :
    (SetDependentAxesMode v s).1.DependentAxesMode = v := by
  rw [SetDependentAxesMode_commits s v hv hne]
  split_ifs
  · exact checkAndCorrect_mode _
  · rfl

/-- The state after `SetPrimaryAxisLabel` with a valid, new argument holds the
argument as its primary label. -/
theorem SetPrimaryAxisLabel_commits_primary (s : Node) (v : Int)
    (hv : 0 ≤ v ∧ v < AXIS_LABEL_LAST) (hne : s.PrimaryAxisLabel ≠ v) :
    (SetPrimaryAxisLabel v s).1.PrimaryAxisLabel = v := by
  rw [SetPrimaryAxisLabel_commits s v hv hne]
  split_ifs
  · exact checkAndCorrect_primary _
  · rfl

/-- The state after `SetSecondaryAxisLabel` with a valid, new argument: the
argument is stored, unless the node is in the secondary-axis mode and the
argument is the primary label, when Y is stored for a primary Z and Z
otherwise. -/
theorem SetSecondaryAxisLabel_commits_state (s : Node) (v : Int)
    (hv : 0 ≤ v ∧ v < AXIS_LABEL_LAST) (hne : s.SecondaryAxisLabel ≠ v) :
    (SetSecondaryAxisLabel v s).1 =
      { s with SecondaryAxisLabel :=
          if s.DependentAxesMode = DEPENDENT_AXES_MODE_FROM_SECONDARY_AXIS ∧
              s.PrimaryAxisLabel = v then
            (if v = AXIS_LABEL_Z then AXIS_LABEL_Y else AXIS_LABEL_Z)
          else v } := by
  rw [SetSecondaryAxisLabel_commits s v hv hne]
  by_cases hm : s.DependentAxesMode = DEPENDENT_AXES_MODE_FROM_SECONDARY_AXIS
  · by_cases hp : s.PrimaryAxisLabel = v
    · have hvalid : ValidAxisLabel ({ s with SecondaryAxisLabel := v } : Node).PrimaryAxisLabel :=
        (validAxisLabel_iff _).mpr (by rw [hp]; exact hv)
      simp only [if_pos hm, if_pos (And.intro hm hp)]
      rw [checkAndCorrect_state { s with SecondaryAxisLabel := v } hvalid]
      simp only [correctedSecondaryAxis, if_pos hp, hp, if_true]
    · have hd : ({ s with SecondaryAxisLabel := v } : Node).PrimaryAxisLabel ≠
          ({ s with SecondaryAxisLabel := v } : Node).SecondaryAxisLabel := hp
      have hno : ¬ (s.DependentAxesMode = DEPENDENT_AXES_MODE_FROM_SECONDARY_AXIS ∧
          s.PrimaryAxisLabel = v) := fun h => hp h.2
      simp only [if_pos hm, if_neg hno]
      rw [checkAndCorrect_distinct _ hd]
  · have hno : ¬ (s.DependentAxesMode = DEPENDENT_AXES_MODE_FROM_SECONDARY_AXIS ∧
        s.PrimaryAxisLabel = v) := fun h => hm h.1
    simp only [if_neg hm, if_neg hno]

/-! ## Notifications against state changes -/

theorem corrected_label_ne (v : Int) :
    (if v = AXIS_LABEL_Z then AXIS_LABEL_Y else AXIS_LABEL_Z) ≠ v := by
  unfold AXIS_LABEL_Y AXIS_LABEL_Z
  split_ifs <;> omega

theorem SetSecondaryAxisLabel_notifies (s : Node) (v : Int)
    (hv : 0 ≤ v ∧ v < AXIS_LABEL_LAST) (hne : s.SecondaryAxisLabel ≠ v) :
    notifications (SetSecondaryAxisLabel v s).2 = 1 := by
  rw [SetSecondaryAxisLabel_commits s v hv hne]
  exact notifications_commit _ (correction_branch_events _ _)

/-- When the correction writes the previous secondary label back, the state is
as before and one notification has been raised. -/
theorem correction_writes_back_outcome (s : Node) (c : Call) (h : CorrectionWritesBack c s) :
    (c.apply s).1 = s ∧ notifications (c.apply s).2 = 1 := by
  obtain ⟨v, hc, hvalid, hm, hp, hs⟩ := h
  subst hc
  have hv := (validAxisLabel_iff v).mp hvalid
  have hne : s.SecondaryAxisLabel ≠ v := by
    rw [hs]
    exact corrected_label_ne v
  simp only [Call.apply]
  refine ⟨?_, SetSecondaryAxisLabel_notifies s v hv hne⟩
  rw [SetSecondaryAxisLabel_commits_state s v hv hne]
  simp only [if_pos (And.intro hm hp)]
  rw [← hs]

/-- Counterexample to C16: in the secondary-axis mode with (Primary=Z,
Secondary=Y), `SetSecondaryAxisLabel(Z)` stores Z, the correction writes Y
back, the state after the call is the state before it, and
`InputDataModifiedEvent` is raised once. -/
theorem C16_notification_iff_changed_counterexample :
    (SetSecondaryAxisLabel AXIS_LABEL_Z
      { constructor with DependentAxesMode := DEPENDENT_AXES_MODE_FROM_SECONDARY_AXIS }).1
      = { constructor with DependentAxesMode := DEPENDENT_AXES_MODE_FROM_SECONDARY_AXIS } ∧
    notifications (SetSecondaryAxisLabel AXIS_LABEL_Z
      { constructor with DependentAxesMode := DEPENDENT_AXES_MODE_FROM_SECONDARY_AXIS }).2
      = 1 :=
  correction_writes_back_outcome
    { constructor with DependentAxesMode := DEPENDENT_AXES_MODE_FROM_SECONDARY_AXIS }
    (Call.SetSecondaryAxisLabel AXIS_LABEL_Z)
    ⟨AXIS_LABEL_Z, rfl, Or.inr (Or.inr rfl), rfl, rfl, rfl⟩

/-- C16, amended: a call of a mode setter raises `InputDataModifiedEvent`
exactly once when the state after the call differs from the state before it;
it raises none when the state after the call equals the state before it,
except when the correction writes the previous secondary label back
(`SetSecondaryAxisLabel` with the primary label in the secondary-axis mode):
then the state is as before and the notification is raised exactly once. -/
theorem C16_notification_vs_state_change (s : Node) (c : Call) :
    ((c.apply s).1 ≠ s → notifications (c.apply s).2 = 1) ∧
    ((c.apply s).1 = s → ¬ CorrectionWritesBack c s → notifications (c.apply s).2 = 0) ∧
    (CorrectionWritesBack c s → (c.apply s).1 = s ∧ notifications (c.apply s).2 = 1) := by
  refine ⟨?_, ?_, correction_writes_back_outcome s c⟩
  · cases c with
    | SetProcessingMode v =>
      simp only [Call.apply]
      by_cases hv : 0 ≤ v ∧ v < PROCESSING_MODE_LAST
      · by_cases hcur : s.ProcessingMode = v
        · rw [SetProcessingMode_same s v hv hcur]; exact fun h => absurd rfl h
        · rw [SetProcessingMode_commits s v hv hcur]; exact fun _ => rfl
      · rw [SetProcessingMode_rejects s v (by omega)]; exact fun h => absurd rfl h
    | SetUpdateMode v =>
      simp only [Call.apply]
      by_cases hv : 0 ≤ v ∧ v < UPDATE_MODE_LAST
      · by_cases hcur : s.UpdateMode = v
        · rw [SetUpdateMode_same s v hv hcur]; exact fun h => absurd rfl h
        · rw [SetUpdateMode_commits s v hv hcur]; exact fun _ => rfl
      · rw [SetUpdateMode_rejects s v (by omega)]; exact fun h => absurd rfl h
    | SetRotationMode v =>
      simp only [Call.apply]
      by_cases hv : 0 ≤ v ∧ v < ROTATION_MODE_LAST
      · by_cases hcur : s.RotationMode = v
        · rw [SetRotationMode_same s v hv hcur]; exact fun h => absurd rfl h
        · rw [SetRotationMode_commits s v hv hcur]; exact fun _ => rfl
      · rw [SetRotationMode_rejects s v (by omega)]; exact fun h => absurd rfl h
    | SetCopyTranslationX b =>
      simp only [Call.apply]
      by_cases hcur : s.CopyTranslationComponents0 = b
      · rw [SetCopyTranslationX_same s b hcur]; exact fun h => absurd rfl h
      · rw [SetCopyTranslationX_commits s b hcur]; exact fun _ => rfl
    | SetCopyTranslationY b =>
      simp only [Call.apply]
      by_cases hcur : s.CopyTranslationComponents1 = b
      · rw [SetCopyTranslationY_same s b hcur]; exact fun h => absurd rfl h
      · rw [SetCopyTranslationY_commits s b hcur]; exact fun _ => rfl
    | SetCopyTranslationZ b =>
      simp only [Call.apply]
      by_cases hcur : s.CopyTranslationComponents2 = b
      · rw [SetCopyTranslationZ_same s b hcur]; exact fun h => absurd rfl h
      · rw [SetCopyTranslationZ_commits s b hcur]; exact fun _ => rfl
    | SetDependentAxesMode v =>
      simp only [Call.apply]
      by_cases hv : 0 ≤ v ∧ v < DEPENDENT_AXES_MODE_LAST
      · by_cases hcur : s.DependentAxesMode = v
        · rw [SetDependentAxesMode_same s v hv hcur]; exact fun h => absurd rfl h
        · intro _
          rw [SetDependentAxesMode_commits s v hv hcur]
          exact notifications_commit _ (correction_branch_events _ _)
      · rw [SetDependentAxesMode_rejects s v (by omega)]; exact fun h => absurd rfl h
    | SetPrimaryAxisLabel v =>
      simp only [Call.apply]
      by_cases hv : 0 ≤ v ∧ v < AXIS_LABEL_LAST
      · by_cases hcur : s.PrimaryAxisLabel = v
        · rw [SetPrimaryAxisLabel_same s v hv hcur]; exact fun h => absurd rfl h
        · intro _
          rw [SetPrimaryAxisLabel_commits s v hv hcur]
          exact notifications_commit _ (correction_branch_events _ _)
      · rw [SetPrimaryAxisLabel_rejects s v (by omega)]; exact fun h => absurd rfl h
    | SetSecondaryAxisLabel v =>
      simp only [Call.apply]
      by_cases hv : 0 ≤ v ∧ v < AXIS_LABEL_LAST
      · by_cases hcur : s.SecondaryAxisLabel = v
        · rw [SetSecondaryAxisLabel_same s v hv hcur]; exact fun h => absurd rfl h
        · exact fun _ => SetSecondaryAxisLabel_notifies s v hv hcur
      · rw [SetSecondaryAxisLabel_rejects s v (by omega)]; exact fun h => absurd rfl h
  · cases c with
    | SetProcessingMode v =>
      simp only [Call.apply]
      by_cases hv : 0 ≤ v ∧ v < PROCESSING_MODE_LAST
      · by_cases hcur : s.ProcessingMode = v
        · rw [SetProcessingMode_same s v hv hcur]; exact fun _ _ => rfl
        · rw [SetProcessingMode_commits s v hv hcur]; exact fun h _ => absurd (congrArg Node.ProcessingMode h).symm hcur
      · rw [SetProcessingMode_rejects s v (by omega)]; exact fun _ _ => rfl
    | SetUpdateMode v =>
      simp only [Call.apply]
      by_cases hv : 0 ≤ v ∧ v < UPDATE_MODE_LAST
      · by_cases hcur : s.UpdateMode = v
        · rw [SetUpdateMode_same s v hv hcur]; exact fun _ _ => rfl
        · rw [SetUpdateMode_commits s v hv hcur]; exact fun h _ => absurd (congrArg Node.UpdateMode h).symm hcur
      · rw [SetUpdateMode_rejects s v (by omega)]; exact fun _ _ => rfl
    | SetRotationMode v =>
      simp only [Call.apply]
      by_cases hv : 0 ≤ v ∧ v < ROTATION_MODE_LAST
      · by_cases hcur : s.RotationMode = v
        · rw [SetRotationMode_same s v hv hcur]; exact fun _ _ => rfl
        · rw [SetRotationMode_commits s v hv hcur]; exact fun h _ => absurd (congrArg Node.RotationMode h).symm hcur
      · rw [SetRotationMode_rejects s v (by omega)]; exact fun _ _ => rfl
    | SetCopyTranslationX b =>
      simp only [Call.apply]
      by_cases hcur : s.CopyTranslationComponents0 = b
      · rw [SetCopyTranslationX_same s b hcur]; exact fun _ _ => rfl
      · rw [SetCopyTranslationX_commits s b hcur]; exact fun h _ => absurd (congrArg Node.CopyTranslationComponents0 h).symm hcur
    | SetCopyTranslationY b =>
      simp only [Call.apply]
      by_cases hcur : s.CopyTranslationComponents1 = b
      · rw [SetCopyTranslationY_same s b hcur]; exact fun _ _ => rfl
      · rw [SetCopyTranslationY_commits s b hcur]; exact fun h _ => absurd (congrArg Node.CopyTranslationComponents1 h).symm hcur
    | SetCopyTranslationZ b =>
      simp only [Call.apply]
      by_cases hcur : s.CopyTranslationComponents2 = b
      · rw [SetCopyTranslationZ_same s b hcur]; exact fun _ _ => rfl
      · rw [SetCopyTranslationZ_commits s b hcur]; exact fun h _ => absurd (congrArg Node.CopyTranslationComponents2 h).symm hcur
    | SetDependentAxesMode v =>
      simp only [Call.apply]
      by_cases hv : 0 ≤ v ∧ v < DEPENDENT_AXES_MODE_LAST
      · by_cases hcur : s.DependentAxesMode = v
        · rw [SetDependentAxesMode_same s v hv hcur]; exact fun _ _ => rfl
        · intro h _
          have hm := SetDependentAxesMode_commits_mode s v hv hcur
          rw [h] at hm
          exact absurd hm hcur
      · rw [SetDependentAxesMode_rejects s v (by omega)]; exact fun _ _ => rfl
    | SetPrimaryAxisLabel v =>
      simp only [Call.apply]
      by_cases hv : 0 ≤ v ∧ v < AXIS_LABEL_LAST
      · by_cases hcur : s.PrimaryAxisLabel = v
        · rw [SetPrimaryAxisLabel_same s v hv hcur]; exact fun _ _ => rfl
        · intro h _
          have hm := SetPrimaryAxisLabel_commits_primary s v hv hcur
          rw [h] at hm
          exact absurd hm hcur
      · rw [SetPrimaryAxisLabel_rejects s v (by omega)]; exact fun _ _ => rfl
    | SetSecondaryAxisLabel v =>
      simp only [Call.apply]
      by_cases hv : 0 ≤ v ∧ v < AXIS_LABEL_LAST
      · by_cases hcur : s.SecondaryAxisLabel = v
        · rw [SetSecondaryAxisLabel_same s v hv hcur]; exact fun _ _ => rfl
        · intro h hnot
          exfalso
          have hst := SetSecondaryAxisLabel_commits_state s v hv hcur
          rw [h] at hst
          have hsec := congrArg Node.SecondaryAxisLabel hst
          simp only at hsec
          by_cases hmp : s.DependentAxesMode = DEPENDENT_AXES_MODE_FROM_SECONDARY_AXIS ∧
              s.PrimaryAxisLabel = v
          · rw [if_pos hmp] at hsec
            exact hnot ⟨v, rfl, (validAxisLabel_iff v).mpr hv, hmp.1, hmp.2, hsec⟩
          · rw [if_neg hmp] at hsec
            exact hcur hsec
      · rw [SetSecondaryAxisLabel_rejects s v (by omega)]; exact fun _ _ => rfl

/-- Witness of the amended C16: on the default node `SetUpdateMode(Auto)`
changes the state and notifies once, and `SetUpdateMode(Manual)` changes
nothing and does not notify. -/
theorem C16_notification_vs_state_change_witness :
    notifications ((Call.SetUpdateMode UPDATE_MODE_AUTO).apply constructor).2 = 1 ∧
    notifications ((Call.SetUpdateMode UPDATE_MODE_MANUAL).apply constructor).2 = 0 :=
  ⟨(C16_notification_vs_state_change constructor (Call.SetUpdateMode UPDATE_MODE_AUTO)).1
      (fun h => absurd (congrArg Node.UpdateMode h) (by decide)),
   (C16_notification_vs_state_change constructor (Call.SetUpdateMode UPDATE_MODE_MANUAL)).2.1
      rfl (fun ⟨_, hc, _⟩ => Call.noConfusion hc)⟩

/-! ## Calling a setter twice -/

theorem SetSecondaryAxisLabel_twice (s : Node) (v : Int) :
    (SetSecondaryAxisLabel v (SetSecondaryAxisLabel v s).1).1 = (SetSecondaryAxisLabel v s).1 := by
  by_cases hv : 0 ≤ v ∧ v < AXIS_LABEL_LAST
  · by_cases hcur : s.SecondaryAxisLabel = v
    · rw [SetSecondaryAxisLabel_same s v hv hcur]
      exact congrArg Prod.fst (SetSecondaryAxisLabel_same s v hv hcur)
    · have hst := SetSecondaryAxisLabel_commits_state s v hv hcur
      by_cases hmp : s.DependentAxesMode = DEPENDENT_AXES_MODE_FROM_SECONDARY_AXIS ∧
          s.PrimaryAxisLabel = v
      · rw [if_pos hmp] at hst
        rw [hst]
        have hne2 : ({ s with SecondaryAxisLabel :=
            (if v = AXIS_LABEL_Z then AXIS_LABEL_Y else AXIS_LABEL_Z) } : Node).SecondaryAxisLabel
              ≠ v := corrected_label_ne v
        rw [SetSecondaryAxisLabel_commits_state _ v hv hne2]
        simp only [if_pos hmp]
      · rw [if_neg hmp] at hst
        rw [hst]
        exact congrArg Prod.fst
          (SetSecondaryAxisLabel_same { s with SecondaryAxisLabel := v } v hv rfl)
  · rw [SetSecondaryAxisLabel_rejects s v (by omega)]
    exact congrArg Prod.fst (SetSecondaryAxisLabel_rejects s v (by omega))

/-- C17: for every state (its enum fields valid or not), every mode setter and
every argument, calling the setter twice in succession with the argument gives
the same state as calling it once, the calls in which the duplicate-axis
correction runs included. -/
theorem C17_setter_idempotent_on_state (s : Node) (c : Call) :
    (c.apply (c.apply s).1).1 = (c.apply s).1 := by
  cases c with
  | SetProcessingMode v =>
    simp only [Call.apply]
    by_cases hv : 0 ≤ v ∧ v < PROCESSING_MODE_LAST
    · by_cases hcur : s.ProcessingMode = v
      · rw [SetProcessingMode_same s v hv hcur]
        exact congrArg Prod.fst (SetProcessingMode_same s v hv hcur)
      · rw [SetProcessingMode_commits s v hv hcur]
        exact Eq.trans (congrArg Prod.fst (SetProcessingMode_same { s with ProcessingMode := v } v hv rfl)) rfl
    · rw [SetProcessingMode_rejects s v (by omega)]
      exact congrArg Prod.fst (SetProcessingMode_rejects s v (by omega))
  | SetUpdateMode v =>
    simp only [Call.apply]
    by_cases hv : 0 ≤ v ∧ v < UPDATE_MODE_LAST
    · by_cases hcur : s.UpdateMode = v
      · rw [SetUpdateMode_same s v hv hcur]
        exact congrArg Prod.fst (SetUpdateMode_same s v hv hcur)
      · rw [SetUpdateMode_commits s v hv hcur]
        exact Eq.trans (congrArg Prod.fst (SetUpdateMode_same { s with UpdateMode := v } v hv rfl)) rfl
    · rw [SetUpdateMode_rejects s v (by omega)]
      exact congrArg Prod.fst (SetUpdateMode_rejects s v (by omega))
  | SetRotationMode v =>
    simp only [Call.apply]
    by_cases hv : 0 ≤ v ∧ v < ROTATION_MODE_LAST
    · by_cases hcur : s.RotationMode = v
      · rw [SetRotationMode_same s v hv hcur]
        exact congrArg Prod.fst (SetRotationMode_same s v hv hcur)
      · rw [SetRotationMode_commits s v hv hcur]
        exact Eq.trans (congrArg Prod.fst (SetRotationMode_same { s with RotationMode := v } v hv rfl)) rfl
    · rw [SetRotationMode_rejects s v (by omega)]
      exact congrArg Prod.fst (SetRotationMode_rejects s v (by omega))
  | SetDependentAxesMode v =>
    simp only [Call.apply]
    by_cases hv : 0 ≤ v ∧ v < DEPENDENT_AXES_MODE_LAST
    · by_cases hcur : s.DependentAxesMode = v
      · rw [SetDependentAxesMode_same s v hv hcur]
        exact congrArg Prod.fst (SetDependentAxesMode_same s v hv hcur)
      · exact Eq.trans (congrArg Prod.fst
          (SetDependentAxesMode_same _ v hv (SetDependentAxesMode_commits_mode s v hv hcur))) rfl
    · rw [SetDependentAxesMode_rejects s v (by omega)]
      exact congrArg Prod.fst (SetDependentAxesMode_rejects s v (by omega))
  | SetPrimaryAxisLabel v =>
    simp only [Call.apply]
    by_cases hv : 0 ≤ v ∧ v < AXIS_LABEL_LAST
    · by_cases hcur : s.PrimaryAxisLabel = v
      · rw [SetPrimaryAxisLabel_same s v hv hcur]
        exact congrArg Prod.fst (SetPrimaryAxisLabel_same s v hv hcur)
      · exact Eq.trans (congrArg Prod.fst
          (SetPrimaryAxisLabel_same _ v hv (SetPrimaryAxisLabel_commits_primary s v hv hcur))) rfl
    · rw [SetPrimaryAxisLabel_rejects s v (by omega)]
      exact congrArg Prod.fst (SetPrimaryAxisLabel_rejects s v (by omega))
  | SetSecondaryAxisLabel v =>
    simp only [Call.apply]
    exact SetSecondaryAxisLabel_twice s v
  | SetCopyTranslationX b =>
    simp only [Call.apply]
    by_cases hcur : s.CopyTranslationComponents0 = b
    · rw [SetCopyTranslationX_same s b hcur]
      exact congrArg Prod.fst (SetCopyTranslationX_same s b hcur)
    · rw [SetCopyTranslationX_commits s b hcur]
      exact Eq.trans (congrArg Prod.fst
        (SetCopyTranslationX_same { s with CopyTranslationComponents0 := b } b rfl)) rfl
  | SetCopyTranslationY b =>
    simp only [Call.apply]
    by_cases hcur : s.CopyTranslationComponents1 = b
    · rw [SetCopyTranslationY_same s b hcur]
      exact congrArg Prod.fst (SetCopyTranslationY_same s b hcur)
    · rw [SetCopyTranslationY_commits s b hcur]
      exact Eq.trans (congrArg Prod.fst
        (SetCopyTranslationY_same { s with CopyTranslationComponents1 := b } b rfl)) rfl
  | SetCopyTranslationZ b =>
    simp only [Call.apply]
    by_cases hcur : s.CopyTranslationComponents2 = b
    · rw [SetCopyTranslationZ_same s b hcur]
      exact congrArg Prod.fst (SetCopyTranslationZ_same s b hcur)
    · rw [SetCopyTranslationZ_commits s b hcur]
      exact Eq.trans (congrArg Prod.fst
        (SetCopyTranslationZ_same { s with CopyTranslationComponents2 := b } b rfl)) rfl

/-- C18: for a valid axis label `v` different from the secondary label of the
state, after `SetSecondaryAxisLabel(v)` the primary label is as before, and the
secondary label is `v`, except when the node is in the FROM_SECONDARY_AXIS mode
and `v` is the primary label: then the secondary label is not `v` but Y for a
primary Z and Z otherwise. In the FROM_PIVOT mode `v` is stored also when it is
the primary label. The other enum fields of the state may hold any value. -/
theorem C18_setSecondaryAxisLabel_postcondition (s : Node) (v : Int)
    (hv : ValidAxisLabel v) (hne : v ≠ s.SecondaryAxisLabel) :
    (SetSecondaryAxisLabel v s).1.PrimaryAxisLabel = s.PrimaryAxisLabel ∧
    (s.DependentAxesMode = DEPENDENT_AXES_MODE_FROM_SECONDARY_AXIS ∧ v = s.PrimaryAxisLabel →
      (SetSecondaryAxisLabel v s).1.SecondaryAxisLabel
        = (if s.PrimaryAxisLabel = AXIS_LABEL_Z then AXIS_LABEL_Y else AXIS_LABEL_Z) ∧
      (SetSecondaryAxisLabel v s).1.SecondaryAxisLabel ≠ v) ∧
    (¬ (s.DependentAxesMode = DEPENDENT_AXES_MODE_FROM_SECONDARY_AXIS ∧
        v = s.PrimaryAxisLabel) →
      (SetSecondaryAxisLabel v s).1.SecondaryAxisLabel = v) ∧
    (s.DependentAxesMode = DEPENDENT_AXES_MODE_FROM_PIVOT →
      (SetSecondaryAxisLabel v s).1.SecondaryAxisLabel = v) := by
  have hr := (validAxisLabel_iff v).mp hv
  have hst := SetSecondaryAxisLabel_commits_state s v hr (Ne.symm hne)
  refine ⟨?_, ?_, ?_, ?_⟩
  · rw [hst]
  · intro h
    have hmp : s.DependentAxesMode = DEPENDENT_AXES_MODE_FROM_SECONDARY_AXIS ∧
        s.PrimaryAxisLabel = v := ⟨h.1, h.2.symm⟩
    rw [hst]
    simp only [if_pos hmp]
    rw [← h.2]
    exact ⟨rfl, corrected_label_ne v⟩
  · intro h
    have hmp : ¬ (s.DependentAxesMode = DEPENDENT_AXES_MODE_FROM_SECONDARY_AXIS ∧
        s.PrimaryAxisLabel = v) := fun h2 => h ⟨h2.1, h2.2.symm⟩
    rw [hst]
    simp only [if_neg hmp]
  · intro hpiv
    have hmp : ¬ (s.DependentAxesMode = DEPENDENT_AXES_MODE_FROM_SECONDARY_AXIS ∧
        s.PrimaryAxisLabel = v) := by
      intro h2
      rw [hpiv] at h2
      exact absurd h2.1 (by decide)
    rw [hst]
    simp only [if_neg hmp]

/-- Witness of C18: in the secondary-axis mode with (Primary=Z, Secondary=X),
`SetSecondaryAxisLabel(Z)` leaves Y as the secondary label; in the pivot mode it
stores Z. -/
theorem C18_setSecondaryAxisLabel_postcondition_witness :
    (SetSecondaryAxisLabel AXIS_LABEL_Z
      { constructor with DependentAxesMode := DEPENDENT_AXES_MODE_FROM_SECONDARY_AXIS
                         SecondaryAxisLabel := AXIS_LABEL_X }).1.SecondaryAxisLabel
      = AXIS_LABEL_Y ∧
    (SetSecondaryAxisLabel AXIS_LABEL_Z constructor).1.SecondaryAxisLabel = AXIS_LABEL_Z :=
  ⟨((C18_setSecondaryAxisLabel_postcondition
      { constructor with DependentAxesMode := DEPENDENT_AXES_MODE_FROM_SECONDARY_AXIS
                         SecondaryAxisLabel := AXIS_LABEL_X }
      AXIS_LABEL_Z (Or.inr (Or.inr rfl)) (by decide)).2.1 ⟨rfl, rfl⟩).1,
   (C18_setSecondaryAxisLabel_postcondition constructor AXIS_LABEL_Z
      (Or.inr (Or.inr rfl)) (by decide)).2.2.2 rfl⟩

/-! ## Loading -/

theorem readXMLAttributes_loop_append (host : XMLHost) (atts : List (String × String))
    (att : String × String) (r : Node × List Event) :
    ReadXMLAttributes_loop host (atts ++ [att]) r =
      ((ReadXMLAttributes_loopBody host att.1 att.2 (ReadXMLAttributes_loop host atts r).1).1,
        (ReadXMLAttributes_loop host atts r).2 ++
          (ReadXMLAttributes_loopBody host att.1 att.2 (ReadXMLAttributes_loop host atts r).1).2)
    := by
  induction atts generalizing r with
  | nil => rfl
  | cons a as ih =>
    simp only [List.cons_append, ReadXMLAttributes_loop]
    exact ih _

/-- The state after loading a list is the state after the loop body for the
last attribute, run on the state the loop reaches before it. -/
theorem readXMLAttributes_last (host : XMLHost) (atts : List (String × String))
    (attName attValue : String) (s : Node) :
    ∃ before : Node,
      (ReadXMLAttributes host (atts ++ [(attName, attValue)]) s).1 =
        (ReadXMLAttributes_loopBody host attName attValue before).1 := by
  refine ⟨(ReadXMLAttributes_loop host atts
    ({ s with NodeReferences :=
        host.superclassReadXMLAttributes (atts ++ [(attName, attValue)]) s.NodeReferences },
      [])).1, ?_⟩
  simp only [ReadXMLAttributes, readXMLAttributes_loop_append]

/-- What loading does on the attributes DependentAxesMode="From Secondary
Axis", PrimaryAxisLabel="Y Axis", SecondaryAxisLabel="Y Axis", from the default
state (which has distinct axes): the node ends in the secondary-axis mode with
both labels Y. This is the failing input of C19: the loop assigns the three
fields and never runs `CheckAndCorrectForDuplicateAxes`, which every setter of
these fields runs. -/
theorem C19_loading_duplicate_axes (host : XMLHost) :
    AxisDistinct constructor ∧
    (ReadXMLAttributes host
      [("DependentAxesMode", "From Secondary Axis"), ("PrimaryAxisLabel", "Y Axis"),
        ("SecondaryAxisLabel", "Y Axis")] constructor).1.DependentAxesMode
      = DEPENDENT_AXES_MODE_FROM_SECONDARY_AXIS ∧
    (ReadXMLAttributes host
      [("DependentAxesMode", "From Secondary Axis"), ("PrimaryAxisLabel", "Y Axis"),
        ("SecondaryAxisLabel", "Y Axis")] constructor).1.PrimaryAxisLabel = AXIS_LABEL_Y ∧
    (ReadXMLAttributes host
      [("DependentAxesMode", "From Secondary Axis"), ("PrimaryAxisLabel", "Y Axis"),
        ("SecondaryAxisLabel", "Y Axis")] constructor).1.SecondaryAxisLabel = AXIS_LABEL_Y ∧
    ¬ AxisDistinct (ReadXMLAttributes host
      [("DependentAxesMode", "From Secondary Axis"), ("PrimaryAxisLabel", "Y Axis"),
        ("SecondaryAxisLabel", "Y Axis")] constructor).1 := by
  have hm : (ReadXMLAttributes host
      [("DependentAxesMode", "From Secondary Axis"), ("PrimaryAxisLabel", "Y Axis"),
        ("SecondaryAxisLabel", "Y Axis")] constructor).1.DependentAxesMode
      = DEPENDENT_AXES_MODE_FROM_SECONDARY_AXIS := rfl
  have hp : (ReadXMLAttributes host
      [("DependentAxesMode", "From Secondary Axis"), ("PrimaryAxisLabel", "Y Axis"),
        ("SecondaryAxisLabel", "Y Axis")] constructor).1.PrimaryAxisLabel = AXIS_LABEL_Y := rfl
  have hs : (ReadXMLAttributes host
      [("DependentAxesMode", "From Secondary Axis"), ("PrimaryAxisLabel", "Y Axis"),
        ("SecondaryAxisLabel", "Y Axis")] constructor).1.SecondaryAxisLabel = AXIS_LABEL_Y := rfl
  refine ⟨fun h => absurd h (by decide), hm, hp, hs, ?_⟩
  intro hd
  exact hd hm (hp.trans hs.symm)

theorem not_in_range_of_minus_one (last : Int) : ¬ ((-1 : Int) ≥ 0 ∧ (-1 : Int) < last) := by
  omega

theorem loopBody_updateMode_unrecognised (host : XMLHost) (s : Node) (value : String)
    (h : ∀ v : Int, 0 ≤ v ∧ v < UPDATE_MODE_LAST → GetUpdateModeAsString v ≠ value) :
    (ReadXMLAttributes_loopBody host "UpdateMode" value s).1.UpdateMode = UPDATE_MODE_MANUAL := by
  have hm : GetUpdateModeFromString value = -1 := by
    simp only [GetUpdateModeFromString, fromStringLoop_none _ _ value h]
  have h1 : ¬ ("UpdateMode" = "UpdatesPerSecond") := by decide
  simp only [ReadXMLAttributes_loopBody, if_neg h1, if_true, hm,
    if_neg (not_in_range_of_minus_one _)]

theorem loopBody_processingMode_unrecognised (host : XMLHost) (s : Node) (value : String)
    (h : ∀ v : Int, 0 ≤ v ∧ v < PROCESSING_MODE_LAST → GetProcessingModeAsString v ≠ value) :
    (ReadXMLAttributes_loopBody host "ProcessingMode" value s).1.ProcessingMode
      = PROCESSING_MODE_QUATERNION_AVERAGE := by
  have hm : GetProcessingModeFromString value = -1 := by
    simp only [GetProcessingModeFromString, fromStringLoop_none _ _ value h]
  have h1 : ¬ ("ProcessingMode" = "UpdatesPerSecond") := by decide
  have h2 : ¬ ("ProcessingMode" = "UpdateMode") := by decide
  simp only [ReadXMLAttributes_loopBody, if_neg h1, if_neg h2, if_true, hm,
    if_neg (not_in_range_of_minus_one _)]

theorem loopBody_rotationMode_unrecognised (host : XMLHost) (s : Node) (value : String)
    (h : ∀ v : Int, 0 ≤ v ∧ v < ROTATION_MODE_LAST → GetRotationModeAsString v ≠ value) :
    (ReadXMLAttributes_loopBody host "RotationMode" value s).1.RotationMode
      = ROTATION_MODE_COPY_ALL_AXES := by
  have hm : GetRotationModeFromString value = -1 := by
    simp only [GetRotationModeFromString, fromStringLoop_none _ _ value h]
  have h1 : ¬ ("RotationMode" = "UpdatesPerSecond") := by decide
  have h2 : ¬ ("RotationMode" = "UpdateMode") := by decide
  have h3 : ¬ ("RotationMode" = "ProcessingMode") := by decide
  simp only [ReadXMLAttributes_loopBody, if_neg h1, if_neg h2, if_neg h3, if_true, hm,
    if_neg (not_in_range_of_minus_one _)]

theorem loopBody_primaryAxisLabel_unrecognised (host : XMLHost) (s : Node) (value : String)
    (h : ∀ v : Int, 0 ≤ v ∧ v < AXIS_LABEL_LAST → GetAxisLabelAsString v ≠ value) :
    (ReadXMLAttributes_loopBody host "PrimaryAxisLabel" value s).1.PrimaryAxisLabel
      = AXIS_LABEL_Z := by
  have hm : GetAxisLabelFromString value = -1 := by
    simp only [GetAxisLabelFromString, fromStringLoop_none _ _ value h]
  have h1 : ¬ ("PrimaryAxisLabel" = "UpdatesPerSecond") := by decide
  have h2 : ¬ ("PrimaryAxisLabel" = "UpdateMode") := by decide
  have h3 : ¬ ("PrimaryAxisLabel" = "ProcessingMode") := by decide
  have h4 : ¬ ("PrimaryAxisLabel" = "RotationMode") := by decide
  simp only [ReadXMLAttributes_loopBody, if_neg h1, if_neg h2, if_neg h3, if_neg h4, if_true,
    hm, if_neg (not_in_range_of_minus_one _)]

theorem loopBody_dependentAxesMode_unrecognised (host : XMLHost) (s : Node) (value : String)
    (h : ∀ v : Int, 0 ≤ v ∧ v < DEPENDENT_AXES_MODE_LAST →
      GetDependentAxesModeAsString v ≠ value) :
    (ReadXMLAttributes_loopBody host "DependentAxesMode" value s).1.DependentAxesMode
      = DEPENDENT_AXES_MODE_FROM_PIVOT := by
  have hm : GetDependentAxesModeFromString value = -1 := by
    simp only [GetDependentAxesModeFromString, fromStringLoop_none _ _ value h]
  have h1 : ¬ ("DependentAxesMode" = "UpdatesPerSecond") := by decide
  have h2 : ¬ ("DependentAxesMode" = "UpdateMode") := by decide
  have h3 : ¬ ("DependentAxesMode" = "ProcessingMode") := by decide
  have h4 : ¬ ("DependentAxesMode" = "RotationMode") := by decide
  have h5 : ¬ ("DependentAxesMode" = "PrimaryAxisLabel") := by decide
  simp only [ReadXMLAttributes_loopBody, if_neg h1, if_neg h2, if_neg h3, if_neg h4, if_neg h5,
    if_true, hm, if_neg (not_in_range_of_minus_one _)]

theorem loopBody_secondaryAxisLabel_unrecognised (host : XMLHost) (s : Node) (value : String)
    (h : ∀ v : Int, 0 ≤ v ∧ v < AXIS_LABEL_LAST → GetAxisLabelAsString v ≠ value) :
    (ReadXMLAttributes_loopBody host "SecondaryAxisLabel" value s).1.SecondaryAxisLabel
      = AXIS_LABEL_Y := by
  have hm : GetAxisLabelFromString value = -1 := by
    simp only [GetAxisLabelFromString, fromStringLoop_none _ _ value h]
  have h1 : ¬ ("SecondaryAxisLabel" = "UpdatesPerSecond") := by decide
  have h2 : ¬ ("SecondaryAxisLabel" = "UpdateMode") := by decide
  have h3 : ¬ ("SecondaryAxisLabel" = "ProcessingMode") := by decide
  have h4 : ¬ ("SecondaryAxisLabel" = "RotationMode") := by decide
  have h5 : ¬ ("SecondaryAxisLabel" = "PrimaryAxisLabel") := by decide
  have h6 : ¬ ("SecondaryAxisLabel" = "DependentAxesMode") := by decide
  simp only [ReadXMLAttributes_loopBody, if_neg h1, if_neg h2, if_neg h3, if_neg h4, if_neg h5,
    if_neg h6, if_true, hm, if_neg (not_in_range_of_minus_one _)]

/-- C20: when the last attribute of the list names one of the six enum fields
and its value is not the display string of a valid value of the type of the
field, `ReadXMLAttributes` returns with the field at Manual (UpdateMode),
QuaternionAverage (ProcessingMode), CopyAllAxes (RotationMode), Z
(PrimaryAxisLabel), FromPivot (DependentAxesMode), Y (SecondaryAxisLabel),
whatever the state held before and whatever attributes came first. -/
theorem C20_unrecognised_enum_string_resets_field (host : XMLHost) (s : Node)
    (atts : List (String × String)) (value : String) :
    ((∀ v : Int, 0 ≤ v ∧ v < UPDATE_MODE_LAST → GetUpdateModeAsString v ≠ value) →
      (ReadXMLAttributes host (atts ++ [("UpdateMode", value)]) s).1.UpdateMode
        = UPDATE_MODE_MANUAL) ∧
    ((∀ v : Int, 0 ≤ v ∧ v < PROCESSING_MODE_LAST → GetProcessingModeAsString v ≠ value) →
      (ReadXMLAttributes host (atts ++ [("ProcessingMode", value)]) s).1.ProcessingMode
        = PROCESSING_MODE_QUATERNION_AVERAGE) ∧
    ((∀ v : Int, 0 ≤ v ∧ v < ROTATION_MODE_LAST → GetRotationModeAsString v ≠ value) →
      (ReadXMLAttributes host (atts ++ [("RotationMode", value)]) s).1.RotationMode
        = ROTATION_MODE_COPY_ALL_AXES) ∧
    ((∀ v : Int, 0 ≤ v ∧ v < AXIS_LABEL_LAST → GetAxisLabelAsString v ≠ value) →
      (ReadXMLAttributes host (atts ++ [("PrimaryAxisLabel", value)]) s).1.PrimaryAxisLabel
        = AXIS_LABEL_Z) ∧
    ((∀ v : Int, 0 ≤ v ∧ v < DEPENDENT_AXES_MODE_LAST →
        GetDependentAxesModeAsString v ≠ value) →
      (ReadXMLAttributes host (atts ++ [("DependentAxesMode", value)]) s).1.DependentAxesMode
        = DEPENDENT_AXES_MODE_FROM_PIVOT) ∧
    ((∀ v : Int, 0 ≤ v ∧ v < AXIS_LABEL_LAST → GetAxisLabelAsString v ≠ value) →
      (ReadXMLAttributes host (atts ++ [("SecondaryAxisLabel", value)]) s).1.SecondaryAxisLabel
        = AXIS_LABEL_Y) := by
  refine ⟨?_, ?_, ?_, ?_, ?_, ?_⟩ <;> intro h
  · obtain ⟨before, hb⟩ := readXMLAttributes_last host atts "UpdateMode" value s
    rw [hb]
    exact loopBody_updateMode_unrecognised host before value h
  · obtain ⟨before, hb⟩ := readXMLAttributes_last host atts "ProcessingMode" value s
    rw [hb]
    exact loopBody_processingMode_unrecognised host before value h
  · obtain ⟨before, hb⟩ := readXMLAttributes_last host atts "RotationMode" value s
    rw [hb]
    exact loopBody_rotationMode_unrecognised host before value h
  · obtain ⟨before, hb⟩ := readXMLAttributes_last host atts "PrimaryAxisLabel" value s
    rw [hb]
    exact loopBody_primaryAxisLabel_unrecognised host before value h
  · obtain ⟨before, hb⟩ := readXMLAttributes_last host atts "DependentAxesMode" value s
    rw [hb]
    exact loopBody_dependentAxesMode_unrecognised host before value h
  · obtain ⟨before, hb⟩ := readXMLAttributes_last host atts "SecondaryAxisLabel" value s
    rw [hb]
    exact loopBody_secondaryAxisLabel_unrecognised host before value h

/-- No valid axis label has the display string "W Axis". -/
theorem unknown_axis_string (v : Int) (hv : 0 ≤ v ∧ v < AXIS_LABEL_LAST) :
    GetAxisLabelAsString v ≠ "W Axis" := by
  have hc : v = 0 ∨ v = 1 ∨ v = 2 := by
    unfold AXIS_LABEL_LAST at hv; omega
  rcases hc with e | e | e <;> subst e <;> decide

/-- Witness of C20: a node whose primary label is X, loaded from the single
attribute PrimaryAxisLabel="W Axis", has the primary label Z. -/
theorem C20_unrecognised_enum_string_resets_field_witness :
    (∀ v : Int, 0 ≤ v ∧ v < AXIS_LABEL_LAST → GetAxisLabelAsString v ≠ "W Axis") ∧
    (ReadXMLAttributes ⟨fun _ t => t, fun _ u => u⟩ ([] ++ [("PrimaryAxisLabel", "W Axis")])
      { constructor with PrimaryAxisLabel := AXIS_LABEL_X }).1.PrimaryAxisLabel
      = AXIS_LABEL_Z :=
  ⟨unknown_axis_string,
   (C20_unrecognised_enum_string_resets_field ⟨fun _ t => t, fun _ u => u⟩
      { constructor with PrimaryAxisLabel := AXIS_LABEL_X } [] "W Axis").2.2.2.1
      unknown_axis_string⟩

/-! ## Loading an unrecognised value against the value held before -/

theorem unknown_update_mode_string (v : Int) (hv : 0 ≤ v ∧ v < UPDATE_MODE_LAST) :
    GetUpdateModeAsString v ≠ "garbage" := by
  have hc : v = 0 ∨ v = 1 := by
    unfold UPDATE_MODE_LAST at hv; omega
  rcases hc with e | e <;> subst e <;> decide

/-- Counterexample to C21: a node whose update mode is Auto, loaded from the
single attribute UpdateMode="garbage" (no display string of an update mode),
has the update mode Manual afterwards, not the Auto it held before. -/
theorem C21_invalid_input_keeps_prior_counterexample :
    (∀ v : Int, 0 ≤ v ∧ v < UPDATE_MODE_LAST → GetUpdateModeAsString v ≠ "garbage") ∧
    ∀ host : XMLHost,
      (ReadXMLAttributes host [("UpdateMode", "garbage")]
        { constructor with UpdateMode := UPDATE_MODE_AUTO }).1.UpdateMode = UPDATE_MODE_MANUAL ∧
      (ReadXMLAttributes host [("UpdateMode", "garbage")]
        { constructor with UpdateMode := UPDATE_MODE_AUTO }).1.UpdateMode ≠
          ({ constructor with UpdateMode := UPDATE_MODE_AUTO } : Node).UpdateMode := by
  refine ⟨unknown_update_mode_string, fun host => ?_⟩
  have h : (ReadXMLAttributes host [("UpdateMode", "garbage")]
      { constructor with UpdateMode := UPDATE_MODE_AUTO }).1.UpdateMode = UPDATE_MODE_MANUAL :=
    rfl
  refine ⟨h, ?_⟩
  rw [h]
  decide

/-- C21, amended: when the last attribute of the list names one of the six enum
fields and its value is not the display string of a valid value of the type of
the field, after `ReadXMLAttributes` the field holds its default (Manual,
QuaternionAverage, CopyAllAxes, Z, FromPivot, Y), so it holds the value it held
before the call exactly when that value was the default. -/
theorem C21_invalid_input_resets_to_default (host : XMLHost) (s : Node)
    (atts : List (String × String)) (value : String) :
    ((∀ v : Int, 0 ≤ v ∧ v < UPDATE_MODE_LAST → GetUpdateModeAsString v ≠ value) →
      (ReadXMLAttributes host (atts ++ [("UpdateMode", value)]) s).1.UpdateMode = UPDATE_MODE_MANUAL ∧
      ((ReadXMLAttributes host (atts ++ [("UpdateMode", value)]) s).1.UpdateMode = s.UpdateMode ↔
        s.UpdateMode = UPDATE_MODE_MANUAL)) ∧
    ((∀ v : Int, 0 ≤ v ∧ v < PROCESSING_MODE_LAST → GetProcessingModeAsString v ≠ value) →
      (ReadXMLAttributes host (atts ++ [("ProcessingMode", value)]) s).1.ProcessingMode = PROCESSING_MODE_QUATERNION_AVERAGE ∧
      ((ReadXMLAttributes host (atts ++ [("ProcessingMode", value)]) s).1.ProcessingMode = s.ProcessingMode ↔
        s.ProcessingMode = PROCESSING_MODE_QUATERNION_AVERAGE)) ∧
    ((∀ v : Int, 0 ≤ v ∧ v < ROTATION_MODE_LAST → GetRotationModeAsString v ≠ value) →
      (ReadXMLAttributes host (atts ++ [("RotationMode", value)]) s).1.RotationMode = ROTATION_MODE_COPY_ALL_AXES ∧
      ((ReadXMLAttributes host (atts ++ [("RotationMode", value)]) s).1.RotationMode = s.RotationMode ↔
        s.RotationMode = ROTATION_MODE_COPY_ALL_AXES)) ∧
    ((∀ v : Int, 0 ≤ v ∧ v < AXIS_LABEL_LAST → GetAxisLabelAsString v ≠ value) →
      (ReadXMLAttributes host (atts ++ [("PrimaryAxisLabel", value)]) s).1.PrimaryAxisLabel = AXIS_LABEL_Z ∧
      ((ReadXMLAttributes host (atts ++ [("PrimaryAxisLabel", value)]) s).1.PrimaryAxisLabel = s.PrimaryAxisLabel ↔
        s.PrimaryAxisLabel = AXIS_LABEL_Z)) ∧
    ((∀ v : Int, 0 ≤ v ∧ v < DEPENDENT_AXES_MODE_LAST → GetDependentAxesModeAsString v ≠ value) →
      (ReadXMLAttributes host (atts ++ [("DependentAxesMode", value)]) s).1.DependentAxesMode = DEPENDENT_AXES_MODE_FROM_PIVOT ∧
      ((ReadXMLAttributes host (atts ++ [("DependentAxesMode", value)]) s).1.DependentAxesMode = s.DependentAxesMode ↔
        s.DependentAxesMode = DEPENDENT_AXES_MODE_FROM_PIVOT)) ∧
    ((∀ v : Int, 0 ≤ v ∧ v < AXIS_LABEL_LAST → GetAxisLabelAsString v ≠ value) →
      (ReadXMLAttributes host (atts ++ [("SecondaryAxisLabel", value)]) s).1.SecondaryAxisLabel = AXIS_LABEL_Y ∧
      ((ReadXMLAttributes host (atts ++ [("SecondaryAxisLabel", value)]) s).1.SecondaryAxisLabel = s.SecondaryAxisLabel ↔
        s.SecondaryAxisLabel = AXIS_LABEL_Y)) := by
  refine ⟨?_, ?_, ?_, ?_, ?_, ?_⟩ <;> intro h
  · obtain ⟨before, hb⟩ := readXMLAttributes_last host atts "UpdateMode" value s
    rw [hb, loopBody_updateMode_unrecognised host before value h]
    exact ⟨rfl, eq_comm⟩
  · obtain ⟨before, hb⟩ := readXMLAttributes_last host atts "ProcessingMode" value s
    rw [hb, loopBody_processingMode_unrecognised host before value h]
    exact ⟨rfl, eq_comm⟩
  · obtain ⟨before, hb⟩ := readXMLAttributes_last host atts "RotationMode" value s
    rw [hb, loopBody_rotationMode_unrecognised host before value h]
    exact ⟨rfl, eq_comm⟩
  · obtain ⟨before, hb⟩ := readXMLAttributes_last host atts "PrimaryAxisLabel" value s
    rw [hb, loopBody_primaryAxisLabel_unrecognised host before value h]
    exact ⟨rfl, eq_comm⟩
  · obtain ⟨before, hb⟩ := readXMLAttributes_last host atts "DependentAxesMode" value s
    rw [hb, loopBody_dependentAxesMode_unrecognised host before value h]
    exact ⟨rfl, eq_comm⟩
  · obtain ⟨before, hb⟩ := readXMLAttributes_last host atts "SecondaryAxisLabel" value s
    rw [hb, loopBody_secondaryAxisLabel_unrecognised host before value h]
    exact ⟨rfl, eq_comm⟩

/-- Witness of the amended C21: a node whose update mode is Auto, loaded from
the single attribute UpdateMode="garbage", holds Manual afterwards and not the
Auto it held before. -/
theorem C21_invalid_input_resets_to_default_witness :
    (∀ v : Int, 0 ≤ v ∧ v < UPDATE_MODE_LAST → GetUpdateModeAsString v ≠ "garbage") ∧
    (ReadXMLAttributes ⟨fun _ t => t, fun _ u => u⟩ ([] ++ [("UpdateMode", "garbage")])
      { constructor with UpdateMode := UPDATE_MODE_AUTO }).1.UpdateMode = UPDATE_MODE_MANUAL ∧
    ¬ ((ReadXMLAttributes ⟨fun _ t => t, fun _ u => u⟩ ([] ++ [("UpdateMode", "garbage")])
      { constructor with UpdateMode := UPDATE_MODE_AUTO }).1.UpdateMode =
        ({ constructor with UpdateMode := UPDATE_MODE_AUTO } : Node).UpdateMode) :=
  ⟨unknown_update_mode_string,
   ((C21_invalid_input_resets_to_default ⟨fun _ t => t, fun _ u => u⟩
      { constructor with UpdateMode := UPDATE_MODE_AUTO } [] "garbage").1
      unknown_update_mode_string).1,
   fun hkeep =>
    absurd (((C21_invalid_input_resets_to_default ⟨fun _ t => t, fun _ u => u⟩
      { constructor with UpdateMode := UPDATE_MODE_AUTO } [] "garbage").1
      unknown_update_mode_string).2.mp hkeep) (by decide)⟩

/-! ## Copying -/

/-- C23: after `t.Copy(n)` the fields UpdatesPerSecond, UpdateMode,
ProcessingMode, RotationMode, PrimaryAxisLabel, DependentAxesMode,
SecondaryAxisLabel and CopyTranslationComponents[0..2] of `t` are those of `n`,
the node `n` is as it was, and `t` has distinct axes in the secondary-axis mode
whenever `n` has. -/
theorem C23_copy_transfers_mode_configuration
    (superclassCopy : RoleTable → RoleTable → RoleTable) (t n : Node) :
    (Copy superclassCopy t n).1.UpdatesPerSecond = n.UpdatesPerSecond ∧
    (Copy superclassCopy t n).1.UpdateMode = n.UpdateMode ∧
    (Copy superclassCopy t n).1.ProcessingMode = n.ProcessingMode ∧
    (Copy superclassCopy t n).1.RotationMode = n.RotationMode ∧
    (Copy superclassCopy t n).1.PrimaryAxisLabel = n.PrimaryAxisLabel ∧
    (Copy superclassCopy t n).1.DependentAxesMode = n.DependentAxesMode ∧
    (Copy superclassCopy t n).1.SecondaryAxisLabel = n.SecondaryAxisLabel ∧
    (Copy superclassCopy t n).1.CopyTranslationComponents0 = n.CopyTranslationComponents0 ∧
    (Copy superclassCopy t n).1.CopyTranslationComponents1 = n.CopyTranslationComponents1 ∧
    (Copy superclassCopy t n).1.CopyTranslationComponents2 = n.CopyTranslationComponents2 ∧
    (Copy superclassCopy t n).2 = n ∧
    (AxisDistinct n → AxisDistinct (Copy superclassCopy t n).1) :=
  ⟨rfl, rfl, rfl, rfl, rfl, rfl, rfl, rfl, rfl, rfl, rfl, fun h => h⟩

/-- Witness of C23: copying a node in the secondary-axis mode with the labels
(Z, Y) into the default node gives a node with distinct axes in that mode. -/
theorem C23_copy_transfers_mode_configuration_witness :
    AxisDistinct ({ constructor with
      DependentAxesMode := DEPENDENT_AXES_MODE_FROM_SECONDARY_AXIS } : Node) ∧
    AxisDistinct (Copy (fun _ src => src) constructor
      { constructor with DependentAxesMode := DEPENDENT_AXES_MODE_FROM_SECONDARY_AXIS }).1 :=
  ⟨fun _ => by decide,
   (C23_copy_transfers_mode_configuration (fun _ src => src) constructor
      { constructor with DependentAxesMode := DEPENDENT_AXES_MODE_FROM_SECONDARY_AXIS }
      ).2.2.2.2.2.2.2.2.2.2.2 (fun _ => by decide)⟩

/-! ## Forwarding the events of referenced nodes -/

theorem processMRMLEvents_null (scene : Scene) (tme event : Nat) (s : Node) :
    ProcessMRMLEvents scene tme none event s = (s, []) := by
  simp only [ProcessMRMLEvents, if_true]

/-- The six comparisons of `ProcessMRMLEvents` hold for a caller exactly when
the role table has the caller as the first entry of one of the six
single-valued input roles and the directory resolves it to a linear transform
node. -/
theorem caller_comparisons_iff (scene : Scene) (s : Node) (c : Handle) :
    (some c = GetInputAnchorTransformNode scene s ∨
      some c = GetInputChangedTransformNode scene s ∨
      some c = GetInputInitialTransformNode scene s ∨
      some c = GetInputFromTransformNode scene s ∨
      some c = GetInputToTransformNode scene s ∨
      some c = GetInputForwardTransformNode scene s) ↔ IsCurrentSingleInput scene s c := by
  have hrole : ∀ role : String, some c = GetTransformNodeInRole scene s role ↔
      (s.NodeReferences role).head? = some c ∧ scene.resolvesToLinearTransform c = true :=
    fun role => Iff.trans eq_comm (getTransformNodeInRole_some_iff scene s role c)
  simp only [GetInputAnchorTransformNode, GetInputChangedTransformNode,
    GetInputInitialTransformNode, GetInputFromTransformNode, GetInputToTransformNode,
    GetInputForwardTransformNode, hrole, IsCurrentSingleInput]
  constructor
  · rintro (h | h | h | h | h | h)
    · exact ⟨h.2, ROLE_INPUT_ANCHOR_TRANSFORM, by decide, h.1⟩
    · exact ⟨h.2, ROLE_INPUT_CHANGED_TRANSFORM, by decide, h.1⟩
    · exact ⟨h.2, ROLE_INPUT_INITIAL_TRANSFORM, by decide, h.1⟩
    · exact ⟨h.2, ROLE_INPUT_FROM_TRANSFORM, by decide, h.1⟩
    · exact ⟨h.2, ROLE_INPUT_TO_TRANSFORM, by decide, h.1⟩
    · exact ⟨h.2, ROLE_INPUT_FORWARD_TRANSFORM, by decide, h.1⟩
  · rintro ⟨hread, role, hmem, hhead⟩
    simp only [singleInputRoles, List.mem_cons, List.mem_singleton, List.not_mem_nil,
      or_false] at hmem
    rcases hmem with e | e | e | e | e | e <;> subst e
    · exact Or.inl ⟨hhead, hread⟩
    · exact Or.inr (Or.inl ⟨hhead, hread⟩)
    · exact Or.inr (Or.inr (Or.inl ⟨hhead, hread⟩))
    · exact Or.inr (Or.inr (Or.inr (Or.inl ⟨hhead, hread⟩)))
    · exact Or.inr (Or.inr (Or.inr (Or.inr (Or.inl ⟨hhead, hread⟩))))
    · exact Or.inr (Or.inr (Or.inr (Or.inr (Or.inr ⟨hhead, hread⟩))))

theorem processMRMLEvents_node (scene : Scene) (tme event : Nat) (s : Node) (c : Handle) :
    ProcessMRMLEvents scene tme (some c) event s =
      (s, if IsCurrentSingleInput scene s c ∧ event = tme then [Event.InputDataModified]
          else []) := by
  have hsome : ¬ ((some c : Option Handle) = none) := by simp
  simp only [ProcessMRMLEvents, if_neg hsome]
  by_cases hcur : IsCurrentSingleInput scene s c
  · have hA := (caller_comparisons_iff scene s c).mpr hcur
    by_cases he : event = tme
    · rw [if_pos hA, if_pos he, if_pos ⟨hcur, he⟩]
    · rw [if_pos hA, if_neg he, if_neg (fun h => he h.2)]
  · have hA := mt (caller_comparisons_iff scene s c).mp hcur
    rw [if_neg hA, if_neg (fun h => hcur h.1)]

/-- C24: `ProcessMRMLEvents` raises `InputDataModifiedEvent` (once) if and only
if the caller is a non-null node that is the current handle of one of the six
single-valued input roles (Anchor, Changed, Initial, From, To, Forward) and the
event is `TransformModifiedEvent`, the current handle of a role being the first
entry the role table stores for it, resolved by the directory to a linear
transform node; otherwise it raises none; the node is never changed; and so a
`TransformModifiedEvent` from a node that is not the first entry of one of the
six roles, a node that is only in the CombineTransform list or only the
OutputTransform included, raises no `InputDataModifiedEvent`. -/
theorem C24_forwarded_events (scene : Scene) (tme event : Nat) (caller : Option Handle)
    (s : Node) :
    (notifications (ProcessMRMLEvents scene tme caller event s).2 = 1 ↔
      (∃ c : Handle, caller = some c ∧ IsCurrentSingleInput scene s c) ∧ event = tme) ∧
    (notifications (ProcessMRMLEvents scene tme caller event s).2 = 0 ∨
      notifications (ProcessMRMLEvents scene tme caller event s).2 = 1) ∧
    (ProcessMRMLEvents scene tme caller event s).1 = s ∧
    (∀ c : Handle,
      (∀ role ∈ singleInputRoles, (s.NodeReferences role).head? ≠ some c) →
      notifications (ProcessMRMLEvents scene tme (some c) tme s).2 = 0) := by
  refine ⟨?_, ?_, ?_, ?_⟩
  · cases caller with
    | none =>
      rw [processMRMLEvents_null]
      constructor
      · intro h
        exact absurd h (Nat.zero_ne_one)
      · rintro ⟨⟨c, hc, _⟩, _⟩
        cases hc
    | some c =>
      rw [processMRMLEvents_node]
      by_cases h : IsCurrentSingleInput scene s c ∧ event = tme
      · simp only [if_pos h]
        exact ⟨fun _ => ⟨⟨c, rfl, h.1⟩, h.2⟩, fun _ => rfl⟩
      · simp only [if_neg h]
        constructor
        · intro h0
          exact absurd h0 (Nat.zero_ne_one)
        · rintro ⟨⟨d, hd, hcur⟩, he⟩
          cases hd
          exact absurd ⟨hcur, he⟩ h
  · cases caller with
    | none =>
      rw [processMRMLEvents_null]
      exact Or.inl rfl
    | some c =>
      rw [processMRMLEvents_node]
      split_ifs
      · exact Or.inr rfl
      · exact Or.inl rfl
  · cases caller with
    | none => rw [processMRMLEvents_null]
    | some c => rw [processMRMLEvents_node]
  · intro c hc
    rw [processMRMLEvents_node]
    have h : ¬ (IsCurrentSingleInput scene s c ∧ tme = tme) := by
      rintro ⟨⟨_, role, hmem, hhead⟩, _⟩
      exact hc role hmem hhead
    rw [if_neg h]
    rfl

/-- Witness of C24: with the handle 3 in the From role, the handle 4 in the
CombineTransform list only and the handle 5 in the Output role only, under a
directory that resolves every handle to a linear transform node, the event of
the node 3 is forwarded and the events of the nodes 4 and 5 are not. -/
theorem C24_forwarded_events_witness :
    (4 : Handle) ∈ ({ constructor with
        NodeReferences := fun r =>
          if r = ROLE_INPUT_FROM_TRANSFORM then [3]
          else if r = ROLE_INPUT_COMBINE_TRANSFORM then [4]
          else if r = ROLE_OUTPUT_TRANSFORM then [5] else [] } : Node).NodeReferences
        ROLE_INPUT_COMBINE_TRANSFORM ∧
    GetOutputTransformNode ⟨fun _ => true, fun _ => true⟩
      { constructor with
        NodeReferences := fun r =>
          if r = ROLE_INPUT_FROM_TRANSFORM then [3]
          else if r = ROLE_INPUT_COMBINE_TRANSFORM then [4]
          else if r = ROLE_OUTPUT_TRANSFORM then [5] else [] } = some 5 ∧
    notifications (ProcessMRMLEvents ⟨fun _ => true, fun _ => true⟩ 15000 (some 3) 15000
      { constructor with
        NodeReferences := fun r =>
          if r = ROLE_INPUT_FROM_TRANSFORM then [3]
          else if r = ROLE_INPUT_COMBINE_TRANSFORM then [4]
          else if r = ROLE_OUTPUT_TRANSFORM then [5] else [] }).2 = 1 ∧
    notifications (ProcessMRMLEvents ⟨fun _ => true, fun _ => true⟩ 15000 (some 4) 15000
      { constructor with
        NodeReferences := fun r =>
          if r = ROLE_INPUT_FROM_TRANSFORM then [3]
          else if r = ROLE_INPUT_COMBINE_TRANSFORM then [4]
          else if r = ROLE_OUTPUT_TRANSFORM then [5] else [] }).2 = 0 ∧
    notifications (ProcessMRMLEvents ⟨fun _ => true, fun _ => true⟩ 15000 (some 5) 15000
      { constructor with
        NodeReferences := fun r =>
          if r = ROLE_INPUT_FROM_TRANSFORM then [3]
          else if r = ROLE_INPUT_COMBINE_TRANSFORM then [4]
          else if r = ROLE_OUTPUT_TRANSFORM then [5] else [] }).2 = 0 :=
  ⟨by decide, by decide,
   (C24_forwarded_events ⟨fun _ => true, fun _ => true⟩ 15000 15000 (some 3)
      { constructor with
        NodeReferences := fun r =>
          if r = ROLE_INPUT_FROM_TRANSFORM then [3]
          else if r = ROLE_INPUT_COMBINE_TRANSFORM then [4]
          else if r = ROLE_OUTPUT_TRANSFORM then [5] else [] }).1.mpr
      ⟨⟨3, rfl, by decide⟩, rfl⟩,
   (C24_forwarded_events ⟨fun _ => true, fun _ => true⟩ 15000 15000 none
      { constructor with
        NodeReferences := fun r =>
          if r = ROLE_INPUT_FROM_TRANSFORM then [3]
          else if r = ROLE_INPUT_COMBINE_TRANSFORM then [4]
          else if r = ROLE_OUTPUT_TRANSFORM then [5] else [] }).2.2.2 4
      (by decide),
   (C24_forwarded_events ⟨fun _ => true, fun _ => true⟩ 15000 15000 none
      { constructor with
        NodeReferences := fun r =>
          if r = ROLE_INPUT_FROM_TRANSFORM then [3]
          else if r = ROLE_INPUT_COMBINE_TRANSFORM then [4]
          else if r = ROLE_OUTPUT_TRANSFORM then [5] else [] }).2.2.2 5
      (by decide)⟩

/-! ## Frame of the mode setters -/

theorem SetProcessingMode_frame (s : Node) (v : Int) :
    (SetProcessingMode v s).1 =
      { s with ProcessingMode := (SetProcessingMode v s).1.ProcessingMode } := by
  simp only [SetProcessingMode]
  split_ifs <;> rfl

theorem SetUpdateMode_frame (s : Node) (v : Int) :
    (SetUpdateMode v s).1 = { s with UpdateMode := (SetUpdateMode v s).1.UpdateMode } := by
  simp only [SetUpdateMode]
  split_ifs <;> rfl

theorem SetRotationMode_frame (s : Node) (v : Int) :
    (SetRotationMode v s).1 =
      { s with RotationMode := (SetRotationMode v s).1.RotationMode } := by
  simp only [SetRotationMode]
  split_ifs <;> rfl

theorem SetCopyTranslationX_frame (s : Node) (b : Bool) :
    (SetCopyTranslationX b s).1 =
      { s with CopyTranslationComponents0 :=
          (SetCopyTranslationX b s).1.CopyTranslationComponents0 } := by
  simp only [SetCopyTranslationX]
  split_ifs <;> rfl

theorem SetCopyTranslationY_frame (s : Node) (b : Bool) :
    (SetCopyTranslationY b s).1 =
      { s with CopyTranslationComponents1 :=
          (SetCopyTranslationY b s).1.CopyTranslationComponents1 } := by
  simp only [SetCopyTranslationY]
  split_ifs <;> rfl

theorem SetCopyTranslationZ_frame (s : Node) (b : Bool) :
    (SetCopyTranslationZ b s).1 =
      { s with CopyTranslationComponents2 :=
          (SetCopyTranslationZ b s).1.CopyTranslationComponents2 } := by
  simp only [SetCopyTranslationZ]
  split_ifs <;> rfl

theorem SetDependentAxesMode_frame (s : Node) (v : Int) :
    (SetDependentAxesMode v s).1 =
      { s with DependentAxesMode := (SetDependentAxesMode v s).1.DependentAxesMode
               SecondaryAxisLabel := (SetDependentAxesMode v s).1.SecondaryAxisLabel } := by
  simp only [SetDependentAxesMode, CheckAndCorrectForDuplicateAxes]
  split_ifs <;> rfl

theorem SetPrimaryAxisLabel_frame (s : Node) (v : Int) :
    (SetPrimaryAxisLabel v s).1 =
      { s with PrimaryAxisLabel := (SetPrimaryAxisLabel v s).1.PrimaryAxisLabel
               SecondaryAxisLabel := (SetPrimaryAxisLabel v s).1.SecondaryAxisLabel } := by
  simp only [SetPrimaryAxisLabel, CheckAndCorrectForDuplicateAxes]
  split_ifs <;> rfl

theorem SetSecondaryAxisLabel_frame (s : Node) (v : Int) :
    (SetSecondaryAxisLabel v s).1 =
      { s with SecondaryAxisLabel := (SetSecondaryAxisLabel v s).1.SecondaryAxisLabel } := by
  simp only [SetSecondaryAxisLabel, CheckAndCorrectForDuplicateAxes]
  split_ifs <;> rfl

/-- C26: for every state and argument, `SetProcessingMode`, `SetUpdateMode`,
`SetRotationMode` and `SetCopyTranslationX/Y/Z` change at most their own field;
`SetDependentAxesMode` changes at most DependentAxesMode and
SecondaryAxisLabel; `SetPrimaryAxisLabel` changes at most PrimaryAxisLabel and
SecondaryAxisLabel; `SetSecondaryAxisLabel` changes at most SecondaryAxisLabel;
and no mode setter changes the role table. -/
theorem C26_frame_of_mode_setters (s : Node) (v : Int) (b : Bool) (c : Call) :
    (SetProcessingMode v s).1 =
      { s with ProcessingMode := (SetProcessingMode v s).1.ProcessingMode } ∧
    (SetUpdateMode v s).1 = { s with UpdateMode := (SetUpdateMode v s).1.UpdateMode } ∧
    (SetRotationMode v s).1 =
      { s with RotationMode := (SetRotationMode v s).1.RotationMode } ∧
    (SetCopyTranslationX b s).1 =
      { s with CopyTranslationComponents0 :=
          (SetCopyTranslationX b s).1.CopyTranslationComponents0 } ∧
    (SetCopyTranslationY b s).1 =
      { s with CopyTranslationComponents1 :=
          (SetCopyTranslationY b s).1.CopyTranslationComponents1 } ∧
    (SetCopyTranslationZ b s).1 =
      { s with CopyTranslationComponents2 :=
          (SetCopyTranslationZ b s).1.CopyTranslationComponents2 } ∧
    (SetDependentAxesMode v s).1 =
      { s with DependentAxesMode := (SetDependentAxesMode v s).1.DependentAxesMode
               SecondaryAxisLabel := (SetDependentAxesMode v s).1.SecondaryAxisLabel } ∧
    (SetPrimaryAxisLabel v s).1 =
      { s with PrimaryAxisLabel := (SetPrimaryAxisLabel v s).1.PrimaryAxisLabel
               SecondaryAxisLabel := (SetPrimaryAxisLabel v s).1.SecondaryAxisLabel } ∧
    (SetSecondaryAxisLabel v s).1 =
      { s with SecondaryAxisLabel := (SetSecondaryAxisLabel v s).1.SecondaryAxisLabel } ∧
    (c.apply s).1.NodeReferences = s.NodeReferences := by
  refine ⟨SetProcessingMode_frame s v, SetUpdateMode_frame s v, SetRotationMode_frame s v,
    SetCopyTranslationX_frame s b, SetCopyTranslationY_frame s b, SetCopyTranslationZ_frame s b,
    SetDependentAxesMode_frame s v, SetPrimaryAxisLabel_frame s v,
    SetSecondaryAxisLabel_frame s v, ?_⟩
  cases c with
  | SetProcessingMode w => exact Eq.trans (congrArg Node.NodeReferences (SetProcessingMode_frame s w)) rfl
  | SetUpdateMode w => exact Eq.trans (congrArg Node.NodeReferences (SetUpdateMode_frame s w)) rfl
  | SetRotationMode w => exact Eq.trans (congrArg Node.NodeReferences (SetRotationMode_frame s w)) rfl
  | SetDependentAxesMode w => exact Eq.trans (congrArg Node.NodeReferences (SetDependentAxesMode_frame s w)) rfl
  | SetPrimaryAxisLabel w => exact Eq.trans (congrArg Node.NodeReferences (SetPrimaryAxisLabel_frame s w)) rfl
  | SetSecondaryAxisLabel w =>
    exact Eq.trans (congrArg Node.NodeReferences (SetSecondaryAxisLabel_frame s w)) rfl
  | SetCopyTranslationX w => exact Eq.trans (congrArg Node.NodeReferences (SetCopyTranslationX_frame s w)) rfl
  | SetCopyTranslationY w => exact Eq.trans (congrArg Node.NodeReferences (SetCopyTranslationY_frame s w)) rfl
  | SetCopyTranslationZ w => exact Eq.trans (congrArg Node.NodeReferences (SetCopyTranslationZ_frame s w)) rfl

/-! ## The conversion from a string as the inverse of the conversion to a string -/

/-- What the search loop of every `FromString` returns: an index below the
bound whose display string is the name, or -1 when no index below the bound
has the name as its display string. -/
theorem fromStringLoop_result (asString : Int → String) (last : Int) (name : String) :
    ((match (List.range last.toNat).find? (fun (i : Nat) => name == asString (i : Int)) with
      | some i => (i : Int)
      | none => -1) = -1 ∧
      ∀ v : Int, 0 ≤ v ∧ v < last → asString v ≠ name) ∨
    (0 ≤ (match (List.range last.toNat).find? (fun (i : Nat) => name == asString (i : Int)) with
      | some i => (i : Int)
      | none => -1) ∧
     (match (List.range last.toNat).find? (fun (i : Nat) => name == asString (i : Int)) with
      | some i => (i : Int)
      | none => -1) < last ∧
     asString (match (List.range last.toNat).find?
        (fun (i : Nat) => name == asString (i : Int)) with
      | some i => (i : Int)
      | none => -1) = name) := by
  cases hfind : (List.range last.toNat).find? (fun (i : Nat) => name == asString (i : Int)) with
  | none =>
    left
    refine ⟨rfl, ?_⟩
    intro v hv hname
    rw [List.find?_eq_none] at hfind
    have hmem : v.toNat ∈ List.range last.toNat := List.mem_range.mpr (by omega)
    have hno := hfind v.toNat hmem
    apply hno
    have hcast : ((v.toNat : Nat) : Int) = v := by omega
    simp only [hcast, hname, beq_self_eq_true]
  | some i =>
    right
    have hmem := List.mem_of_find?_eq_some hfind
    have hp := List.find?_some hfind
    rw [List.mem_range] at hmem
    simp only [beq_iff_eq] at hp
    have h0 : (0 : Int) ≤ (i : Int) := by omega
    have h1 : (i : Int) < last := by omega
    exact ⟨h0, h1, hp.symm⟩

theorem minus_one_not_nonneg (r : Int) (h0 : 0 ≤ r) : r ≠ -1 := by
  omega

theorem processingMode_unknown (w : Int) (h : ¬ (0 ≤ w ∧ w < PROCESSING_MODE_LAST)) :
    GetProcessingModeAsString w = "Unknown Processing Mode" := by
  unfold PROCESSING_MODE_LAST at h
  simp only [GetProcessingModeAsString, PROCESSING_MODE_QUATERNION_AVERAGE,
    PROCESSING_MODE_COMPUTE_SHAFT_PIVOT, PROCESSING_MODE_COMPUTE_ROTATION,
    PROCESSING_MODE_COMPUTE_TRANSLATION, PROCESSING_MODE_COMPUTE_FULL_TRANSFORM,
    PROCESSING_MODE_COMPUTE_INVERSE]
  split_ifs <;> first | rfl | omega

theorem updateMode_unknown (w : Int) (h : ¬ (0 ≤ w ∧ w < UPDATE_MODE_LAST)) :
    GetUpdateModeAsString w = "Unknown Update Mode" := by
  unfold UPDATE_MODE_LAST at h
  simp only [GetUpdateModeAsString, UPDATE_MODE_MANUAL, UPDATE_MODE_AUTO]
  split_ifs <;> first | rfl | omega

theorem rotationMode_unknown (w : Int) (h : ¬ (0 ≤ w ∧ w < ROTATION_MODE_LAST)) :
    GetRotationModeAsString w = "Unknown Rotation Mode" := by
  unfold ROTATION_MODE_LAST at h
  simp only [GetRotationModeAsString, ROTATION_MODE_COPY_ALL_AXES,
    ROTATION_MODE_COPY_SINGLE_AXIS]
  split_ifs <;> first | rfl | omega

theorem dependentAxesMode_unknown (w : Int) (h : ¬ (0 ≤ w ∧ w < DEPENDENT_AXES_MODE_LAST)) :
    GetDependentAxesModeAsString w = "Unknown Dependent Axes Mode" := by
  unfold DEPENDENT_AXES_MODE_LAST at h
  simp only [GetDependentAxesModeAsString, DEPENDENT_AXES_MODE_FROM_PIVOT,
    DEPENDENT_AXES_MODE_FROM_SECONDARY_AXIS]
  split_ifs <;> first | rfl | omega

theorem axisLabel_unknown (w : Int) (h : ¬ (0 ≤ w ∧ w < AXIS_LABEL_LAST)) :
    GetAxisLabelAsString w = "Unknown Axis" := by
  unfold AXIS_LABEL_LAST at h
  simp only [GetAxisLabelAsString, AXIS_LABEL_X, AXIS_LABEL_Y, AXIS_LABEL_Z]
  split_ifs <;> first | rfl | omega

theorem processingMode_fromString_inverse (name : String) (w : Int) :
    (GetProcessingModeFromString name = -1 ∨
      (0 ≤ GetProcessingModeFromString name ∧ GetProcessingModeFromString name < PROCESSING_MODE_LAST ∧
        GetProcessingModeAsString (GetProcessingModeFromString name) = name)) ∧
    (GetProcessingModeFromString name = -1 ↔
      ∀ v : Int, 0 ≤ v ∧ v < PROCESSING_MODE_LAST → GetProcessingModeAsString v ≠ name) ∧
    (¬ (0 ≤ w ∧ w < PROCESSING_MODE_LAST) → GetProcessingModeFromString (GetProcessingModeAsString w) = -1) := by
  have hres := fromStringLoop_result GetProcessingModeAsString PROCESSING_MODE_LAST name
  refine ⟨?_, ?_, ?_⟩
  · rcases hres with h | h
    · exact Or.inl h.1
    · exact Or.inr h
  · constructor
    · intro hm
      rcases hres with h | h
      · exact h.2
      · exact absurd hm (minus_one_not_nonneg _ h.1)
    · intro hall
      simp only [GetProcessingModeFromString, fromStringLoop_none _ _ name hall]
  · intro hw
    rw [processingMode_unknown w hw]
    decide

theorem updateMode_fromString_inverse (name : String) (w : Int) :
    (GetUpdateModeFromString name = -1 ∨
      (0 ≤ GetUpdateModeFromString name ∧ GetUpdateModeFromString name < UPDATE_MODE_LAST ∧
        GetUpdateModeAsString (GetUpdateModeFromString name) = name)) ∧
    (GetUpdateModeFromString name = -1 ↔
      ∀ v : Int, 0 ≤ v ∧ v < UPDATE_MODE_LAST → GetUpdateModeAsString v ≠ name) ∧
    (¬ (0 ≤ w ∧ w < UPDATE_MODE_LAST) → GetUpdateModeFromString (GetUpdateModeAsString w) = -1) := by
  have hres := fromStringLoop_result GetUpdateModeAsString UPDATE_MODE_LAST name
  refine ⟨?_, ?_, ?_⟩
  · rcases hres with h | h
    · exact Or.inl h.1
    · exact Or.inr h
  · constructor
    · intro hm
      rcases hres with h | h
      · exact h.2
      · exact absurd hm (minus_one_not_nonneg _ h.1)
    · intro hall
      simp only [GetUpdateModeFromString, fromStringLoop_none _ _ name hall]
  · intro hw
    rw [updateMode_unknown w hw]
    decide

theorem rotationMode_fromString_inverse (name : String) (w : Int) :
    (GetRotationModeFromString name = -1 ∨
      (0 ≤ GetRotationModeFromString name ∧ GetRotationModeFromString name < ROTATION_MODE_LAST ∧
        GetRotationModeAsString (GetRotationModeFromString name) = name)) ∧
    (GetRotationModeFromString name = -1 ↔
      ∀ v : Int, 0 ≤ v ∧ v < ROTATION_MODE_LAST → GetRotationModeAsString v ≠ name) ∧
    (¬ (0 ≤ w ∧ w < ROTATION_MODE_LAST) → GetRotationModeFromString (GetRotationModeAsString w) = -1) := by
  have hres := fromStringLoop_result GetRotationModeAsString ROTATION_MODE_LAST name
  refine ⟨?_, ?_, ?_⟩
  · rcases hres with h | h
    · exact Or.inl h.1
    · exact Or.inr h
  · constructor
    · intro hm
      rcases hres with h | h
      · exact h.2
      · exact absurd hm (minus_one_not_nonneg _ h.1)
    · intro hall
      simp only [GetRotationModeFromString, fromStringLoop_none _ _ name hall]
  · intro hw
    rw [rotationMode_unknown w hw]
    decide

theorem dependentAxesMode_fromString_inverse (name : String) (w : Int) :
    (GetDependentAxesModeFromString name = -1 ∨
      (0 ≤ GetDependentAxesModeFromString name ∧ GetDependentAxesModeFromString name < DEPENDENT_AXES_MODE_LAST ∧
        GetDependentAxesModeAsString (GetDependentAxesModeFromString name) = name)) ∧
    (GetDependentAxesModeFromString name = -1 ↔
      ∀ v : Int, 0 ≤ v ∧ v < DEPENDENT_AXES_MODE_LAST → GetDependentAxesModeAsString v ≠ name) ∧
    (¬ (0 ≤ w ∧ w < DEPENDENT_AXES_MODE_LAST) → GetDependentAxesModeFromString (GetDependentAxesModeAsString w) = -1) := by
  have hres := fromStringLoop_result GetDependentAxesModeAsString DEPENDENT_AXES_MODE_LAST name
  refine ⟨?_, ?_, ?_⟩
  · rcases hres with h | h
    · exact Or.inl h.1
    · exact Or.inr h
  · constructor
    · intro hm
      rcases hres with h | h
      · exact h.2
      · exact absurd hm (minus_one_not_nonneg _ h.1)
    · intro hall
      simp only [GetDependentAxesModeFromString, fromStringLoop_none _ _ name hall]
  · intro hw
    rw [dependentAxesMode_unknown w hw]
    decide

theorem axisLabel_fromString_inverse (name : String) (w : Int) :
    (GetAxisLabelFromString name = -1 ∨
      (0 ≤ GetAxisLabelFromString name ∧ GetAxisLabelFromString name < AXIS_LABEL_LAST ∧
        GetAxisLabelAsString (GetAxisLabelFromString name) = name)) ∧
    (GetAxisLabelFromString name = -1 ↔
      ∀ v : Int, 0 ≤ v ∧ v < AXIS_LABEL_LAST → GetAxisLabelAsString v ≠ name) ∧
    (¬ (0 ≤ w ∧ w < AXIS_LABEL_LAST) → GetAxisLabelFromString (GetAxisLabelAsString w) = -1) := by
  have hres := fromStringLoop_result GetAxisLabelAsString AXIS_LABEL_LAST name
  refine ⟨?_, ?_, ?_⟩
  · rcases hres with h | h
    · exact Or.inl h.1
    · exact Or.inr h
  · constructor
    · intro hm
      rcases hres with h | h
      · exact h.2
      · exact absurd hm (minus_one_not_nonneg _ h.1)
    · intro hall
      simp only [GetAxisLabelFromString, fromStringLoop_none _ _ name hall]
  · intro hw
    rw [axisLabel_unknown w hw]
    decide

/-- C27: for each of the five enumerated types and every string `name`, the
`FromString` function returns -1 or a value `i` with `0 <= i < *_LAST` whose
display string is `name`; it returns -1 exactly when no valid value has `name`
as its display string; and the string `AsString` returns for a value `w`
outside the domain (the "Unknown ..." string) is mapped to -1. -/
theorem C27_fromString_inverse_of_asString (name : String) (w : Int) :
    ((GetProcessingModeFromString name = -1 ∨
        (0 ≤ GetProcessingModeFromString name ∧ GetProcessingModeFromString name < PROCESSING_MODE_LAST ∧
          GetProcessingModeAsString (GetProcessingModeFromString name) = name)) ∧
      (GetProcessingModeFromString name = -1 ↔
        ∀ v : Int, 0 ≤ v ∧ v < PROCESSING_MODE_LAST → GetProcessingModeAsString v ≠ name) ∧
      (¬ (0 ≤ w ∧ w < PROCESSING_MODE_LAST) → GetProcessingModeFromString (GetProcessingModeAsString w) = -1)) ∧
    ((GetUpdateModeFromString name = -1 ∨
        (0 ≤ GetUpdateModeFromString name ∧ GetUpdateModeFromString name < UPDATE_MODE_LAST ∧
          GetUpdateModeAsString (GetUpdateModeFromString name) = name)) ∧
      (GetUpdateModeFromString name = -1 ↔
        ∀ v : Int, 0 ≤ v ∧ v < UPDATE_MODE_LAST → GetUpdateModeAsString v ≠ name) ∧
      (¬ (0 ≤ w ∧ w < UPDATE_MODE_LAST) → GetUpdateModeFromString (GetUpdateModeAsString w) = -1)) ∧
    ((GetRotationModeFromString name = -1 ∨
        (0 ≤ GetRotationModeFromString name ∧ GetRotationModeFromString name < ROTATION_MODE_LAST ∧
          GetRotationModeAsString (GetRotationModeFromString name) = name)) ∧
      (GetRotationModeFromString name = -1 ↔
        ∀ v : Int, 0 ≤ v ∧ v < ROTATION_MODE_LAST → GetRotationModeAsString v ≠ name) ∧
      (¬ (0 ≤ w ∧ w < ROTATION_MODE_LAST) → GetRotationModeFromString (GetRotationModeAsString w) = -1)) ∧
    ((GetDependentAxesModeFromString name = -1 ∨
        (0 ≤ GetDependentAxesModeFromString name ∧ GetDependentAxesModeFromString name < DEPENDENT_AXES_MODE_LAST ∧
          GetDependentAxesModeAsString (GetDependentAxesModeFromString name) = name)) ∧
      (GetDependentAxesModeFromString name = -1 ↔
        ∀ v : Int, 0 ≤ v ∧ v < DEPENDENT_AXES_MODE_LAST → GetDependentAxesModeAsString v ≠ name) ∧
      (¬ (0 ≤ w ∧ w < DEPENDENT_AXES_MODE_LAST) → GetDependentAxesModeFromString (GetDependentAxesModeAsString w) = -1)) ∧
    ((GetAxisLabelFromString name = -1 ∨
        (0 ≤ GetAxisLabelFromString name ∧ GetAxisLabelFromString name < AXIS_LABEL_LAST ∧
          GetAxisLabelAsString (GetAxisLabelFromString name) = name)) ∧
      (GetAxisLabelFromString name = -1 ↔
        ∀ v : Int, 0 ≤ v ∧ v < AXIS_LABEL_LAST → GetAxisLabelAsString v ≠ name) ∧
      (¬ (0 ≤ w ∧ w < AXIS_LABEL_LAST) → GetAxisLabelFromString (GetAxisLabelAsString w) = -1)) :=
  ⟨processingMode_fromString_inverse name w,
   updateMode_fromString_inverse name w,
   rotationMode_fromString_inverse name w,
   dependentAxesMode_fromString_inverse name w,
   axisLabel_fromString_inverse name w⟩

/-- Witness of C27: the value 7 is outside the processing modes, and its
"Unknown Processing Mode" string is mapped to -1. -/
theorem C27_fromString_inverse_of_asString_witness :
    ¬ ((0 : Int) ≤ 7 ∧ (7 : Int) < PROCESSING_MODE_LAST) ∧
    GetProcessingModeFromString (GetProcessingModeAsString 7) = -1 :=
  ⟨by decide, (C27_fromString_inverse_of_asString "Z Axis" 7).1.2.2 (by decide)⟩

/-! ## Saving and loading again -/

theorem readXMLAttributes_loop_concat (host : XMLHost) (l1 l2 : List (String × String))
    (r : Node × List Event) :
    ReadXMLAttributes_loop host (l1 ++ l2) r =
      ReadXMLAttributes_loop host l2 (ReadXMLAttributes_loop host l1 r) := by
  induction l1 generalizing r with
  | nil => rfl
  | cons a as ih =>
    simp only [List.cons_append, ReadXMLAttributes_loop]
    exact ih _

theorem loopBody_updatesPerSecond (host : XMLHost) (t : Node) (value : String) :
    (ReadXMLAttributes_loopBody host "UpdatesPerSecond" value t).1 =
      { t with UpdatesPerSecond := host.extractUpdatesPerSecond value t.UpdatesPerSecond } := by
  simp only [ReadXMLAttributes_loopBody, if_true]

theorem loopBody_updateMode_valid (host : XMLHost) (t : Node) (v : Int)
    (hv : 0 ≤ v ∧ v < UPDATE_MODE_LAST) :
    (ReadXMLAttributes_loopBody host "UpdateMode" (GetUpdateModeAsString v) t).1 =
      { t with UpdateMode := v } := by
  have hr := (updateMode_roundtrip v hv).1
  have hin : v ≥ 0 ∧ v < UPDATE_MODE_LAST := hv
  have h1 : ¬ ("UpdateMode" = "UpdatesPerSecond") := by decide
  simp only [ReadXMLAttributes_loopBody, if_neg h1, if_true, hr, if_pos hin]

theorem loopBody_processingMode_valid (host : XMLHost) (t : Node) (v : Int)
    (hv : 0 ≤ v ∧ v < PROCESSING_MODE_LAST) :
    (ReadXMLAttributes_loopBody host "ProcessingMode" (GetProcessingModeAsString v) t).1 =
      { t with ProcessingMode := v } := by
  have hr := (processingMode_roundtrip v hv).1
  have hin : v ≥ 0 ∧ v < PROCESSING_MODE_LAST := hv
  have h1 : ¬ ("ProcessingMode" = "UpdatesPerSecond") := by decide
  have h2 : ¬ ("ProcessingMode" = "UpdateMode") := by decide
  simp only [ReadXMLAttributes_loopBody, if_neg h1, if_neg h2, if_true, hr, if_pos hin]

theorem loopBody_rotationMode_valid (host : XMLHost) (t : Node) (v : Int)
    (hv : 0 ≤ v ∧ v < ROTATION_MODE_LAST) :
    (ReadXMLAttributes_loopBody host "RotationMode" (GetRotationModeAsString v) t).1 =
      { t with RotationMode := v } := by
  have hr := (rotationMode_roundtrip v hv).1
  have hin : v ≥ 0 ∧ v < ROTATION_MODE_LAST := hv
  have h1 : ¬ ("RotationMode" = "UpdatesPerSecond") := by decide
  have h2 : ¬ ("RotationMode" = "UpdateMode") := by decide
  have h3 : ¬ ("RotationMode" = "ProcessingMode") := by decide
  simp only [ReadXMLAttributes_loopBody, if_neg h1, if_neg h2, if_neg h3, if_true, hr,
    if_pos hin]

theorem loopBody_primaryAxisLabel_valid (host : XMLHost) (t : Node) (v : Int)
    (hv : 0 ≤ v ∧ v < AXIS_LABEL_LAST) :
    (ReadXMLAttributes_loopBody host "PrimaryAxisLabel" (GetAxisLabelAsString v) t).1 =
      { t with PrimaryAxisLabel := v } := by
  have hr := (axisLabel_roundtrip v hv).1
  have hin : v ≥ 0 ∧ v < AXIS_LABEL_LAST := hv
  have h1 : ¬ ("PrimaryAxisLabel" = "UpdatesPerSecond") := by decide
  have h2 : ¬ ("PrimaryAxisLabel" = "UpdateMode") := by decide
  have h3 : ¬ ("PrimaryAxisLabel" = "ProcessingMode") := by decide
  have h4 : ¬ ("PrimaryAxisLabel" = "RotationMode") := by decide
  simp only [ReadXMLAttributes_loopBody, if_neg h1, if_neg h2, if_neg h3, if_neg h4, if_true,
    hr, if_pos hin]

theorem loopBody_dependentAxesMode_valid (host : XMLHost) (t : Node) (v : Int)
    (hv : 0 ≤ v ∧ v < DEPENDENT_AXES_MODE_LAST) :
    (ReadXMLAttributes_loopBody host "DependentAxesMode"
        (GetDependentAxesModeAsString v) t).1 =
      { t with DependentAxesMode := v } := by
  have hr := (dependentAxesMode_roundtrip v hv).1
  have hin : v ≥ 0 ∧ v < DEPENDENT_AXES_MODE_LAST := hv
  have h1 : ¬ ("DependentAxesMode" = "UpdatesPerSecond") := by decide
  have h2 : ¬ ("DependentAxesMode" = "UpdateMode") := by decide
  have h3 : ¬ ("DependentAxesMode" = "ProcessingMode") := by decide
  have h4 : ¬ ("DependentAxesMode" = "RotationMode") := by decide
  have h5 : ¬ ("DependentAxesMode" = "PrimaryAxisLabel") := by decide
  simp only [ReadXMLAttributes_loopBody, if_neg h1, if_neg h2, if_neg h3, if_neg h4, if_neg h5,
    if_true, hr, if_pos hin]

theorem loopBody_secondaryAxisLabel_valid (host : XMLHost) (t : Node) (v : Int)
    (hv : 0 ≤ v ∧ v < AXIS_LABEL_LAST) :
    (ReadXMLAttributes_loopBody host "SecondaryAxisLabel" (GetAxisLabelAsString v) t).1 =
      { t with SecondaryAxisLabel := v } := by
  have hr := (axisLabel_roundtrip v hv).1
  have hin : v ≥ 0 ∧ v < AXIS_LABEL_LAST := hv
  have h1 : ¬ ("SecondaryAxisLabel" = "UpdatesPerSecond") := by decide
  have h2 : ¬ ("SecondaryAxisLabel" = "UpdateMode") := by decide
  have h3 : ¬ ("SecondaryAxisLabel" = "ProcessingMode") := by decide
  have h4 : ¬ ("SecondaryAxisLabel" = "RotationMode") := by decide
  have h5 : ¬ ("SecondaryAxisLabel" = "PrimaryAxisLabel") := by decide
  have h6 : ¬ ("SecondaryAxisLabel" = "DependentAxesMode") := by decide
  simp only [ReadXMLAttributes_loopBody, if_neg h1, if_neg h2, if_neg h3, if_neg h4, if_neg h5,
    if_neg h6, if_true, hr, if_pos hin]

theorem written_flag_is_true (b : Bool) :
    decide ((if b then "true" else "false" : String) = "true") = b := by
  cases b <;> decide

theorem SetCopyTranslationX_state (t : Node) (b : Bool) :
    (SetCopyTranslationX b t).1 = { t with CopyTranslationComponents0 := b } := by
  by_cases h : t.CopyTranslationComponents0 = b
  · rw [SetCopyTranslationX_same t b h]
    subst h
    rfl
  · rw [SetCopyTranslationX_commits t b h]

theorem SetCopyTranslationY_state (t : Node) (b : Bool) :
    (SetCopyTranslationY b t).1 = { t with CopyTranslationComponents1 := b } := by
  by_cases h : t.CopyTranslationComponents1 = b
  · rw [SetCopyTranslationY_same t b h]
    subst h
    rfl
  · rw [SetCopyTranslationY_commits t b h]

theorem SetCopyTranslationZ_state (t : Node) (b : Bool) :
    (SetCopyTranslationZ b t).1 = { t with CopyTranslationComponents2 := b } := by
  by_cases h : t.CopyTranslationComponents2 = b
  · rw [SetCopyTranslationZ_same t b h]
    subst h
    rfl
  · rw [SetCopyTranslationZ_commits t b h]

theorem loopBody_copyTranslationX_written (host : XMLHost) (t : Node) (b : Bool) :
    (ReadXMLAttributes_loopBody host "CopyTranslationX" (if b then "true" else "false") t).1 =
      { t with CopyTranslationComponents0 := b } := by
  have h1 : ¬ ("CopyTranslationX" = "UpdatesPerSecond") := by decide
  have h2 : ¬ ("CopyTranslationX" = "UpdateMode") := by decide
  have h3 : ¬ ("CopyTranslationX" = "ProcessingMode") := by decide
  have h4 : ¬ ("CopyTranslationX" = "RotationMode") := by decide
  have h5 : ¬ ("CopyTranslationX" = "PrimaryAxisLabel") := by decide
  have h6 : ¬ ("CopyTranslationX" = "DependentAxesMode") := by decide
  have h7 : ¬ ("CopyTranslationX" = "SecondaryAxisLabel") := by decide
  simp only [ReadXMLAttributes_loopBody, if_neg h1, if_neg h2, if_neg h3, if_neg h4, if_neg h5, if_neg h6, if_neg h7, if_true,
    written_flag_is_true, SetCopyTranslationX_state]

theorem loopBody_copyTranslationY_written (host : XMLHost) (t : Node) (b : Bool) :
    (ReadXMLAttributes_loopBody host "CopyTranslationY" (if b then "true" else "false") t).1 =
      { t with CopyTranslationComponents1 := b } := by
  have h1 : ¬ ("CopyTranslationY" = "UpdatesPerSecond") := by decide
  have h2 : ¬ ("CopyTranslationY" = "UpdateMode") := by decide
  have h3 : ¬ ("CopyTranslationY" = "ProcessingMode") := by decide
  have h4 : ¬ ("CopyTranslationY" = "RotationMode") := by decide
  have h5 : ¬ ("CopyTranslationY" = "PrimaryAxisLabel") := by decide
  have h6 : ¬ ("CopyTranslationY" = "DependentAxesMode") := by decide
  have h7 : ¬ ("CopyTranslationY" = "SecondaryAxisLabel") := by decide
  have h8 : ¬ ("CopyTranslationY" = "CopyTranslationX") := by decide
  simp only [ReadXMLAttributes_loopBody, if_neg h1, if_neg h2, if_neg h3, if_neg h4, if_neg h5, if_neg h6, if_neg h7, if_neg h8, if_true,
    written_flag_is_true, SetCopyTranslationY_state]

theorem loopBody_copyTranslationZ_written (host : XMLHost) (t : Node) (b : Bool) :
    (ReadXMLAttributes_loopBody host "CopyTranslationZ" (if b then "true" else "false") t).1 =
      { t with CopyTranslationComponents2 := b } := by
  have h1 : ¬ ("CopyTranslationZ" = "UpdatesPerSecond") := by decide
  have h2 : ¬ ("CopyTranslationZ" = "UpdateMode") := by decide
  have h3 : ¬ ("CopyTranslationZ" = "ProcessingMode") := by decide
  have h4 : ¬ ("CopyTranslationZ" = "RotationMode") := by decide
  have h5 : ¬ ("CopyTranslationZ" = "PrimaryAxisLabel") := by decide
  have h6 : ¬ ("CopyTranslationZ" = "DependentAxesMode") := by decide
  have h7 : ¬ ("CopyTranslationZ" = "SecondaryAxisLabel") := by decide
  have h8 : ¬ ("CopyTranslationZ" = "CopyTranslationX") := by decide
  have h9 : ¬ ("CopyTranslationZ" = "CopyTranslationY") := by decide
  simp only [ReadXMLAttributes_loopBody, if_neg h1, if_neg h2, if_neg h3, if_neg h4, if_neg h5, if_neg h6, if_neg h7, if_neg h8, if_neg h9, if_true,
    written_flag_is_true, SetCopyTranslationZ_state]

/-- The state the loop reaches on the ten attributes `WriteXML` writes for a
node `s` with valid enum fields, from any state `r`. -/
theorem readXMLAttributes_loop_written (host : XMLHost) (rate : String) (s : Node)
    (hs : EnumFieldsInDomain s) (r : Node × List Event) :
    (ReadXMLAttributes_loop host
      [ ("UpdatesPerSecond", rate),
        ("UpdateMode", GetUpdateModeAsString s.UpdateMode),
        ("ProcessingMode", GetProcessingModeAsString s.ProcessingMode),
        ("RotationMode", GetRotationModeAsString s.RotationMode),
        ("PrimaryAxisLabel", GetAxisLabelAsString s.PrimaryAxisLabel),
        ("DependentAxesMode", GetDependentAxesModeAsString s.DependentAxesMode),
        ("SecondaryAxisLabel", GetAxisLabelAsString s.SecondaryAxisLabel),
        ("CopyTranslationX", if s.CopyTranslationComponents0 then "true" else "false"),
        ("CopyTranslationY", if s.CopyTranslationComponents1 then "true" else "false"),
        ("CopyTranslationZ", if s.CopyTranslationComponents2 then "true" else "false") ] r).1 =
      { r.1 with
        UpdatesPerSecond := host.extractUpdatesPerSecond rate r.1.UpdatesPerSecond
        UpdateMode := s.UpdateMode
        ProcessingMode := s.ProcessingMode
        RotationMode := s.RotationMode
        PrimaryAxisLabel := s.PrimaryAxisLabel
        DependentAxesMode := s.DependentAxesMode
        SecondaryAxisLabel := s.SecondaryAxisLabel
        CopyTranslationComponents0 := s.CopyTranslationComponents0
        CopyTranslationComponents1 := s.CopyTranslationComponents1
        CopyTranslationComponents2 := s.CopyTranslationComponents2 } := by
  obtain ⟨hpm, hum, hrm, hdm, hp, hsec⟩ := hs
  have hp2 := (validAxisLabel_iff _).mp hp
  have hs2 := (validAxisLabel_iff _).mp hsec
  simp only [ReadXMLAttributes_loop, loopBody_updatesPerSecond,
    loopBody_updateMode_valid host _ _ hum, loopBody_processingMode_valid host _ _ hpm,
    loopBody_rotationMode_valid host _ _ hrm, loopBody_primaryAxisLabel_valid host _ _ hp2,
    loopBody_dependentAxesMode_valid host _ _ hdm,
    loopBody_secondaryAxisLabel_valid host _ _ hs2,
    loopBody_copyTranslationX_written, loopBody_copyTranslationY_written,
    loopBody_copyTranslationZ_written]

/-- C22: for a node `s` whose six enum fields are within their domains, loading
the attributes that `WriteXML` writes for `s` (after whatever the superclass
writes) into any node `t` leaves `t` with the six enum fields and the three
CopyTranslation flags of `s`. -/
theorem C22_save_load_roundtrip (w : XMLWriteHost) (host : XMLHost) (s t : Node)
    (hs : EnumFieldsInDomain s) :
    (ReadXMLAttributes host (WriteXML w s) t).1.UpdateMode = s.UpdateMode ∧
    (ReadXMLAttributes host (WriteXML w s) t).1.ProcessingMode = s.ProcessingMode ∧
    (ReadXMLAttributes host (WriteXML w s) t).1.RotationMode = s.RotationMode ∧
    (ReadXMLAttributes host (WriteXML w s) t).1.PrimaryAxisLabel = s.PrimaryAxisLabel ∧
    (ReadXMLAttributes host (WriteXML w s) t).1.DependentAxesMode = s.DependentAxesMode ∧
    (ReadXMLAttributes host (WriteXML w s) t).1.SecondaryAxisLabel = s.SecondaryAxisLabel ∧
    (ReadXMLAttributes host (WriteXML w s) t).1.CopyTranslationComponents0
      = s.CopyTranslationComponents0 ∧
    (ReadXMLAttributes host (WriteXML w s) t).1.CopyTranslationComponents1
      = s.CopyTranslationComponents1 ∧
    (ReadXMLAttributes host (WriteXML w s) t).1.CopyTranslationComponents2
      = s.CopyTranslationComponents2 := by
  have hst : (ReadXMLAttributes host (WriteXML w s) t).1 =
      (ReadXMLAttributes_loop host
        [ ("UpdatesPerSecond", w.printUpdatesPerSecond s.UpdatesPerSecond),
          ("UpdateMode", GetUpdateModeAsString s.UpdateMode),
          ("ProcessingMode", GetProcessingModeAsString s.ProcessingMode),
          ("RotationMode", GetRotationModeAsString s.RotationMode),
          ("PrimaryAxisLabel", GetAxisLabelAsString s.PrimaryAxisLabel),
          ("DependentAxesMode", GetDependentAxesModeAsString s.DependentAxesMode),
          ("SecondaryAxisLabel", GetAxisLabelAsString s.SecondaryAxisLabel),
          ("CopyTranslationX", if s.CopyTranslationComponents0 then "true" else "false"),
          ("CopyTranslationY", if s.CopyTranslationComponents1 then "true" else "false"),
          ("CopyTranslationZ", if s.CopyTranslationComponents2 then "true" else "false") ]
        (ReadXMLAttributes_loop host (w.superclassWriteXML s.NodeReferences)
          ({ t with NodeReferences :=
              host.superclassReadXMLAttributes (WriteXML w s) t.NodeReferences }, []))).1 := by
    simp only [ReadXMLAttributes]
    rw [show WriteXML w s = w.superclassWriteXML s.NodeReferences ++ _ from rfl]
    rw [readXMLAttributes_loop_concat]
  rw [hst, readXMLAttributes_loop_written host _ s hs]
  exact ⟨rfl, rfl, rfl, rfl, rfl, rfl, rfl, rfl, rfl⟩

/-- Witness of C22: the attributes written for a node in the secondary-axis
mode with the labels (X, Z) and the flag X off, loaded into the default node,
give these values. -/
theorem C22_save_load_roundtrip_witness :
    (ReadXMLAttributes ⟨fun _ t => t, fun _ u => u⟩
      (WriteXML ⟨fun _ => [], fun _ => "60"⟩
        { constructor with
          DependentAxesMode := DEPENDENT_AXES_MODE_FROM_SECONDARY_AXIS
          PrimaryAxisLabel := AXIS_LABEL_X
          SecondaryAxisLabel := AXIS_LABEL_Z
          CopyTranslationComponents0 := false })
      constructor).1.PrimaryAxisLabel = AXIS_LABEL_X :=
  (C22_save_load_roundtrip ⟨fun _ => [], fun _ => "60"⟩ ⟨fun _ t => t, fun _ u => u⟩
    { constructor with
      DependentAxesMode := DEPENDENT_AXES_MODE_FROM_SECONDARY_AXIS
      PrimaryAxisLabel := AXIS_LABEL_X
      SecondaryAxisLabel := AXIS_LABEL_Z
      CopyTranslationComponents0 := false }
    constructor
    ⟨by decide, by decide, by decide, by decide, Or.inl rfl, Or.inr (Or.inr rfl)⟩).2.2.2.1

/-! ## The enum fields stay in their domains -/

theorem enumFieldsInDomain_constructor : EnumFieldsInDomain constructor := by
  refine ⟨by decide, by decide, by decide, by decide, Or.inr (Or.inr rfl), Or.inr (Or.inl rfl)⟩

theorem checkAndCorrect_inDomain (s : Node) (h : EnumFieldsInDomain s) :
    EnumFieldsInDomain (CheckAndCorrectForDuplicateAxes s).1 := by
  obtain ⟨hpm, hum, hrm, hdm, hp, hsec⟩ := h
  rw [checkAndCorrect_state s hp]
  refine ⟨hpm, hum, hrm, hdm, hp, ?_⟩
  show ValidAxisLabel (correctedSecondaryAxis s.PrimaryAxisLabel s.SecondaryAxisLabel)
  unfold correctedSecondaryAxis
  split_ifs
  · exact Or.inr (Or.inl rfl)
  · exact Or.inr (Or.inr rfl)
  · exact hsec

theorem correction_branch_inDomain (c : Prop) [Decidable c] (s : Node)
    (h : EnumFieldsInDomain s) :
    EnumFieldsInDomain (if c then CheckAndCorrectForDuplicateAxes s else (s, [])).1 := by
  split_ifs
  · exact checkAndCorrect_inDomain s h
  · exact h

theorem call_inDomain (s : Node) (c : Call) (h : EnumFieldsInDomain s) :
    EnumFieldsInDomain (c.apply s).1 := by
  have hall := h
  obtain ⟨hpm, hum, hrm, hdm, hp, hsec⟩ := h
  cases c with
  | SetProcessingMode v =>
    simp only [Call.apply]
    by_cases hv : 0 ≤ v ∧ v < PROCESSING_MODE_LAST
    · by_cases hcur : s.ProcessingMode = v
      · rw [SetProcessingMode_same s v hv hcur]; exact hall
      · rw [SetProcessingMode_commits s v hv hcur]; exact ⟨hv, hum, hrm, hdm, hp, hsec⟩
    · rw [SetProcessingMode_rejects s v (by omega)]; exact hall
  | SetUpdateMode v =>
    simp only [Call.apply]
    by_cases hv : 0 ≤ v ∧ v < UPDATE_MODE_LAST
    · by_cases hcur : s.UpdateMode = v
      · rw [SetUpdateMode_same s v hv hcur]; exact hall
      · rw [SetUpdateMode_commits s v hv hcur]; exact ⟨hpm, hv, hrm, hdm, hp, hsec⟩
    · rw [SetUpdateMode_rejects s v (by omega)]; exact hall
  | SetRotationMode v =>
    simp only [Call.apply]
    by_cases hv : 0 ≤ v ∧ v < ROTATION_MODE_LAST
    · by_cases hcur : s.RotationMode = v
      · rw [SetRotationMode_same s v hv hcur]; exact hall
      · rw [SetRotationMode_commits s v hv hcur]; exact ⟨hpm, hum, hv, hdm, hp, hsec⟩
    · rw [SetRotationMode_rejects s v (by omega)]; exact hall
  | SetDependentAxesMode v =>
    simp only [Call.apply]
    by_cases hv : 0 ≤ v ∧ v < DEPENDENT_AXES_MODE_LAST
    · by_cases hcur : s.DependentAxesMode = v
      · rw [SetDependentAxesMode_same s v hv hcur]; exact hall
      · rw [SetDependentAxesMode_commits s v hv hcur]
        exact correction_branch_inDomain _ { s with DependentAxesMode := v }
          ⟨hpm, hum, hrm, hv, hp, hsec⟩
    · rw [SetDependentAxesMode_rejects s v (by omega)]; exact hall
  | SetPrimaryAxisLabel v =>
    simp only [Call.apply]
    by_cases hv : 0 ≤ v ∧ v < AXIS_LABEL_LAST
    · by_cases hcur : s.PrimaryAxisLabel = v
      · rw [SetPrimaryAxisLabel_same s v hv hcur]; exact hall
      · rw [SetPrimaryAxisLabel_commits s v hv hcur]
        exact correction_branch_inDomain _ { s with PrimaryAxisLabel := v }
          ⟨hpm, hum, hrm, hdm, (validAxisLabel_iff v).mpr hv, hsec⟩
    · rw [SetPrimaryAxisLabel_rejects s v (by omega)]; exact hall
  | SetSecondaryAxisLabel v =>
    simp only [Call.apply]
    by_cases hv : 0 ≤ v ∧ v < AXIS_LABEL_LAST
    · by_cases hcur : s.SecondaryAxisLabel = v
      · rw [SetSecondaryAxisLabel_same s v hv hcur]; exact hall
      · rw [SetSecondaryAxisLabel_commits s v hv hcur]
        exact correction_branch_inDomain _ { s with SecondaryAxisLabel := v }
          ⟨hpm, hum, hrm, hdm, hp, (validAxisLabel_iff v).mpr hv⟩
    · rw [SetSecondaryAxisLabel_rejects s v (by omega)]; exact hall
  | SetCopyTranslationX b =>
    simp only [Call.apply]
    rw [SetCopyTranslationX_state]
    exact hall
  | SetCopyTranslationY b =>
    simp only [Call.apply]
    rw [SetCopyTranslationY_state]
    exact hall
  | SetCopyTranslationZ b =>
    simp only [Call.apply]
    rw [SetCopyTranslationZ_state]
    exact hall

theorem loopBody_inDomain (host : XMLHost) (attName attValue : String) (s : Node)
    (h : EnumFieldsInDomain s) :
    EnumFieldsInDomain (ReadXMLAttributes_loopBody host attName attValue s).1 := by
  have hall := h
  obtain ⟨hpm, hum, hrm, hdm, hp, hsec⟩ := h
  by_cases h1 : attName = "UpdatesPerSecond"
  · simp only [ReadXMLAttributes_loopBody, if_pos h1]
    exact hall
  by_cases h2 : attName = "UpdateMode"
  · simp only [ReadXMLAttributes_loopBody, if_neg h1, if_pos h2]
    split_ifs with hr
    · exact ⟨hpm, ⟨hr.1, hr.2⟩, hrm, hdm, hp, hsec⟩
    · exact ⟨hpm, (by decide : 0 ≤ UPDATE_MODE_MANUAL ∧ UPDATE_MODE_MANUAL < UPDATE_MODE_LAST),
        hrm, hdm, hp, hsec⟩
  by_cases h3 : attName = "ProcessingMode"
  · simp only [ReadXMLAttributes_loopBody, if_neg h1, if_neg h2, if_pos h3]
    split_ifs with hr
    · exact ⟨⟨hr.1, hr.2⟩, hum, hrm, hdm, hp, hsec⟩
    · exact ⟨(by decide : 0 ≤ PROCESSING_MODE_QUATERNION_AVERAGE ∧
        PROCESSING_MODE_QUATERNION_AVERAGE < PROCESSING_MODE_LAST), hum, hrm, hdm, hp, hsec⟩
  by_cases h4 : attName = "RotationMode"
  · simp only [ReadXMLAttributes_loopBody, if_neg h1, if_neg h2, if_neg h3, if_pos h4]
    split_ifs with hr
    · exact ⟨hpm, hum, ⟨hr.1, hr.2⟩, hdm, hp, hsec⟩
    · exact ⟨hpm, hum, (by decide : 0 ≤ ROTATION_MODE_COPY_ALL_AXES ∧
        ROTATION_MODE_COPY_ALL_AXES < ROTATION_MODE_LAST), hdm, hp, hsec⟩
  by_cases h5 : attName = "PrimaryAxisLabel"
  · simp only [ReadXMLAttributes_loopBody, if_neg h1, if_neg h2, if_neg h3, if_neg h4, if_pos h5]
    split_ifs with hr
    · exact ⟨hpm, hum, hrm, hdm, (validAxisLabel_iff _).mpr ⟨hr.1, hr.2⟩, hsec⟩
    · exact ⟨hpm, hum, hrm, hdm, Or.inr (Or.inr rfl), hsec⟩
  by_cases h6 : attName = "DependentAxesMode"
  · simp only [ReadXMLAttributes_loopBody, if_neg h1, if_neg h2, if_neg h3, if_neg h4, if_neg h5, if_pos h6]
    split_ifs with hr
    · exact ⟨hpm, hum, hrm, ⟨hr.1, hr.2⟩, hp, hsec⟩
    · exact ⟨hpm, hum, hrm, (by decide : 0 ≤ DEPENDENT_AXES_MODE_FROM_PIVOT ∧
        DEPENDENT_AXES_MODE_FROM_PIVOT < DEPENDENT_AXES_MODE_LAST), hp, hsec⟩
  by_cases h7 : attName = "SecondaryAxisLabel"
  · simp only [ReadXMLAttributes_loopBody, if_neg h1, if_neg h2, if_neg h3, if_neg h4, if_neg h5, if_neg h6, if_pos h7]
    split_ifs with hr
    · exact ⟨hpm, hum, hrm, hdm, hp, (validAxisLabel_iff _).mpr ⟨hr.1, hr.2⟩⟩
    · exact ⟨hpm, hum, hrm, hdm, hp, Or.inr (Or.inl rfl)⟩
  by_cases h8 : attName = "CopyTranslationX"
  · simp only [ReadXMLAttributes_loopBody, if_neg h1, if_neg h2, if_neg h3, if_neg h4, if_neg h5, if_neg h6, if_neg h7, if_pos h8]
    rw [SetCopyTranslationX_state]
    exact hall
  by_cases h9 : attName = "CopyTranslationY"
  · simp only [ReadXMLAttributes_loopBody, if_neg h1, if_neg h2, if_neg h3, if_neg h4, if_neg h5, if_neg h6, if_neg h7, if_neg h8, if_pos h9]
    rw [SetCopyTranslationY_state]
    exact hall
  by_cases h10 : attName = "CopyTranslationZ"
  · simp only [ReadXMLAttributes_loopBody, if_neg h1, if_neg h2, if_neg h3, if_neg h4, if_neg h5, if_neg h6, if_neg h7, if_neg h8, if_neg h9, if_pos h10]
    rw [SetCopyTranslationZ_state]
    exact hall
  simp only [ReadXMLAttributes_loopBody, if_neg h1, if_neg h2, if_neg h3, if_neg h4, if_neg h5, if_neg h6, if_neg h7, if_neg h8, if_neg h9, if_neg h10]
  exact hall

theorem loop_inDomain (host : XMLHost) (atts : List (String × String)) (r : Node × List Event)
    (h : EnumFieldsInDomain r.1) :
    EnumFieldsInDomain (ReadXMLAttributes_loop host atts r).1 := by
  induction atts generalizing r with
  | nil => exact h
  | cons a as ih =>
    simp only [ReadXMLAttributes_loop]
    exact ih _ (loopBody_inDomain host a.1 a.2 r.1 h)

theorem readXMLAttributes_inDomain (host : XMLHost) (atts : List (String × String)) (s : Node)
    (h : EnumFieldsInDomain s) :
    EnumFieldsInDomain (ReadXMLAttributes host atts s).1 := by
  simp only [ReadXMLAttributes]
  exact loop_inDomain host atts _ h

theorem run_inDomain (host : XMLHost) (calls : List NodeCall) (s : Node)
    (h : EnumFieldsInDomain s) :
    EnumFieldsInDomain (runNodeCalls host s calls) := by
  induction calls generalizing s with
  | nil => exact h
  | cons c cs ih =>
    apply ih
    cases c with
    | setter c => exact call_inDomain s c h
    | ReadXMLAttributes atts => exact readXMLAttributes_inDomain host atts s h

/-- C25: in every state reached from the constructor's state by a sequence of
mode-setter calls (any integer or boolean arguments) and `ReadXMLAttributes`
calls (any attribute lists), whatever the superclass and the stream extraction
do, `0 <= ProcessingMode < PROCESSING_MODE_LAST`,
`0 <= UpdateMode < UPDATE_MODE_LAST`, `0 <= RotationMode < ROTATION_MODE_LAST`,
`0 <= DependentAxesMode < DEPENDENT_AXES_MODE_LAST`, and the primary and the
secondary axis label are each one of X, Y, Z. The state after the first `k`
calls of `calls` is `runNodeCalls host constructor (calls.take k)`. -/
theorem C25_enum_fields_stay_in_domain (host : XMLHost) (calls : List NodeCall) (k : Nat) :
    (0 ≤ (runNodeCalls host constructor (calls.take k)).ProcessingMode ∧
      (runNodeCalls host constructor (calls.take k)).ProcessingMode < PROCESSING_MODE_LAST) ∧
    (0 ≤ (runNodeCalls host constructor (calls.take k)).UpdateMode ∧
      (runNodeCalls host constructor (calls.take k)).UpdateMode < UPDATE_MODE_LAST) ∧
    (0 ≤ (runNodeCalls host constructor (calls.take k)).RotationMode ∧
      (runNodeCalls host constructor (calls.take k)).RotationMode < ROTATION_MODE_LAST) ∧
    (0 ≤ (runNodeCalls host constructor (calls.take k)).DependentAxesMode ∧
      (runNodeCalls host constructor (calls.take k)).DependentAxesMode
        < DEPENDENT_AXES_MODE_LAST) ∧
    ((runNodeCalls host constructor (calls.take k)).PrimaryAxisLabel = AXIS_LABEL_X ∨
      (runNodeCalls host constructor (calls.take k)).PrimaryAxisLabel = AXIS_LABEL_Y ∨
      (runNodeCalls host constructor (calls.take k)).PrimaryAxisLabel = AXIS_LABEL_Z) ∧
    ((runNodeCalls host constructor (calls.take k)).SecondaryAxisLabel = AXIS_LABEL_X ∨
      (runNodeCalls host constructor (calls.take k)).SecondaryAxisLabel = AXIS_LABEL_Y ∨
      (runNodeCalls host constructor (calls.take k)).SecondaryAxisLabel = AXIS_LABEL_Z) :=
  run_inDomain host (calls.take k) constructor enumFieldsInDomain_constructor

end vtkMRMLTransformProcessorNode
